import Mathlib

/-!
# IOS HLE kernel (Source/Core/Core/IOS/IOS.cpp): descriptor table, IPC dispatch, reply timing

A shallow embedding of `Kernel::GetFreeDeviceID`, `Kernel::GetDeviceByName`,
`Kernel::OpenDevice`, `Kernel::HandleIPCCommand`, `Kernel::ExecuteIPCCommand`,
`Kernel::EnqueueIPCReply`, `Kernel::HandleIPCEvent`, `Kernel::UpdateIPC`, `SetupMemory`,
`Kernel::AddDevice`, the constructor and destructor of `EmulationKernel`, `Kernel::BootIOS`,
`Kernel::BootstrapPPC` and `Kernel::DoState`.

Conventions of the embedding.

* Machine integers are `Nat`/`Int` with explicit reduction (`toU32`, `toS32`, `toS64`, `% 2^64`).
* `m_fdmap` (a `std::array` of `IPC_MAX_FDS` shared pointers) is a map from slot index to an
  optional device; only indices below `IPC_MAX_FDS` are slots.  A guest-controlled index goes
  through `fdmapAt`, which faults outside the array.
* A `shared_ptr<Device>` is a `Device` value carrying the identity of the object it points to
  (`id`), its type tag and its name.  `std::make_shared` draws a fresh identity from
  `Sys.next_object`.
* Device backends are outside IOS.cpp.  They are a parameter (`Backend`): each operation is a
  function of the trace of earlier device calls and of guest memory, and yields its result and
  the new guest memory (a device's side effects are confined to its own state and to guest
  memory).  The kernel functions append every call they make to `Sys.calls`.
* Constants declared in headers that are not part of IOS.cpp are a parameter (`Consts`).
* A save state is the list of the values handed to `PointerWrap::Do`, in order (`Item`); a
  device's own state and the state of the cryptographic subsystem are one opaque item each.
-/

namespace IOS.HLE

/-! ## Machine integers -/

/-- Conversion of a signed value to `u32` (`static_cast<u32>`). -/
def toU32 (x : Int) : Nat := (x % 4294967296).toNat

/-- Conversion of an unsigned value to `s32` (`static_cast<int>`, a `u32` returned as `s32`). -/
def toS32 (x : Nat) : Int :=
  if x % 4294967296 < 2147483648 then ((x % 4294967296 : Nat) : Int)
  else ((x % 4294967296 : Nat) : Int) - 4294967296

/-- Conversion of a `u64` to `s64`. -/
def toS64 (x : Nat) : Int :=
  if x % 18446744073709551616 < 9223372036854775808 then ((x % 18446744073709551616 : Nat) : Int)
  else ((x % 18446744073709551616 : Nat) : Int) - 18446744073709551616

/-- Conversion of a signed value to `u64`. -/
def toU64 (x : Int) : Nat := (x % 18446744073709551616).toNat

/-! ## Guest memory -/

/-- Guest memory: one byte per address. -/
abbrev Mem := Nat → Nat

/-- Modelled from the spec: `Memory::Read_U8` (Core/HW/Memmap is not among the sources); the
guest-memory interface has byte granularity. -/
def Read_U8 (mem : Mem) (address : Nat) : Nat := mem address % 256

/-- Modelled from the spec: `Memory::Write_U8` (Core/HW/Memmap is not among the sources). -/
def Write_U8 (value : Nat) (address : Nat) (mem : Mem) : Mem :=
  fun x => if x = address then value % 256 else mem x

/-- Modelled from the spec: `Memory::Read_U32` (Core/HW/Memmap is not among the sources); the
guest-memory interface is big-endian. -/
def Read_U32 (mem : Mem) (address : Nat) : Nat :=
  Read_U8 mem address * 16777216 + Read_U8 mem (address + 1) * 65536
    + Read_U8 mem (address + 2) * 256 + Read_U8 mem (address + 3)

/-- Modelled from the spec: `Memory::Write_U32` (Core/HW/Memmap is not among the sources); the
guest-memory interface is big-endian. -/
def Write_U32 (value : Nat) (address : Nat) (mem : Mem) : Mem :=
  Write_U8 value (address + 3)
    (Write_U8 (value / 256) (address + 2)
      (Write_U8 (value / 65536) (address + 1)
        (Write_U8 (value / 16777216) address mem)))

/-! ## Constants and records declared outside IOS.cpp -/

/-- Constants used by IOS.cpp and declared in headers that are not among the sources
(`IPC_MAX_FDS`, the `ReturnCode` values, the reply marker, the delay of a default reply). -/
structure Consts where
  IPC_MAX_FDS : Nat
  IPC_SUCCESS : Int
  IPC_EINVAL : Int
  IPC_ENOENT : Int
  FS_EFDEXHAUSTED : Int
  IPC_REPLY : Nat
  DEFAULT_REPLY_DELAY : Nat

/-- Modelled from the spec: the command-kind value of Open (§6: Open=1). `IPCCommandType` is
declared in Device.h, which is not among the sources. -/
def IPC_CMD_OPEN : Nat := 1
/-- Modelled from the spec: the command-kind value of Close (§6: Close=2). -/
def IPC_CMD_CLOSE : Nat := 2
/-- Modelled from the spec: the command-kind value of Read (§6: Read=3). -/
def IPC_CMD_READ : Nat := 3
/-- Modelled from the spec: the command-kind value of Write (§6: Write=4). -/
def IPC_CMD_WRITE : Nat := 4
/-- Modelled from the spec: the command-kind value of Seek (§6: Seek=5). -/
def IPC_CMD_SEEK : Nat := 5
/-- Modelled from the spec: the command-kind value of IOCtl (§6: IOCtl=6). -/
def IPC_CMD_IOCTL : Nat := 6
/-- Modelled from the spec: the command-kind value of IOCtlV (§6: IOCtlV=7). -/
def IPC_CMD_IOCTLV : Nat := 7

/-- The tag `Device::Device::DeviceType` (IOS.cpp uses the values Static, FileIO and OH0). -/
inductive DeviceType where
  | Static
  | FileIO
  | OH0
  deriving DecidableEq, Repr

/-- A `shared_ptr<Device::Device>`: the object identity, `GetDeviceType()`, `GetDeviceName()`. -/
structure Device where
  deviceType : DeviceType
  name : String
  id : Nat
  deriving DecidableEq, Repr

/-- Modelled from the spec: the common part of a command record (§6: command-kind at +0,
descriptor at +4). `struct Request` is declared in Device.h, which is not among the sources. -/
structure Request where
  address : Nat
  command : Nat
  fd : Nat
  deriving DecidableEq, Repr

/-- Modelled from the spec: the Open shape of a command record (§3: Open(path, flags)). -/
structure OpenRequest where
  address : Nat
  command : Nat
  fd : Nat
  path : String
  flags : Nat
  deriving DecidableEq, Repr

/-- Modelled from the spec: the Completion Result (§3): a signed result code, whether a reply
must be delivered, and the requested delay in ticks. `struct IPCCommandResult` is declared in
a header that is not among the sources; the delay is an unsigned 64-bit count. -/
structure IPCCommandResult where
  return_value : Int
  send_reply : Bool
  reply_delay_ticks : Nat
  deriving DecidableEq, Repr

/-- One call of the kernel into a device. -/
inductive DevCall where
  | Open (device : Device) (request : OpenRequest)
  | Close (device : Device) (fd : Nat)
  | Read (device : Device) (address : Nat)
  | Write (device : Device) (address : Nat)
  | Seek (device : Device) (address : Nat)
  | IOCtl (device : Device) (address : Nat)
  | IOCtlV (device : Device) (address : Nat)
  deriving DecidableEq, Repr

/-- The device backends and the request decoder, which live outside IOS.cpp. Every device
operation sees the trace of earlier device calls and guest memory, and yields its result and
the new guest memory. `decodeOpen` yields the path and the flags that the `OpenRequest`
constructor reads from the command-specific arguments of the record at an address. -/
structure Backend where
  Open : List DevCall → Mem → Device → OpenRequest → Int × Mem
  Close : List DevCall → Mem → Device → Nat → Int × Mem
  Read : List DevCall → Mem → Device → Nat → IPCCommandResult × Mem
  Write : List DevCall → Mem → Device → Nat → IPCCommandResult × Mem
  Seek : List DevCall → Mem → Device → Nat → IPCCommandResult × Mem
  IOCtl : List DevCall → Mem → Device → Nat → IPCCommandResult × Mem
  IOCtlV : List DevCall → Mem → Device → Nat → IPCCommandResult × Mem
  decodeOpen : Mem → Nat → String × Nat

/-- One `CoreTiming::ScheduleEvent(cycles_in_future, s_event_enqueue, userdata)`. -/
structure ScheduledEvent where
  cycles_in_future : Int
  userdata : Nat
  deriving DecidableEq, Repr

/-- What the kernel acts on besides its own members: guest memory, the trace of device calls,
the events handed to the scheduler, `CoreTiming::GetTicks()`, and the allocation counter. -/
structure Sys where
  mem : Mem
  calls : List DevCall
  events : List ScheduledEvent
  ticks : Nat
  next_object : Nat

/-- The members of `Kernel` that IOS.cpp reads and writes. -/
structure Kernel where
  m_title_id : Nat
  m_ppc_uid : Nat
  m_ppc_gid : Nat
  m_device_map : List (String × Device)
  m_fdmap : Nat → Option Device
  m_request_queue : List Nat
  m_reply_queue : List Nat
  m_ack_queue : List Nat
  m_last_reply_time : Nat

/-- A fault that ends the emulation instead of returning to the caller. -/
inductive Fault where
  | OutOfBounds
  | Assertion
  deriving DecidableEq, Repr

/-- Modelled from the spec: `Device::Device::GetDefaultReply` (Device.cpp is not among the
sources): a Completion Result with the given code that requests a reply, after the default
delay. -/
def GetDefaultReply (c : Consts) (return_value : Int) : IPCCommandResult :=
  { return_value := return_value, send_reply := true, reply_delay_ticks := c.DEFAULT_REPLY_DELAY }

/-- Modelled from the spec: the `Request` constructor (Device.cpp is not among the sources):
the command-kind is the word at +0 and the descriptor the word at +4 (§6). -/
def Request.decode (mem : Mem) (address : Nat) : Request :=
  { address := address, command := Read_U32 mem address,
    fd := Read_U32 mem ((address + 4) % 4294967296) }

/-- Modelled from the spec: the `OpenRequest` constructor (Device.cpp is not among the
sources): the common part as in `Request.decode`, path and flags from the command-specific
arguments. -/
def OpenRequest.decode (B : Backend) (mem : Mem) (address : Nat) : OpenRequest :=
  { address := address, command := Read_U32 mem address,
    fd := Read_U32 mem ((address + 4) % 4294967296),
    path := (B.decodeOpen mem address).1, flags := (B.decodeOpen mem address).2 }

/-! ## Device calls -/

/-- The state after a device call: the call is appended to the trace, memory is what the
device left. -/
def Sys.afterCall (w : Sys) (call : DevCall) (mem : Mem) : Sys :=
  { w with mem := mem, calls := w.calls ++ [call] }

/-- The call `device->Open(request)`. -/
def Device.Open (B : Backend) (w : Sys) (device : Device) (request : OpenRequest) : Int × Sys :=
  ((B.Open w.calls w.mem device request).1,
   w.afterCall (DevCall.Open device request) (B.Open w.calls w.mem device request).2)

/-- The call `device->Close(fd)`. -/
def Device.Close (B : Backend) (w : Sys) (device : Device) (fd : Nat) : Int × Sys :=
  ((B.Close w.calls w.mem device fd).1,
   w.afterCall (DevCall.Close device fd) (B.Close w.calls w.mem device fd).2)

/-- The call `device->Read(ReadWriteRequest{address})`. -/
def Device.Read (B : Backend) (w : Sys) (device : Device) (address : Nat) :
    IPCCommandResult × Sys :=
  ((B.Read w.calls w.mem device address).1,
   w.afterCall (DevCall.Read device address) (B.Read w.calls w.mem device address).2)

/-- The call `device->Write(ReadWriteRequest{address})`. -/
def Device.Write (B : Backend) (w : Sys) (device : Device) (address : Nat) :
    IPCCommandResult × Sys :=
  ((B.Write w.calls w.mem device address).1,
   w.afterCall (DevCall.Write device address) (B.Write w.calls w.mem device address).2)

/-- The call `device->Seek(SeekRequest{address})`. -/
def Device.Seek (B : Backend) (w : Sys) (device : Device) (address : Nat) :
    IPCCommandResult × Sys :=
  ((B.Seek w.calls w.mem device address).1,
   w.afterCall (DevCall.Seek device address) (B.Seek w.calls w.mem device address).2)

/-- The call `device->IOCtl(IOCtlRequest{address})`. -/
def Device.IOCtl (B : Backend) (w : Sys) (device : Device) (address : Nat) :
    IPCCommandResult × Sys :=
  ((B.IOCtl w.calls w.mem device address).1,
   w.afterCall (DevCall.IOCtl device address) (B.IOCtl w.calls w.mem device address).2)

/-- The call `device->IOCtlV(IOCtlVRequest{address})`. -/
def Device.IOCtlV (B : Backend) (w : Sys) (device : Device) (address : Nat) :
    IPCCommandResult × Sys :=
  ((B.IOCtlV w.calls w.mem device address).1,
   w.afterCall (DevCall.IOCtlV device address) (B.IOCtlV w.calls w.mem device address).2)

/-! ## Descriptor table -/

/-- The loop of `Kernel::GetFreeDeviceID`: from slot `i`, with `n` slots left to look at, the
first slot holding `nullptr`. -/
def GetFreeDeviceID.scan (fdmap : Nat → Option Device) : Nat → Nat → Option Nat
  | _, 0 => none
  | i, n + 1 => if (fdmap i).isNone then some i else GetFreeDeviceID.scan fdmap (i + 1) n

/-- `Kernel::GetFreeDeviceID` (IOS.cpp 372-383): the first free slot as `s32`, or -1. -/
def GetFreeDeviceID (c : Consts) (k : Kernel) : Int :=
  match GetFreeDeviceID.scan k.m_fdmap 0 c.IPC_MAX_FDS with
  | some i => toS32 i
  | none => -1

/-- `Kernel::GetDeviceByName` (IOS.cpp 385-390): `m_device_map.find`, `nullptr` if absent. -/
def GetDeviceByName (k : Kernel) (device_name : String) : Option Device :=
  k.m_device_map.lookup device_name

/-- The test `path.find(pattern) == 0`: `pattern` occurs in `path` at position 0. -/
def findAtZero (path pattern : String) : Bool :=
  pattern.data.isPrefixOf path.data

/-- The test `path.find('/') == 0`: the first character of `path` is `ch`. -/
def findCharAtZero (path : String) (ch : Char) : Bool :=
  path.data.head? == some ch

/-- `std::make_shared<Device::OH0Device>(*this, path)`. -/
def makeOH0Device (w : Sys) (path : String) : Device × Sys :=
  ({ deviceType := DeviceType.OH0, name := path, id := w.next_object },
   { w with next_object := w.next_object + 1 })

/-- `std::make_shared<Device::FileIO>(*this, path)`. -/
def makeFileIODevice (w : Sys) (path : String) : Device × Sys :=
  ({ deviceType := DeviceType.FileIO, name := path, id := w.next_object },
   { w with next_object := w.next_object + 1 })

/-- The device resolution of `Kernel::OpenDevice` (IOS.cpp 409-421): the value of the local
`device` before the null test. -/
def OpenDevice.resolve (k : Kernel) (w : Sys) (path : String) : Option Device × Sys :=
  if findAtZero path "/dev/usb/oh0/" && (GetDeviceByName k path).isNone then
    (some (makeOH0Device w path).1, (makeOH0Device w path).2)
  else if findAtZero path "/dev/" then
    (GetDeviceByName k path, w)
  else if findCharAtZero path '/' then
    (some (makeFileIODevice w path).1, (makeFileIODevice w path).2)
  else
    (none, w)

/-- `Kernel::OpenDevice` (IOS.cpp 398-434): the returned value, the kernel and the system
after the call. The request passed to the device carries `fd = new_fd`. -/
def OpenDevice (c : Consts) (B : Backend) (k : Kernel) (w : Sys) (request : OpenRequest) :
    Int × Kernel × Sys :=
  let new_fd := GetFreeDeviceID c k
  if new_fd < 0 ∨ new_fd ≥ (c.IPC_MAX_FDS : Int) then
    (c.FS_EFDEXHAUSTED, k, w)
  else
    let request1 : OpenRequest := { request with fd := new_fd.toNat }
    match OpenDevice.resolve k w request1.path with
    | (none, w1) => (c.IPC_ENOENT, k, w1)
    | (some device, w1) =>
      let r := Device.Open B w1 device request1
      if r.1 < c.IPC_SUCCESS then
        (r.1, k, r.2)
      else
        (new_fd, { k with m_fdmap := Function.update k.m_fdmap new_fd.toNat (some device) }, r.2)

/-- An access `m_fdmap[i]` with an index that the guest controls: outside the array it is a
fault. -/
def fdmapAt (c : Consts) (k : Kernel) (i : Nat) : Except Fault (Option Device) :=
  if i < c.IPC_MAX_FDS then Except.ok (k.m_fdmap i) else Except.error Fault.OutOfBounds

/-- `Kernel::HandleIPCCommand` (IOS.cpp 436-468). `_assert_msg_(IOS, false, ...)` is a fault. -/
def HandleIPCCommand (c : Consts) (B : Backend) (k : Kernel) (w : Sys) (request : Request) :
    Except Fault (IPCCommandResult × Kernel × Sys) :=
  if request.command = IPC_CMD_OPEN then
    let r := OpenDevice c B k w (OpenRequest.decode B w.mem request.address)
    Except.ok (GetDefaultReply c r.1, r.2.1, r.2.2)
  else
    match (if request.fd < c.IPC_MAX_FDS then fdmapAt c k request.fd else Except.ok none) with
    | Except.error e => Except.error e
    | Except.ok none => Except.ok (GetDefaultReply c c.IPC_EINVAL, k, w)
    | Except.ok (some device) =>
      if request.command = IPC_CMD_CLOSE then
        match fdmapAt c k request.fd with
        | Except.error e => Except.error e
        | Except.ok _ =>
          let k1 := { k with m_fdmap := Function.update k.m_fdmap request.fd none }
          let r := Device.Close B w device request.fd
          Except.ok (GetDefaultReply c r.1, k1, r.2)
      else if request.command = IPC_CMD_READ then
        Except.ok ((Device.Read B w device request.address).1, k,
          (Device.Read B w device request.address).2)
      else if request.command = IPC_CMD_WRITE then
        Except.ok ((Device.Write B w device request.address).1, k,
          (Device.Write B w device request.address).2)
      else if request.command = IPC_CMD_SEEK then
        Except.ok ((Device.Seek B w device request.address).1, k,
          (Device.Seek B w device request.address).2)
      else if request.command = IPC_CMD_IOCTL then
        Except.ok ((Device.IOCtl B w device request.address).1, k,
          (Device.IOCtl B w device request.address).2)
      else if request.command = IPC_CMD_IOCTLV then
        Except.ok ((Device.IOCtlV B w device request.address).1, k,
          (Device.IOCtlV B w device request.address).2)
      else
        Except.error Fault.Assertion

/-- `Kernel::EnqueueIPCReply` (IOS.cpp 494-503): three words written at the command's address,
then one scheduled event. Address arithmetic is 32-bit. -/
def EnqueueIPCReply (c : Consts) (w : Sys) (request : Request) (return_value : Int)
    (cycles_in_future : Int) : Sys :=
  let mem1 := Write_U32 (toU32 return_value) ((request.address + 4) % 4294967296) w.mem
  let mem2 := Write_U32 request.command ((request.address + 8) % 4294967296) mem1
  let mem3 := Write_U32 c.IPC_REPLY request.address mem2
  { w with mem := mem3,
           events := w.events ++ [{ cycles_in_future := cycles_in_future,
                                    userdata := request.address }] }

/-- The delay that `Kernel::ExecuteIPCCommand` (IOS.cpp 478-481) gives a reply: the device's
delay `d`, with `m_last_reply_time - GetTicks()` (a `u64` difference read as `s64`) added when
that is positive. -/
def effectiveDelay (last_reply_time ticks d : Nat) : Nat :=
  let ticks_until_last_reply : Int :=
    toS64 ((last_reply_time + 18446744073709551616 - ticks % 18446744073709551616)
      % 18446744073709551616)
  if ticks_until_last_reply > 0 then toU64 ((d : Int) + ticks_until_last_reply) else d

/-- `Kernel::ExecuteIPCCommand` (IOS.cpp 470-485). -/
def ExecuteIPCCommand (c : Consts) (B : Backend) (k : Kernel) (w : Sys) (address : Nat) :
    Except Fault (Kernel × Sys) :=
  let request := Request.decode w.mem address
  match HandleIPCCommand c B k w request with
  | Except.error e => Except.error e
  | Except.ok (result, k1, w1) =>
    if result.send_reply = false then
      Except.ok (k1, w1)
    else
      let delay := effectiveDelay k1.m_last_reply_time w1.ticks result.reply_delay_ticks
      let k2 := { k1 with m_last_reply_time := (w1.ticks + delay) % 18446744073709551616 }
      Except.ok (k2, EnqueueIPCReply c w1 request result.return_value (toS32 delay))

/-- The effective delay as the specification words it (§4.4):
`d + max(0, last_reply_time - (t + d))`. -/
def effectiveDelay_spec (last_reply_time t d : Int) : Int :=
  d + max 0 (last_reply_time - (t + d))

/-- A run of consecutive `OpenDevice` calls with no Close in between: the returned values in
call order, and the state after the last call. -/
def OpenDevice.run (c : Consts) (B : Backend) : Kernel → Sys → List OpenRequest →
    List Int × Kernel × Sys
  | k, w, [] => ([], k, w)
  | k, w, r :: rs =>
    ((OpenDevice c B k w r).1 ::
        (OpenDevice.run c B (OpenDevice c B k w r).2.1 (OpenDevice c B k w r).2.2 rs).1,
     (OpenDevice.run c B (OpenDevice c B k w r).2.1 (OpenDevice c B k w r).2.2 rs).2)

/-- A file-backed path: absolute and not under "/dev/". -/
def isFileBacked (path : String) : Bool :=
  findCharAtZero path '/' && !findAtZero path "/dev/"

/-! ## Memory layout publisher -/

/-- Modelled from the spec: `Memory::Write_U16` (Core/HW/Memmap is not among the sources); the
guest-memory interface is big-endian. -/
def Write_U16 (value : Nat) (address : Nat) (mem : Mem) : Mem :=
  Write_U8 value (address + 1) (Write_U8 (value / 256) address mem)

/-- The constant `ADDR_MEM1_SIZE` (IOS.cpp 69). -/
def ADDR_MEM1_SIZE : Nat := 0x3100
/-- The constant `ADDR_MEM1_SIM_SIZE` (IOS.cpp 70). -/
def ADDR_MEM1_SIM_SIZE : Nat := 0x3104
/-- The constant `ADDR_MEM1_END` (IOS.cpp 71). -/
def ADDR_MEM1_END : Nat := 0x3108
/-- The constant `ADDR_MEM1_ARENA_BEGIN` (IOS.cpp 72). -/
def ADDR_MEM1_ARENA_BEGIN : Nat := 0x310c
/-- The constant `ADDR_MEM1_ARENA_END` (IOS.cpp 73). -/
def ADDR_MEM1_ARENA_END : Nat := 0x3110
/-- The constant `ADDR_PH1` (IOS.cpp 74). -/
def ADDR_PH1 : Nat := 0x3114
/-- The constant `ADDR_MEM2_SIZE` (IOS.cpp 75). -/
def ADDR_MEM2_SIZE : Nat := 0x3118
/-- The constant `ADDR_MEM2_SIM_SIZE` (IOS.cpp 76). -/
def ADDR_MEM2_SIM_SIZE : Nat := 0x311c
/-- The constant `ADDR_MEM2_END` (IOS.cpp 77). -/
def ADDR_MEM2_END : Nat := 0x3120
/-- The constant `ADDR_MEM2_ARENA_BEGIN` (IOS.cpp 78). -/
def ADDR_MEM2_ARENA_BEGIN : Nat := 0x3124
/-- The constant `ADDR_MEM2_ARENA_END` (IOS.cpp 79). -/
def ADDR_MEM2_ARENA_END : Nat := 0x3128
/-- The constant `ADDR_PH2` (IOS.cpp 80). -/
def ADDR_PH2 : Nat := 0x312c
/-- The constant `ADDR_IPC_BUFFER_BEGIN` (IOS.cpp 81). -/
def ADDR_IPC_BUFFER_BEGIN : Nat := 0x3130
/-- The constant `ADDR_IPC_BUFFER_END` (IOS.cpp 82). -/
def ADDR_IPC_BUFFER_END : Nat := 0x3134
/-- The constant `ADDR_HOLLYWOOD_REVISION` (IOS.cpp 83). -/
def ADDR_HOLLYWOOD_REVISION : Nat := 0x3138
/-- The constant `ADDR_PH3` (IOS.cpp 84). -/
def ADDR_PH3 : Nat := 0x313c
/-- The constant `ADDR_IOS_VERSION` (IOS.cpp 85). -/
def ADDR_IOS_VERSION : Nat := 0x3140
/-- The constant `ADDR_IOS_DATE` (IOS.cpp 86). -/
def ADDR_IOS_DATE : Nat := 0x3144
/-- The constant `ADDR_UNKNOWN_BEGIN` (IOS.cpp 87). -/
def ADDR_UNKNOWN_BEGIN : Nat := 0x3148
/-- The constant `ADDR_UNKNOWN_END` (IOS.cpp 88). -/
def ADDR_UNKNOWN_END : Nat := 0x314c
/-- The constant `ADDR_PH4` (IOS.cpp 89). -/
def ADDR_PH4 : Nat := 0x3150
/-- The constant `ADDR_PH5` (IOS.cpp 90). -/
def ADDR_PH5 : Nat := 0x3154
/-- The constant `ADDR_RAM_VENDOR` (IOS.cpp 91). -/
def ADDR_RAM_VENDOR : Nat := 0x3158
/-- The constant `ADDR_BOOT_FLAG` (IOS.cpp 92). -/
def ADDR_BOOT_FLAG : Nat := 0x315c
/-- The constant `ADDR_APPLOADER_FLAG` (IOS.cpp 93). -/
def ADDR_APPLOADER_FLAG : Nat := 0x315d
/-- The constant `ADDR_DEVKIT_BOOT_PROGRAM_VERSION` (IOS.cpp 94). -/
def ADDR_DEVKIT_BOOT_PROGRAM_VERSION : Nat := 0x315e
/-- The constant `ADDR_SYSMENU_SYNC` (IOS.cpp 95). -/
def ADDR_SYSMENU_SYNC : Nat := 0x3160
/-- The constant `PLACEHOLDER` (IOS.cpp 96). -/
def PLACEHOLDER : Nat := 0xDEADBEEF

/-- The `enum class MemorySetupType` (IOS.cpp 98-102). -/
inductive MemorySetupType where
  | IOSReload
  | Full
  deriving DecidableEq, Repr

/-- Modelled from the spec: a Memory Layout Record (§3), one row of `GetMemoryValues()`.
`struct MemoryValues` is declared in MemoryValues.h, which is not among the sources; the
fields are those IOS.cpp reads. -/
structure MemoryValues where
  ios_number : Nat
  ios_version : Nat
  ios_date : Nat
  mem1_physical_size : Nat
  mem1_simulated_size : Nat
  mem1_end : Nat
  mem1_arena_begin : Nat
  mem1_arena_end : Nat
  mem2_physical_size : Nat
  mem2_simulated_size : Nat
  mem2_end : Nat
  mem2_arena_begin : Nat
  mem2_arena_end : Nat
  ipc_buffer_begin : Nat
  ipc_buffer_end : Nat
  hollywood_revision : Nat
  ram_vendor : Nat
  unknown_begin : Nat
  unknown_end : Nat
  sysmenu_sync : Nat
  deriving DecidableEq, Repr

/-- Every field of the record that is published is a 32-bit value. -/
def MemoryValues.fitsU32 (imv : MemoryValues) : Prop :=
  imv.ios_version < 4294967296 ∧ imv.ios_date < 4294967296 ∧
  imv.mem1_physical_size < 4294967296 ∧ imv.mem1_simulated_size < 4294967296 ∧
  imv.mem1_end < 4294967296 ∧ imv.mem1_arena_begin < 4294967296 ∧
  imv.mem1_arena_end < 4294967296 ∧ imv.mem2_physical_size < 4294967296 ∧
  imv.mem2_simulated_size < 4294967296 ∧ imv.mem2_end < 4294967296 ∧
  imv.mem2_arena_begin < 4294967296 ∧ imv.mem2_arena_end < 4294967296 ∧
  imv.ipc_buffer_begin < 4294967296 ∧ imv.ipc_buffer_end < 4294967296 ∧
  imv.hollywood_revision < 4294967296 ∧ imv.ram_vendor < 4294967296 ∧
  imv.unknown_begin < 4294967296 ∧ imv.unknown_end < 4294967296 ∧
  imv.sysmenu_sync < 4294967296

instance (imv : MemoryValues) : Decidable imv.fitsU32 := by
  unfold MemoryValues.fitsU32
  infer_instance

/-- The lookup of `SetupMemory` (IOS.cpp 106-108): the first row of the table whose
`ios_number` equals the low 16 bits of the title id. The table `GetMemoryValues()` is declared
outside IOS.cpp and is a parameter. -/
def findMemoryValues (table : List MemoryValues) (ios_title_id : Nat) : Option MemoryValues :=
  table.find? (fun imv => imv.ios_number == ios_title_id % 65536)

/-- The writes of `SetupMemory` in the mode `IOSReload` (IOS.cpp 118-137), in source order. -/
def SetupMemory.reload (target_imv : MemoryValues) (mem : Mem) : Mem :=
  mem
    |> Write_U32 target_imv.ios_version ADDR_IOS_VERSION
    |> Write_U32 target_imv.mem2_physical_size ADDR_MEM2_SIZE
    |> Write_U32 target_imv.mem2_simulated_size ADDR_MEM2_SIM_SIZE
    |> Write_U32 target_imv.mem2_end ADDR_MEM2_END
    |> Write_U32 target_imv.mem2_arena_begin ADDR_MEM2_ARENA_BEGIN
    |> Write_U32 target_imv.mem2_arena_end ADDR_MEM2_ARENA_END
    |> Write_U32 target_imv.ipc_buffer_begin ADDR_IPC_BUFFER_BEGIN
    |> Write_U32 target_imv.ipc_buffer_end ADDR_IPC_BUFFER_END
    |> Write_U32 target_imv.unknown_begin ADDR_UNKNOWN_BEGIN
    |> Write_U32 target_imv.unknown_end ADDR_UNKNOWN_END

/-- The writes of `SetupMemory` in the mode `Full` (IOS.cpp 142-168), in source order. -/
def SetupMemory.full (target_imv : MemoryValues) (mem : Mem) : Mem :=
  mem
    |> Write_U32 target_imv.mem1_physical_size ADDR_MEM1_SIZE
    |> Write_U32 target_imv.mem1_simulated_size ADDR_MEM1_SIM_SIZE
    |> Write_U32 target_imv.mem1_end ADDR_MEM1_END
    |> Write_U32 target_imv.mem1_arena_begin ADDR_MEM1_ARENA_BEGIN
    |> Write_U32 target_imv.mem1_arena_end ADDR_MEM1_ARENA_END
    |> Write_U32 PLACEHOLDER ADDR_PH1
    |> Write_U32 target_imv.mem2_physical_size ADDR_MEM2_SIZE
    |> Write_U32 target_imv.mem2_simulated_size ADDR_MEM2_SIM_SIZE
    |> Write_U32 target_imv.mem2_end ADDR_MEM2_END
    |> Write_U32 target_imv.mem2_arena_begin ADDR_MEM2_ARENA_BEGIN
    |> Write_U32 target_imv.mem2_arena_end ADDR_MEM2_ARENA_END
    |> Write_U32 PLACEHOLDER ADDR_PH2
    |> Write_U32 target_imv.ipc_buffer_begin ADDR_IPC_BUFFER_BEGIN
    |> Write_U32 target_imv.ipc_buffer_end ADDR_IPC_BUFFER_END
    |> Write_U32 target_imv.hollywood_revision ADDR_HOLLYWOOD_REVISION
    |> Write_U32 PLACEHOLDER ADDR_PH3
    |> Write_U32 target_imv.ios_version ADDR_IOS_VERSION
    |> Write_U32 target_imv.ios_date ADDR_IOS_DATE
    |> Write_U32 target_imv.unknown_begin ADDR_UNKNOWN_BEGIN
    |> Write_U32 target_imv.unknown_end ADDR_UNKNOWN_END
    |> Write_U32 PLACEHOLDER ADDR_PH4
    |> Write_U32 PLACEHOLDER ADDR_PH5
    |> Write_U32 target_imv.ram_vendor ADDR_RAM_VENDOR
    |> Write_U8 0xDE ADDR_BOOT_FLAG
    |> Write_U8 0xAD ADDR_APPLOADER_FLAG
    |> Write_U16 0xBEEF ADDR_DEVKIT_BOOT_PROGRAM_VERSION
    |> Write_U32 target_imv.sysmenu_sync ADDR_SYSMENU_SYNC

/-- `SetupMemory` (IOS.cpp 104-170): whether the version is known, and guest memory after the
call. -/
def SetupMemory (table : List MemoryValues) (ios_title_id : Nat) (setup_type : MemorySetupType)
    (mem : Mem) : Bool × Mem :=
  match findMemoryValues table ios_title_id with
  | none => (false, mem)
  | some target_imv =>
    match setup_type with
    | MemorySetupType.IOSReload => (true, SetupMemory.reload target_imv mem)
    | MemorySetupType.Full => (true, SetupMemory.full target_imv mem)

/-! ## Event queues -/

/-- The constant `ENQUEUE_REQUEST_FLAG` (IOS.cpp 64). -/
def ENQUEUE_REQUEST_FLAG : Nat := 0x100000000
/-- The constant `ENQUEUE_ACKNOWLEDGEMENT_FLAG` (IOS.cpp 65). -/
def ENQUEUE_ACKNOWLEDGEMENT_FLAG : Nat := 0x200000000

/-- `Kernel::EnqueueIPCAcknowledgement` (IOS.cpp 505-509): one scheduled event whose payload
is the address with the acknowledgement flag. -/
def EnqueueIPCAcknowledgement (w : Sys) (address : Nat) (cycles_in_future : Int) : Sys :=
  { w with events := w.events ++ [{ cycles_in_future := cycles_in_future,
                                    userdata := address ||| ENQUEUE_ACKNOWLEDGEMENT_FLAG }] }

/-- Modelled from the spec: what `GenerateAck` and `GenerateReply` (Core/HW/WII_IPC is not
among the sources) hand to the main processor: an acknowledgement or a reply for a command
address (§4.4: "deliver"). -/
inductive IPCSignal where
  | Ack (address : Nat)
  | Reply (address : Nat)
  deriving DecidableEq, Repr

/-- `Kernel::UpdateIPC` (IOS.cpp 525-554). `ready` is the value of `IsReady()` (Core/HW/WII_IPC
is not among the sources); `signals` are the acknowledgements and replies delivered so far. -/
def UpdateIPC (c : Consts) (B : Backend) (ready : Bool) (k : Kernel) (w : Sys)
    (signals : List IPCSignal) : Except Fault (Kernel × Sys × List IPCSignal) :=
  if ready = false then
    Except.ok (k, w, signals)
  else
    match k.m_request_queue with
    | command :: rest =>
      match ExecuteIPCCommand c B { k with m_request_queue := rest } w command with
      | Except.error e => Except.error e
      | Except.ok (k1, w1) => Except.ok (k1, w1, signals ++ [IPCSignal.Ack command])
    | [] =>
      match k.m_reply_queue with
      | address :: rest =>
        Except.ok ({ k with m_reply_queue := rest }, w, signals ++ [IPCSignal.Reply address])
      | [] =>
        match k.m_ack_queue with
        | address :: rest =>
          Except.ok ({ k with m_ack_queue := rest }, w, signals ++ [IPCSignal.Ack address])
        | [] => Except.ok (k, w, signals)

/-- Two successive `ExecuteIPCCommand` calls, the second with the clock at `t2`. -/
def ExecuteIPCCommand.twice (c : Consts) (B : Backend) (k : Kernel) (w : Sys) (a1 : Nat)
    (t2 : Nat) (a2 : Nat) : Except Fault (Kernel × Sys) :=
  match ExecuteIPCCommand c B k w a1 with
  | Except.error e => Except.error e
  | Except.ok (k1, w1) => ExecuteIPCCommand c B k1 { w1 with ticks := t2 } a2

/-! ## Kernel lifecycle -/

/-- What the lifecycle functions take from outside IOS.cpp: the title ids `Titles::BC` and
`Titles::MIOS` (Core/CommonTitles.h), the table `GetMemoryValues()`, the configuration flag
`m_bt_passthrough_enabled`, and the effect of `MIOS::Load()` on guest memory. -/
structure Platform where
  BC : Nat
  MIOS : Nat
  memory_values : List MemoryValues
  m_bt_passthrough_enabled : Bool
  MIOS_Load : Mem → Mem

/-- The assignment `m_device_map[name] = device` on a `std::map`: the entry of that name is
replaced, or a new entry is added. -/
def mapAssign : List (String × Device) → String → Device → List (String × Device)
  | [], name, device => [(name, device)]
  | (n, d) :: rest, name, device =>
    if n = name then (n, device) :: rest else (n, d) :: mapAssign rest name device

/-- `Kernel::AddDevice` (IOS.cpp 330-334): the `_assert_` on the device type is a fault. -/
def AddDevice (k : Kernel) (device : Device) : Except Fault Kernel :=
  if device.deviceType = DeviceType.Static then
    Except.ok { k with m_device_map := mapAssign k.m_device_map device.name device }
  else
    Except.error Fault.Assertion

/-- `std::make_unique<Device::X>(*this, name)` for a device class of the Static type. -/
def makeStaticDevice (w : Sys) (name : String) : Device × Sys :=
  ({ deviceType := DeviceType.Static, name := name, id := w.next_object },
   { w with next_object := w.next_object + 1 })

/-- A run of statements `AddDevice(std::make_unique<Device::X>(*this, name))`, one per name,
in order. -/
def AddDevice.each : Kernel → Sys → List String → Except Fault (Kernel × Sys)
  | k, w, [] => Except.ok (k, w)
  | k, w, name :: names =>
    match AddDevice k (makeStaticDevice w name).1 with
    | Except.error e => Except.error e
    | Except.ok k1 => AddDevice.each k1 (makeStaticDevice w name).2 names

/-- `Kernel::AddCoreDevices` (IOS.cpp 336-341). -/
def AddCoreDevices (k : Kernel) (w : Sys) : Except Fault (Kernel × Sys) :=
  AddDevice.each k w ["/dev/fs", "/dev/es"]

/-- `Kernel::AddStaticDevices` (IOS.cpp 343-370). Both Bluetooth classes register under the
same name. -/
def AddStaticDevices (P : Platform) (k : Kernel) (w : Sys) : Except Fault (Kernel × Sys) :=
  AddDevice.each k w
    ((if P.m_bt_passthrough_enabled = false then ["/dev/usb/oh1/57e/305"]
      else ["/dev/usb/oh1/57e/305"]) ++
     ["/dev/stm/immediate", "/dev/stm/eventhook", "/dev/di", "/dev/net/kd/request",
      "/dev/net/kd/time", "/dev/net/ncd/manage", "/dev/net/wd/command", "/dev/net/ip/top",
      "/dev/net/ssl", "/dev/usb/kbd", "/dev/sdio/slot0", "/dev/sdio/slot1", "/dev/usb/hid",
      "/dev/usb/oh0", "/dev/usb/oh1", "/dev/usb/ven", "/dev/usb/wfssrv", "/dev/wfsi"])

/-- `Kernel::Kernel(u64 title_id)` (IOS.cpp 204-206): the title id is set, the Registry and
the three queues are empty, every descriptor slot is null. Modelled from the spec: the
initial values of uid, gid and `m_last_reply_time` are member initialisers in IOS.h, which is
not among the sources. -/
def Kernel.new (title_id : Nat) : Kernel :=
  { m_title_id := title_id, m_ppc_uid := 0, m_ppc_gid := 0, m_device_map := [],
    m_fdmap := fun _ => none, m_request_queue := [], m_reply_queue := [], m_ack_queue := [],
    m_last_reply_time := 0 }

/-- `EmulationKernel::EmulationKernel(u64 title_id)` (IOS.cpp 208-228). -/
def EmulationKernel (P : Platform) (w : Sys) (title_id : Nat) : Except Fault (Kernel × Sys) :=
  let w1 : Sys :=
    { w with mem := (SetupMemory P.memory_values title_id MemorySetupType.IOSReload w.mem).2 }
  if title_id = P.MIOS then
    Except.ok (Kernel.new title_id, { w1 with mem := P.MIOS_Load w1.mem })
  else
    match AddCoreDevices (Kernel.new title_id) (EnqueueIPCAcknowledgement w1 0 0) with
    | Except.error e => Except.error e
    | Except.ok (k1, w2) => AddStaticDevices P k1 w2

/-- `Kernel::GetFS` (IOS.cpp 243-246): `m_device_map.at` throws `std::out_of_range` for a
name that is absent. -/
def GetFS (k : Kernel) : Except Fault Device :=
  match k.m_device_map.lookup "/dev/fs" with
  | some device => Except.ok device
  | none => Except.error Fault.OutOfBounds

/-- `Kernel::GetES` (IOS.cpp 248-251). -/
def GetES (k : Kernel) : Except Fault Device :=
  match k.m_device_map.lookup "/dev/es" with
  | some device => Except.ok device
  | none => Except.error Fault.OutOfBounds

/-- The loop of `Kernel::~Kernel` (IOS.cpp 189-194) over the given slots: `Close(0)` on every
device bound to a slot. -/
def closeOpenDevices (B : Backend) (fdmap : Nat → Option Device) : Sys → List Nat → Sys
  | w, [] => w
  | w, i :: rest =>
    match fdmap i with
    | none => closeOpenDevices B fdmap w rest
    | some device => closeOpenDevices B fdmap (Device.Close B w device 0).2 rest

/-- The statement `s_ios.reset()`: `EmulationKernel::~EmulationKernel` (IOS.cpp 230-233)
removes the pending enqueue events, then `Kernel::~Kernel` (IOS.cpp 186-202) closes the open
devices. -/
def resetIOS (c : Consts) (B : Backend) (s_ios : Option Kernel) (w : Sys) : Sys :=
  match s_ios with
  | none => w
  | some k => closeOpenDevices B k.m_fdmap { w with events := [] } (List.range c.IPC_MAX_FDS)

/-- `Kernel::BootIOS` (IOS.cpp 308-328): the returned value, the new `s_ios` and the system;
`none` when the recursion has not ended within `fuel` calls. -/
def BootIOS (c : Consts) (B : Backend) (P : Platform) :
    Nat → Option Kernel → Sys → Nat → Option (Except Fault (Bool × Kernel × Sys))
  | 0, _, _, _ => none
  | fuel + 1, s_ios, w, ios_title_id =>
    if ios_title_id = P.BC then
      BootIOS c B P fuel s_ios w P.MIOS
    else
      match EmulationKernel P (resetIOS c B s_ios w) ios_title_id with
      | Except.error e => some (Except.error e)
      | Except.ok (k, w1) => some (Except.ok (true, k, w1))

/-- Modelled from the spec: the loader payload of `BootstrapPPC` once decoded (`DolReader`,
Core/Boot/DolReader.h is not among the sources): whether it is valid, and what
`LoadIntoMemory` returns and leaves in guest memory. -/
structure DolReader where
  IsValid : Bool
  LoadIntoMemory : Mem → Bool × Mem

/-- Modelled from the spec: the content loader passed to `BootstrapPPC`
(DiscIO/NANDContentLoader.h is not among the sources): whether it is valid, and the DOL made
from the content at the boot index, if that content exists. -/
structure NANDContentLoader where
  IsValid : Bool
  boot_content : Option DolReader

/-- The registers of the main processor that `BootstrapPPC` sets. -/
structure PPCState where
  MSR : Nat
  PC : Nat
  deriving DecidableEq, Repr

/-- `Kernel::BootstrapPPC` (IOS.cpp 277-303): the returned value, guest memory and the main
processor's registers after the call. -/
def BootstrapPPC (P : Platform) (k : Kernel) (mem : Mem) (ppc : PPCState)
    (content_loader : NANDContentLoader) : Bool × Mem × PPCState :=
  if content_loader.IsValid = false then
    (false, mem, ppc)
  else
    match content_loader.boot_content with
    | none => (false, mem, ppc)
    | some dol_loader =>
      if dol_loader.IsValid = false then
        (false, mem, ppc)
      else if (SetupMemory P.memory_values k.m_title_id MemorySetupType.Full mem).1 = false then
        (false, (SetupMemory P.memory_values k.m_title_id MemorySetupType.Full mem).2, ppc)
      else if (dol_loader.LoadIntoMemory
          (SetupMemory P.memory_values k.m_title_id MemorySetupType.Full mem).2).1 = false then
        (false, (dol_loader.LoadIntoMemory
          (SetupMemory P.memory_values k.m_title_id MemorySetupType.Full mem).2).2, ppc)
      else
        (true, (dol_loader.LoadIntoMemory
          (SetupMemory P.memory_values k.m_title_id MemorySetupType.Full mem).2).2,
         { MSR := 0, PC := 0x3400 })

/-! ## Event classification -/

/-- `Kernel::EnqueueIPCRequest` (IOS.cpp 488-491): one event, 1000 cycles ahead, whose payload
is the address with the request flag. -/
def EnqueueIPCRequest (w : Sys) (address : Nat) : Sys :=
  { w with events := w.events ++ [{ cycles_in_future := 1000,
                                    userdata := address ||| ENQUEUE_REQUEST_FLAG }] }

/-- `Kernel::HandleIPCEvent` (IOS.cpp 511-521), the callback of a fired enqueue event: the
low 32 bits of the payload are pushed at the back of the queue its flags select, then
`UpdateIPC` runs. -/
def HandleIPCEvent (c : Consts) (B : Backend) (ready : Bool) (k : Kernel) (w : Sys)
    (signals : List IPCSignal) (userdata : Nat) :
    Except Fault (Kernel × Sys × List IPCSignal) :=
  if userdata &&& ENQUEUE_ACKNOWLEDGEMENT_FLAG ≠ 0 then
    UpdateIPC c B ready
      { k with m_ack_queue := k.m_ack_queue ++ [userdata % 4294967296] } w signals
  else if userdata &&& ENQUEUE_REQUEST_FLAG ≠ 0 then
    UpdateIPC c B ready
      { k with m_request_queue := k.m_request_queue ++ [userdata % 4294967296] } w signals
  else
    UpdateIPC c B ready
      { k with m_reply_queue := k.m_reply_queue ++ [userdata % 4294967296] } w signals

/-! ## Memory contents -/

/-- Memory holds the big-endian 32-bit word `v` at `a`. -/
def holdsWord (m : Mem) (a v : Nat) : Prop :=
  m a = v / 16777216 % 256 ∧ m (a + 1) = v / 65536 % 256 ∧ m (a + 2) = v / 256 % 256 ∧
  m (a + 3) = v % 256

/-- Memory holds the big-endian 16-bit value `v` at `a`. -/
def holdsHalf (m : Mem) (a v : Nat) : Prop :=
  m a = v / 256 % 256 ∧ m (a + 1) = v % 256

/-- Memory holds the byte `v` at `a`. -/
def holdsByte (m : Mem) (a v : Nat) : Prop :=
  m a = v % 256

/-! ## Save states -/

/-- Modelled from the spec: one value passed to `PointerWrap::Do` (Common/ChunkFile.h is not
among the sources). The save-state layout (§6) is a sequence of such items: queue contents,
integers of the width of the member, the cryptographic-subsystem state (opaque), a device's
own serialized state (opaque; the embedding keeps of it the device name), a device-type tag
and a string. -/
inductive Item where
  | Queue (entries : List Nat)
  | U64 (value : Nat)
  | U32 (value : Nat)
  | U16 (value : Nat)
  | IOSC
  | DeviceState (name : String)
  | DevType (device_type : DeviceType)
  | Str (value : String)
  deriving DecidableEq, Repr

/-- Modelled from the spec: the modes of a `PointerWrap` that IOS.cpp tells apart: restore
(`MODE_READ`) and the others, which are snapshot (`MODE_WRITE`). -/
inductive PointerWrap.Mode where
  | MODE_READ
  | MODE_WRITE
  deriving DecidableEq, Repr

/-- Modelled from the spec: a `PointerWrap`: its mode and, in write mode, the items written
so far, in read mode the items not yet read. -/
structure PointerWrap where
  mode : PointerWrap.Mode
  items : List Item
  deriving DecidableEq, Repr

/-- Modelled from the spec: `PointerWrap::Do`: in write mode the value is appended and stays
as it is; in read mode the next item is taken (nothing is left to take: the restore fails). -/
def PointerWrap.Do (p : PointerWrap) (x : Item) : Option (Item × PointerWrap) :=
  match p.mode with
  | PointerWrap.Mode.MODE_WRITE => some (x, { p with items := p.items ++ [x] })
  | PointerWrap.Mode.MODE_READ =>
    match p.items with
    | [] => none
    | y :: rest => some (y, { p with items := rest })

/-- `p.Do` on a `std::deque<u32>` member. -/
def PointerWrap.DoQueue (p : PointerWrap) (x : List Nat) : Option (List Nat × PointerWrap) :=
  match p.Do (Item.Queue x) with
  | some (Item.Queue v, p1) => some (v, p1)
  | _ => none

/-- `p.Do` on a `u64` member. -/
def PointerWrap.DoU64 (p : PointerWrap) (x : Nat) : Option (Nat × PointerWrap) :=
  match p.Do (Item.U64 x) with
  | some (Item.U64 v, p1) => some (v, p1)
  | _ => none

/-- `p.Do` on a `u32` value. -/
def PointerWrap.DoU32 (p : PointerWrap) (x : Nat) : Option (Nat × PointerWrap) :=
  match p.Do (Item.U32 x) with
  | some (Item.U32 v, p1) => some (v, p1)
  | _ => none

/-- `p.Do` on a `u16` member. -/
def PointerWrap.DoU16 (p : PointerWrap) (x : Nat) : Option (Nat × PointerWrap) :=
  match p.Do (Item.U16 x) with
  | some (Item.U16 v, p1) => some (v, p1)
  | _ => none

/-- `p.Do` on a `std::string`. -/
def PointerWrap.DoStr (p : PointerWrap) (x : String) : Option (String × PointerWrap) :=
  match p.Do (Item.Str x) with
  | some (Item.Str v, p1) => some (v, p1)
  | _ => none

/-- `p.Do` on a `DeviceType`. -/
def PointerWrap.DoDevType (p : PointerWrap) (x : DeviceType) :
    Option (DeviceType × PointerWrap) :=
  match p.Do (Item.DevType x) with
  | some (Item.DevType v, p1) => some (v, p1)
  | _ => none

/-- The call `m_iosc.DoState(p)`: the cryptographic-subsystem state, opaque. -/
def PointerWrap.DoIOSC (p : PointerWrap) : Option PointerWrap :=
  match p.Do Item.IOSC with
  | some (Item.IOSC, p1) => some p1
  | _ => none

/-- Modelled from the spec: the call `device->DoState(p)` (Device.cpp is not among the
sources): the device's own state is one opaque item; restoring it gives the device the name
that was saved. -/
def Device.DoState (device : Device) (p : PointerWrap) : Option (Device × PointerWrap) :=
  match p.Do (Item.DeviceState device.name) with
  | some (Item.DeviceState n, p1) => some ({ device with name := n }, p1)
  | _ => none

/-- The entries of `m_device_map` in the order a `std::map` iterates them: by key. -/
def mapEntries (m : List (String × Device)) : List (String × Device) :=
  m.insertionSort (fun a b => a.1.data ≤ b.1.data)

/-- The loop `for (const auto& entry : m_device_map) entry.second->DoState(p)`
(IOS.cpp 605-606). -/
def DoState.devices : List (String × Device) → PointerWrap → Option PointerWrap
  | [], p => some p
  | entry :: rest, p =>
    match Device.DoState entry.2 p with
    | none => none
    | some (_, p1) => DoState.devices rest p1

/-- The loop of `Kernel::DoState` in read mode (IOS.cpp 610-637) over the given slots. A slot
whose flag is 0 is not assigned. -/
def DoState.readDescriptors :
    List Nat → Kernel → Sys → PointerWrap → Option (Kernel × Sys × PointerWrap)
  | [], k, w, p => some (k, w, p)
  | i :: rest, k, w, p =>
    match p.DoU32 0 with
    | none => none
    | some (exists_, p1) =>
      if exists_ = 0 then
        DoState.readDescriptors rest k w p1
      else
        match p1.DoDevType DeviceType.Static with
        | none => none
        | some (DeviceType.Static, p2) =>
          match p2.DoStr "" with
          | none => none
          | some (device_name, p3) =>
            DoState.readDescriptors rest
              { k with m_fdmap := Function.update k.m_fdmap i (GetDeviceByName k device_name) }
              w p3
        | some (DeviceType.FileIO, p2) =>
          match Device.DoState (makeFileIODevice w "").1 p2 with
          | none => none
          | some (device, p3) =>
            DoState.readDescriptors rest
              { k with m_fdmap := Function.update k.m_fdmap i (some device) }
              (makeFileIODevice w "").2 p3
        | some (DeviceType.OH0, p2) =>
          match Device.DoState (makeOH0Device w "").1 p2 with
          | none => none
          | some (device, p3) =>
            DoState.readDescriptors rest
              { k with m_fdmap := Function.update k.m_fdmap i (some device) }
              (makeOH0Device w "").2 p3

/-- The loop of `Kernel::DoState` in the other modes (IOS.cpp 641-659) over the given
slots. -/
def DoState.writeDescriptors (fdmap : Nat → Option Device) :
    List Nat → PointerWrap → Option PointerWrap
  | [], p => some p
  | i :: rest, p =>
    match p.DoU32 (if (fdmap i).isSome then 1 else 0) with
    | none => none
    | some (exists_, p1) =>
      if exists_ = 0 then
        DoState.writeDescriptors fdmap rest p1
      else
        match fdmap i with
        | none => none
        | some descriptor =>
          match p1.DoDevType descriptor.deviceType with
          | none => none
          | some (device_type, p2) =>
            if device_type = DeviceType.Static then
              match p2.DoStr descriptor.name with
              | none => none
              | some (_, p3) => DoState.writeDescriptors fdmap rest p3
            else
              match Device.DoState descriptor p2 with
              | none => none
              | some (_, p3) => DoState.writeDescriptors fdmap rest p3

/-- `Kernel::DoState` (IOS.cpp 583-661): the kernel, the system and the `PointerWrap` after
the call; `none` when a read finds the stream exhausted or an item of another kind than the
one it expects. `PrepareForState` acts on device-internal state only. -/
def DoState (c : Consts) (P : Platform) (k : Kernel) (w : Sys) (p : PointerWrap) :
    Option (Kernel × Sys × PointerWrap) :=
  match p.DoQueue k.m_request_queue with
  | none => none
  | some (request_queue, p1) =>
  match p1.DoQueue k.m_reply_queue with
  | none => none
  | some (reply_queue, p2) =>
  match p2.DoU64 k.m_last_reply_time with
  | none => none
  | some (last_reply_time, p3) =>
  match p3.DoU64 k.m_title_id with
  | none => none
  | some (title_id, p4) =>
  match p4.DoU32 k.m_ppc_uid with
  | none => none
  | some (ppc_uid, p5) =>
  match p5.DoU16 k.m_ppc_gid with
  | none => none
  | some (ppc_gid, p6) =>
  match p6.DoIOSC with
  | none => none
  | some p7 =>
    let k1 : Kernel :=
      { k with m_request_queue := request_queue, m_reply_queue := reply_queue,
               m_last_reply_time := last_reply_time, m_title_id := title_id,
               m_ppc_uid := ppc_uid, m_ppc_gid := ppc_gid }
    if title_id = P.MIOS then
      some (k1, w, p7)
    else
      match DoState.devices (mapEntries k1.m_device_map) p7 with
      | none => none
      | some p8 =>
        if p8.mode = PointerWrap.Mode.MODE_READ then
          DoState.readDescriptors (List.range c.IPC_MAX_FDS) k1 w p8
        else
          match DoState.writeDescriptors k1.m_fdmap (List.range c.IPC_MAX_FDS) p8 with
          | none => none
          | some p9 => some (k1, w, p9)

/-- The per-descriptor record of the save-state layout as the specification words it (§6):
an in-use flag; if in use, a device-type tag and either (Static) the device's name or
(PerOpen) the device's own serialized state. -/
def descriptorRecord (descriptor : Option Device) : List Item :=
  match descriptor with
  | none => [Item.U32 0]
  | some device =>
    [Item.U32 1, Item.DevType device.deviceType,
     if device.deviceType = DeviceType.Static then Item.Str device.name
     else Item.DeviceState device.name]

/-- The first seven items of the save-state layout (§6): request queue, reply queue,
`last_reply_time`, kernel version, uid, gid, cryptographic-subsystem state. -/
def stateHeader (request_queue reply_queue : List Nat)
    (last_reply_time title_id uid gid : Nat) : List Item :=
  [Item.Queue request_queue, Item.Queue reply_queue, Item.U64 last_reply_time,
   Item.U64 title_id, Item.U32 uid, Item.U16 gid, Item.IOSC]

/-- The save-state layout as the specification words it (§6): the seven leading items, then
the per-descriptor records of the `IPC_MAX_FDS` slots. -/
def claimedLayout (c : Consts) (k : Kernel) : List Item :=
  stateHeader k.m_request_queue k.m_reply_queue k.m_last_reply_time k.m_title_id
      k.m_ppc_uid k.m_ppc_gid
    ++ (List.range c.IPC_MAX_FDS).flatMap (fun i => descriptorRecord (k.m_fdmap i))

/-- The save-state layout with, between the seven leading items and the per-descriptor
records, the serialized state of every Registry device, in the order of the names. -/
def savedLayout (c : Consts) (k : Kernel) : List Item :=
  stateHeader k.m_request_queue k.m_reply_queue k.m_last_reply_time k.m_title_id
      k.m_ppc_uid k.m_ppc_gid
    ++ (mapEntries k.m_device_map).map (fun entry => Item.DeviceState entry.2.name)
    ++ (List.range c.IPC_MAX_FDS).flatMap (fun i => descriptorRecord (k.m_fdmap i))

/-! ## Concrete instances used to evaluate the definitions -/

/-- The values the constants have in the emulator's headers. -/
def exampleConsts : Consts :=
  { IPC_MAX_FDS := 24, IPC_SUCCESS := 0, IPC_EINVAL := -4, IPC_ENOENT := -6,
    FS_EFDEXHAUSTED := -109, IPC_REPLY := 8, DEFAULT_REPLY_DELAY := 182250 }

/-- A backend all of whose operations succeed and leave memory alone; `Close` reports the
error -4 for the descriptor 1; the decoded path is fixed. -/
def exampleBackend : Backend :=
  { Open := fun _ mem _ _ => (0, mem),
    Close := fun _ mem _ fd => (if fd = 1 then -4 else 0, mem),
    Read := fun _ mem _ _ => ({ return_value := 7, send_reply := true, reply_delay_ticks := 10 }, mem),
    Write := fun _ mem _ _ => ({ return_value := 7, send_reply := true, reply_delay_ticks := 10 }, mem),
    Seek := fun _ mem _ _ => ({ return_value := 0, send_reply := true, reply_delay_ticks := 10 }, mem),
    IOCtl := fun _ mem _ _ => ({ return_value := 0, send_reply := true, reply_delay_ticks := 10 }, mem),
    IOCtlV := fun _ mem _ _ => ({ return_value := 0, send_reply := true, reply_delay_ticks := 10 }, mem),
    decodeOpen := fun _ _ => ("/tmp/file", 1) }

/-- A backend whose `Open` always fails with the code -106. -/
def failingBackend : Backend :=
  { exampleBackend with Open := fun _ mem _ _ => (-106, mem) }

/-- The filesystem device registered by `AddCoreDevices`. -/
def exampleFS : Device := { deviceType := DeviceType.Static, name := "/dev/fs", id := 0 }

/-- A kernel with the two core devices registered, whose slots hold what `fdmap` says. -/
def exampleKernel (fdmap : Nat → Option Device) (last_reply_time : Nat) : Kernel :=
  { m_title_id := 0x0000000100000050, m_ppc_uid := 0, m_ppc_gid := 0,
    m_device_map := [("/dev/fs", exampleFS),
                     ("/dev/es", { deviceType := DeviceType.Static, name := "/dev/es", id := 1 })],
    m_fdmap := fdmap, m_request_queue := [], m_reply_queue := [], m_ack_queue := [],
    m_last_reply_time := last_reply_time }

/-- A system state whose memory holds `mem`, at the given tick. -/
def exampleSys (mem : Mem) (ticks : Nat) : Sys :=
  { mem := mem, calls := [], events := [], ticks := ticks, next_object := 2 }

/-- An Open request for a path. -/
def exampleOpen (path : String) : OpenRequest :=
  { address := 0x1000, command := IPC_CMD_OPEN, fd := 0, path := path, flags := 1 }

/-- A table whose slot 0 is bound to the filesystem device and whose other slots are free. -/
def slotZeroBound : Nat → Option Device := fun i => if i = 0 then some exampleFS else none

/-- A table whose slot 1 is bound to the filesystem device and whose other slots are free. -/
def slotOneBound : Nat → Option Device := fun i => if i = 1 then some exampleFS else none

/-- Constants with a table of three slots, to run the exhaustion scenario in full. -/
def threeSlotConsts : Consts := { exampleConsts with IPC_MAX_FDS := 3 }

/-- Guest memory holding, at 0x1000, a Read command record for descriptor 1, zero elsewhere. -/
def readRecordMem : Mem := fun x => if x = 0x1003 then 3 else if x = 0x1007 then 1 else 0

/-- A Memory Layout Record for IOS 80, with a distinct value in every field. -/
def exampleValues : MemoryValues :=
  { ios_number := 80, ios_version := 0x00501b20, ios_date := 0x00030310,
    mem1_physical_size := 0x01800000, mem1_simulated_size := 0x01800001,
    mem1_end := 0x81800000, mem1_arena_begin := 0x00000002, mem1_arena_end := 0x81800003,
    mem2_physical_size := 0x04000000, mem2_simulated_size := 0x04000001,
    mem2_end := 0x935e0000, mem2_arena_begin := 0x00000004, mem2_arena_end := 0x935e0005,
    ipc_buffer_begin := 0x935e0006, ipc_buffer_end := 0x93600000,
    hollywood_revision := 0x00000011, ram_vendor := 0x0000ff01,
    unknown_begin := 0x93600007, unknown_end := 0x93620000, sysmenu_sync := 0x80000008 }

/-- A table with the one row `exampleValues`. -/
def exampleTable : List MemoryValues := [exampleValues]

/-- The title id of IOS 80. -/
def titleIOS80 : Nat := 0x0000000100000050

/-- The title id of IOS 3, which has no row in `exampleTable`. -/
def titleIOS3 : Nat := 0x0000000100000003

/-- A backend whose first `Read` asks for the delay 10 and whose later ones ask for 2^31. -/
def lateBackend : Backend :=
  { exampleBackend with
    Read := fun calls mem _ _ =>
      ({ return_value := 7, send_reply := true,
         reply_delay_ticks := if calls.isEmpty then 10 else 2147483648 }, mem) }

/-- Guest memory holding Read command records for descriptor 1 at 0x1000 and at 0x1020. -/
def twoRecordsMem : Mem :=
  fun x => if x = 0x1003 then 3 else if x = 0x1007 then 1
    else if x = 0x1023 then 3 else if x = 0x1027 then 1 else 0

/-- A platform with the title ids of BC and MIOS and the example table. -/
def examplePlatform : Platform :=
  { BC := 0x0000000100000100, MIOS := 0x0000000100000101, memory_values := exampleTable,
    m_bt_passthrough_enabled := false, MIOS_Load := fun mem => mem }

/-- A valid loader whose DOL is valid and fails to load, leaving memory as it finds it. -/
def failingLoader : NANDContentLoader :=
  { IsValid := true,
    boot_content := some { IsValid := true, LoadIntoMemory := fun mem => (false, mem) } }

/-- A loader that is not valid. -/
def invalidLoader : NANDContentLoader := { IsValid := false, boot_content := none }

/-- The kernel that `EmulationKernel` constructs for IOS 80 on the example platform. -/
def bootedKernel : Kernel :=
  match EmulationKernel examplePlatform (exampleSys readRecordMem 0) titleIOS80 with
  | Except.ok (k, _) => k
  | Except.error _ => Kernel.new titleIOS80

/-- The system state after that construction. -/
def bootedSys : Sys :=
  match EmulationKernel examplePlatform (exampleSys readRecordMem 0) titleIOS80 with
  | Except.ok (_, w) => w
  | Except.error _ => exampleSys readRecordMem 0

/-- A kernel with one pending request (the Read record at 0x1000), one pending reply and one
pending acknowledgement. -/
def queuedKernel : Kernel :=
  { exampleKernel slotOneBound 0 with
    m_request_queue := [0x1000], m_reply_queue := [0x2000], m_ack_queue := [0x3000] }

/-- The kernel `bootedKernel` later on: "/dev/fs" bound to slot 1, a file device bound to
slot 2, one entry in each queue, uid 5, gid 6 and the last reply at tick 77. -/
def savedKernel : Kernel :=
  { bootedKernel with
    m_fdmap := fun i =>
      if i = 1 then GetDeviceByName bootedKernel "/dev/fs"
      else if i = 2 then some { deviceType := DeviceType.FileIO, name := "/tmp/file", id := 99 }
      else none,
    m_request_queue := [0x1000], m_reply_queue := [0x2000], m_ack_queue := [0x3000],
    m_ppc_uid := 5, m_ppc_gid := 6, m_last_reply_time := 77 }

/-- An empty `PointerWrap` in write mode. -/
def emptyWriter : PointerWrap := { mode := PointerWrap.Mode.MODE_WRITE, items := [] }

/-- A `PointerWrap` in read mode over the given items. -/
def readerOf (items : List Item) : PointerWrap :=
  { mode := PointerWrap.Mode.MODE_READ, items := items }

/-- The items a snapshot of `savedKernel` produces, on three-slot constants. -/
def savedItems : List Item :=
  match DoState threeSlotConsts examplePlatform savedKernel bootedSys emptyWriter with
  | some r => r.2.2.items
  | none => []

/-- The kernel after restoring `savedItems` into the freshly constructed `bootedKernel`. -/
def restoredKernel : Option Kernel :=
  (DoState threeSlotConsts examplePlatform bootedKernel bootedSys (readerOf savedItems)).map
    (fun r => r.1)

/-! ## Lemmas on the slot scan -/

theorem GetFreeDeviceID.scan_eq_some {f : Nat → Option Device} {n i j : Nat}
    (h : GetFreeDeviceID.scan f i n = some j) :
    i ≤ j ∧ j < i + n ∧ f j = none ∧ ∀ x, i ≤ x → x < j → f x ≠ none := by
  induction n generalizing i with
  | zero => simp [GetFreeDeviceID.scan] at h
  | succ n ih =>
    unfold GetFreeDeviceID.scan at h
    by_cases hi : (f i).isNone = true
    · rw [if_pos hi] at h
      have hij : i = j := by simpa using h
      subst hij
      refine ⟨le_refl _, by omega, by simpa using hi, ?_⟩
      intro x h1 h2
      omega
    · rw [if_neg hi] at h
      obtain ⟨h1, h2, h3, h4⟩ := ih h
      refine ⟨by omega, by omega, h3, ?_⟩
      intro x hx1 hx2
      by_cases hxi : x = i
      · subst hxi
        intro hnone
        exact hi (by simp [hnone])
      · exact h4 x (by omega) hx2

theorem GetFreeDeviceID.scan_eq_none {f : Nat → Option Device} {n i : Nat}
    (h : GetFreeDeviceID.scan f i n = none) :
    ∀ x, i ≤ x → x < i + n → f x ≠ none := by
  induction n generalizing i with
  | zero => intro x h1 h2; omega
  | succ n ih =>
    unfold GetFreeDeviceID.scan at h
    by_cases hi : (f i).isNone = true
    · rw [if_pos hi] at h
      simp at h
    · rw [if_neg hi] at h
      intro x hx1 hx2
      by_cases hxi : x = i
      · subst hxi
        intro hnone
        exact hi (by simp [hnone])
      · exact ih h x (by omega) (by omega)

theorem GetFreeDeviceID.scan_first_free {f : Nat → Option Device} {n i j : Nat}
    (h1 : i ≤ j) (h2 : j < i + n) (hfree : f j = none)
    (hbefore : ∀ x, i ≤ x → x < j → f x ≠ none) :
    GetFreeDeviceID.scan f i n = some j := by
  cases hs : GetFreeDeviceID.scan f i n with
  | none => exact absurd hfree (GetFreeDeviceID.scan_eq_none hs j h1 h2)
  | some m =>
    obtain ⟨m1, _, m3, m4⟩ := GetFreeDeviceID.scan_eq_some hs
    rcases Nat.lt_trichotomy m j with hlt | heq | hgt
    · exact absurd m3 (hbefore m m1 hlt)
    · rw [heq]
    · exact absurd hfree (m4 j h1 hgt)

theorem GetFreeDeviceID.scan_isSome_of_free {f : Nat → Option Device} {n : Nat}
    (h : ∃ i, i < n ∧ f i = none) : ∃ j, GetFreeDeviceID.scan f 0 n = some j := by
  obtain ⟨i, hi, hf⟩ := h
  cases hs : GetFreeDeviceID.scan f 0 n with
  | none => exact absurd hf (GetFreeDeviceID.scan_eq_none hs i (Nat.zero_le _) (by omega))
  | some m => exact ⟨m, rfl⟩

theorem toS32_of_lt {x : Nat} (h : x < 2147483648) : toS32 x = (x : Int) := by
  unfold toS32
  have : x % 4294967296 = x := Nat.mod_eq_of_lt (by omega)
  rw [this, if_pos h]

/-! ## The three outcomes of `OpenDevice` -/

theorem OpenDevice_exhausted (c : Consts) (B : Backend) (k : Kernel) (w : Sys)
    (request : OpenRequest) (h : GetFreeDeviceID.scan k.m_fdmap 0 c.IPC_MAX_FDS = none) :
    OpenDevice c B k w request = (c.FS_EFDEXHAUSTED, k, w) := by
  simp [OpenDevice, GetFreeDeviceID, h]

theorem GetFreeDeviceID_of_scan (c : Consts) (k : Kernel) (j : Nat)
    (hmax : c.IPC_MAX_FDS ≤ 2147483648)
    (h : GetFreeDeviceID.scan k.m_fdmap 0 c.IPC_MAX_FDS = some j) :
    GetFreeDeviceID c k = (j : Int) ∧ j < c.IPC_MAX_FDS := by
  obtain ⟨_, h2, _, _⟩ := GetFreeDeviceID.scan_eq_some h
  have hj : j < c.IPC_MAX_FDS := by omega
  refine ⟨?_, hj⟩
  simp only [GetFreeDeviceID, h]
  exact toS32_of_lt (by omega)

theorem OpenDevice_of_scan (c : Consts) (B : Backend) (k : Kernel) (w : Sys)
    (request : OpenRequest) (j : Nat) (hmax : c.IPC_MAX_FDS ≤ 2147483648)
    (h : GetFreeDeviceID.scan k.m_fdmap 0 c.IPC_MAX_FDS = some j) :
    OpenDevice c B k w request =
      match OpenDevice.resolve k w request.path with
      | (none, w1) => (c.IPC_ENOENT, k, w1)
      | (some device, w1) =>
        if (Device.Open B w1 device { request with fd := j }).1 < c.IPC_SUCCESS then
          ((Device.Open B w1 device { request with fd := j }).1, k,
            (Device.Open B w1 device { request with fd := j }).2)
        else
          ((j : Int), { k with m_fdmap := Function.update k.m_fdmap j (some device) },
            (Device.Open B w1 device { request with fd := j }).2) := by
  obtain ⟨hg, hj⟩ := GetFreeDeviceID_of_scan c k j hmax h
  unfold OpenDevice
  simp only [hg]
  have h1 : ¬ ((j : Int) < 0 ∨ (j : Int) ≥ (c.IPC_MAX_FDS : Int)) := by omega
  rw [if_neg h1]
  simp only [Int.toNat_ofNat]

/-! ## C1 -/

/-- C1: whenever `OpenDevice` returns a non-negative value `fd`, then `fd < IPC_MAX_FDS`, slot
`fd` was empty before the call and every lower slot was bound (it is the lowest free slot),
after the call slot `fd` holds the device the path resolved to, and every other slot is
unchanged. The constants are as in the headers: `IPC_MAX_FDS` fits an `s32`, `IPC_SUCCESS` is
not positive, and the two error codes the kernel itself returns are negative. -/
theorem C1_OpenDevice_binds_lowest_free_slot (c : Consts) (B : Backend) (k : Kernel) (w : Sys)
    (request : OpenRequest)
    (hmax : c.IPC_MAX_FDS ≤ 2147483648) (hsucc : c.IPC_SUCCESS ≤ 0)
    (hexh : c.FS_EFDEXHAUSTED < 0) (hnoent : c.IPC_ENOENT < 0)
    (hfd : 0 ≤ (OpenDevice c B k w request).1) :
    (OpenDevice c B k w request).1 < (c.IPC_MAX_FDS : Int) ∧
    k.m_fdmap (OpenDevice c B k w request).1.toNat = none ∧
    (∀ j, j < (OpenDevice c B k w request).1.toNat → k.m_fdmap j ≠ none) ∧
    (∃ device, (OpenDevice.resolve k w request.path).1 = some device ∧
      (OpenDevice c B k w request).2.1.m_fdmap (OpenDevice c B k w request).1.toNat
        = some device) ∧
    (∀ j, j ≠ (OpenDevice c B k w request).1.toNat →
      (OpenDevice c B k w request).2.1.m_fdmap j = k.m_fdmap j) := by
  cases hs : GetFreeDeviceID.scan k.m_fdmap 0 c.IPC_MAX_FDS with
  | none =>
    rw [OpenDevice_exhausted c B k w request hs] at hfd
    simp only at hfd
    omega
  | some j =>
    obtain ⟨_, hj2, hj3, hj4⟩ := GetFreeDeviceID.scan_eq_some hs
    rw [OpenDevice_of_scan c B k w request j hmax hs] at hfd ⊢
    rcases hr : OpenDevice.resolve k w request.path with ⟨dev, w1⟩
    rw [hr] at hfd
    cases dev with
    | none =>
      simp only at hfd
      omega
    | some device =>
      simp only at hfd ⊢
      by_cases hcode : (Device.Open B w1 device { request with fd := j }).1 < c.IPC_SUCCESS
      · rw [if_pos hcode] at hfd
        simp only at hfd
        omega
      · rw [if_neg hcode]
        simp only [Int.toNat_ofNat]
        refine ⟨by omega, hj3, fun x hx => hj4 x (Nat.zero_le _) hx, ⟨device, rfl, by simp⟩, ?_⟩
        intro x hx
        simp [Function.update, hx]

/-- C1 at a concrete input: slot 0 is bound, "/dev/es" is opened and lands in slot 1. -/
theorem C1_OpenDevice_binds_lowest_free_slot_witness :
    0 ≤ (OpenDevice exampleConsts exampleBackend (exampleKernel slotZeroBound 0)
          (exampleSys (fun _ => 0) 0) (exampleOpen "/dev/es")).1 ∧
    (OpenDevice exampleConsts exampleBackend (exampleKernel slotZeroBound 0)
          (exampleSys (fun _ => 0) 0) (exampleOpen "/dev/es")).1 = 1 ∧
    (OpenDevice exampleConsts exampleBackend (exampleKernel slotZeroBound 0)
          (exampleSys (fun _ => 0) 0) (exampleOpen "/dev/es")).1
      < (exampleConsts.IPC_MAX_FDS : Int) :=
  ⟨by decide, by decide,
   (C1_OpenDevice_binds_lowest_free_slot exampleConsts exampleBackend
      (exampleKernel slotZeroBound 0) (exampleSys (fun _ => 0) 0) (exampleOpen "/dev/es")
      (by decide) (by decide) (by decide) (by decide) (by decide)).1⟩

/-! ## Path tests -/

theorem findAtZero_dev_of_oh0 (path : String) (h : findAtZero path "/dev/usb/oh0/" = true) :
    findAtZero path "/dev/" = true := by
  unfold findAtZero at h ⊢
  rw [List.isPrefixOf_iff_prefix] at h ⊢
  exact List.IsPrefix.trans ⟨"usb/oh0/".data, rfl⟩ h

theorem findCharAtZero_of_dev (path : String) (h : findAtZero path "/dev/" = true) :
    findCharAtZero path '/' = true := by
  unfold findAtZero at h
  rw [List.isPrefixOf_iff_prefix] at h
  obtain ⟨t, ht⟩ := h
  unfold findCharAtZero
  rw [← ht]
  rfl

theorem resolve_not_absolute (k : Kernel) (w : Sys) (path : String)
    (h : findCharAtZero path '/' = false) : OpenDevice.resolve k w path = (none, w) := by
  have h1 : findAtZero path "/dev/" = false := by
    cases hd : findAtZero path "/dev/" with
    | false => rfl
    | true => rw [findCharAtZero_of_dev path hd] at h; cases h
  have h2 : findAtZero path "/dev/usb/oh0/" = false := by
    cases hd : findAtZero path "/dev/usb/oh0/" with
    | false => rfl
    | true => rw [findAtZero_dev_of_oh0 path hd] at h1; cases h1
  simp [OpenDevice.resolve, h, h1, h2]

theorem resolve_fileBacked (k : Kernel) (w : Sys) (path : String)
    (h1 : findCharAtZero path '/' = true) (h2 : findAtZero path "/dev/" = false) :
    OpenDevice.resolve k w path = (some (makeFileIODevice w path).1, (makeFileIODevice w path).2) := by
  have h3 : findAtZero path "/dev/usb/oh0/" = false := by
    cases hd : findAtZero path "/dev/usb/oh0/" with
    | false => rfl
    | true => rw [findAtZero_dev_of_oh0 path hd] at h2; cases h2
  simp [OpenDevice.resolve, h1, h2, h3]

/-! ## C2 -/

theorem OpenDevice_fileBacked_step (c : Consts) (B : Backend) (k : Kernel) (w : Sys)
    (request : OpenRequest) (j : Nat) (hmax : c.IPC_MAX_FDS ≤ 2147483648)
    (hopen : ∀ calls mem dev req, c.IPC_SUCCESS ≤ (B.Open calls mem dev req).1)
    (hj : j < c.IPC_MAX_FDS) (hlow : ∀ i, i < j → k.m_fdmap i ≠ none)
    (hfree : k.m_fdmap j = none) (hpath : isFileBacked request.path = true) :
    OpenDevice c B k w request =
      ((j : Int),
       { k with m_fdmap :=
           Function.update k.m_fdmap j (some (makeFileIODevice w request.path).1) },
       (Device.Open B (makeFileIODevice w request.path).2 (makeFileIODevice w request.path).1
          { request with fd := j }).2) := by
  have hs : GetFreeDeviceID.scan k.m_fdmap 0 c.IPC_MAX_FDS = some j :=
    GetFreeDeviceID.scan_first_free (Nat.zero_le _) (by omega) hfree (fun x _ hx => hlow x hx)
  unfold isFileBacked at hpath
  simp only [Bool.and_eq_true, Bool.not_eq_true'] at hpath
  rw [OpenDevice_of_scan c B k w request j hmax hs, resolve_fileBacked k w _ hpath.1 hpath.2]
  have hcode : ¬ (Device.Open B (makeFileIODevice w request.path).2 (makeFileIODevice w request.path).1
      { request with fd := j }).1 < c.IPC_SUCCESS := by
    have := hopen (makeFileIODevice w request.path).2.calls (makeFileIODevice w request.path).2.mem
      (makeFileIODevice w request.path).1 { request with fd := j }
    simp only [Device.Open]
    omega
  simp only [if_neg hcode]

theorem OpenDevice.run_fileBacked (c : Consts) (B : Backend)
    (hmax : c.IPC_MAX_FDS ≤ 2147483648)
    (hopen : ∀ calls mem dev req, c.IPC_SUCCESS ≤ (B.Open calls mem dev req).1) :
    ∀ (reqs : List OpenRequest) (k : Kernel) (w : Sys) (j : Nat),
      j + reqs.length ≤ c.IPC_MAX_FDS →
      (∀ i, i < j → k.m_fdmap i ≠ none) →
      (∀ i, j ≤ i → i < c.IPC_MAX_FDS → k.m_fdmap i = none) →
      (∀ r, r ∈ reqs → isFileBacked r.path = true) →
      (OpenDevice.run c B k w reqs).1 = (List.range' j reqs.length).map Int.ofNat ∧
      (∀ i, i < j + reqs.length → (OpenDevice.run c B k w reqs).2.1.m_fdmap i ≠ none) ∧
      (∀ i, j + reqs.length ≤ i → i < c.IPC_MAX_FDS →
        (OpenDevice.run c B k w reqs).2.1.m_fdmap i = none) ∧
      (OpenDevice.run c B k w reqs).2.2.calls.length = w.calls.length + reqs.length := by
  intro reqs
  induction reqs with
  | nil =>
    intro k w j _ hlow hhigh _
    simp only [OpenDevice.run, List.length_nil, Nat.add_zero]
    exact ⟨by simp [List.range'], hlow, hhigh, trivial⟩
  | cons r rs ih =>
    intro k w j hlen hlow hhigh hpaths
    simp only [List.length_cons] at hlen ⊢
    have hstep := OpenDevice_fileBacked_step c B k w r j hmax hopen (by omega) hlow
      (hhigh j (le_refl _) (by omega)) (hpaths r (List.mem_cons_self _ _))
    simp only [OpenDevice.run]
    rw [hstep]
    simp only
    have ih1 := ih
      { k with m_fdmap := Function.update k.m_fdmap j (some (makeFileIODevice w r.path).1) }
      (Device.Open B (makeFileIODevice w r.path).2 (makeFileIODevice w r.path).1 { r with fd := j }).2
      (j + 1) (by omega)
      (by
        intro i hi
        by_cases hij : i = j
        · subst hij; simp
        · simp only [Function.update, hij, dite_false]
          exact hlow i (by omega))
      (by
        intro i hi1 hi2
        have hij : i ≠ j := by omega
        simp only [Function.update, hij, dite_false]
        exact hhigh i (by omega) hi2)
      (fun x hx => hpaths x (List.mem_cons_of_mem _ hx))
    obtain ⟨a1, a2, a3, a4⟩ := ih1
    refine ⟨?_, ?_, ?_, ?_⟩
    · rw [a1]
      simp [List.range'_succ]
    · intro i hi
      exact a2 i (by omega)
    · intro i hi1 hi2
      exact a3 i (by omega) hi2
    · rw [a4]
      simp only [Device.Open, Sys.afterCall, makeFileIODevice, List.length_append,
        List.length_singleton]
      omega

/-- C2: from a table whose `IPC_MAX_FDS` slots are all empty, `IPC_MAX_FDS` consecutive
`OpenDevice` calls on file-backed paths whose device `Open` succeeds return the descriptors
0, 1, ..., `IPC_MAX_FDS - 1` in this order (pairwise distinct), each with one device `Open`
call; afterwards every slot is bound, and one more `OpenDevice` returns `FS_EFDEXHAUSTED` and
leaves the kernel and the system (the trace of device calls included) exactly as they were. -/
theorem C2_exhaustion_after_max_opens (c : Consts) (B : Backend) (k : Kernel) (w : Sys)
    (reqs : List OpenRequest) (last : OpenRequest)
    (hmax : c.IPC_MAX_FDS ≤ 2147483648)
    (hopen : ∀ calls mem dev req, c.IPC_SUCCESS ≤ (B.Open calls mem dev req).1)
    (hempty : ∀ i, i < c.IPC_MAX_FDS → k.m_fdmap i = none)
    (hlen : reqs.length = c.IPC_MAX_FDS)
    (hpaths : ∀ r, r ∈ reqs → isFileBacked r.path = true) :
    (OpenDevice.run c B k w reqs).1 = (List.range c.IPC_MAX_FDS).map Int.ofNat ∧
    (OpenDevice.run c B k w reqs).1.Nodup ∧
    (OpenDevice.run c B k w reqs).2.2.calls.length = w.calls.length + c.IPC_MAX_FDS ∧
    (∀ i, i < c.IPC_MAX_FDS → (OpenDevice.run c B k w reqs).2.1.m_fdmap i ≠ none) ∧
    OpenDevice c B (OpenDevice.run c B k w reqs).2.1 (OpenDevice.run c B k w reqs).2.2 last
      = (c.FS_EFDEXHAUSTED, (OpenDevice.run c B k w reqs).2.1,
          (OpenDevice.run c B k w reqs).2.2) := by
  obtain ⟨a1, a2, _, a4⟩ := OpenDevice.run_fileBacked c B hmax hopen reqs k w 0 (by omega)
    (fun i hi => absurd hi (Nat.not_lt_zero i)) (fun i _ hi => hempty i hi) hpaths
  rw [hlen] at a1 a4
  simp only [Nat.zero_add, hlen] at a2
  have hres : (OpenDevice.run c B k w reqs).1 = (List.range c.IPC_MAX_FDS).map Int.ofNat := by
    rw [a1, List.range_eq_range']
  refine ⟨hres, ?_, a4, a2, ?_⟩
  · rw [hres]
    exact (List.nodup_range _).map (fun a b hab => Int.ofNat.inj hab)
  · apply OpenDevice_exhausted
    cases hs : GetFreeDeviceID.scan (OpenDevice.run c B k w reqs).2.1.m_fdmap 0 c.IPC_MAX_FDS with
    | none => rfl
    | some m =>
      obtain ⟨_, m2, m3, _⟩ := GetFreeDeviceID.scan_eq_some hs
      exact absurd m3 (a2 m (by omega))

/-- C2 at a concrete input: three slots, four Opens of file-backed paths. -/
theorem C2_exhaustion_after_max_opens_witness :
    (OpenDevice.run threeSlotConsts exampleBackend (exampleKernel (fun _ => none) 0)
        (exampleSys (fun _ => 0) 0)
        [exampleOpen "/tmp/a", exampleOpen "/title/b", exampleOpen "/c"]).1 = [0, 1, 2] ∧
    (OpenDevice threeSlotConsts exampleBackend
        (OpenDevice.run threeSlotConsts exampleBackend (exampleKernel (fun _ => none) 0)
          (exampleSys (fun _ => 0) 0)
          [exampleOpen "/tmp/a", exampleOpen "/title/b", exampleOpen "/c"]).2.1
        (OpenDevice.run threeSlotConsts exampleBackend (exampleKernel (fun _ => none) 0)
          (exampleSys (fun _ => 0) 0)
          [exampleOpen "/tmp/a", exampleOpen "/title/b", exampleOpen "/c"]).2.2
        (exampleOpen "/d")).1 = -109 :=
  have h := C2_exhaustion_after_max_opens threeSlotConsts exampleBackend
    (exampleKernel (fun _ => none) 0) (exampleSys (fun _ => 0) 0)
    [exampleOpen "/tmp/a", exampleOpen "/title/b", exampleOpen "/c"] (exampleOpen "/d")
    (by decide) (fun _ _ _ _ => Int.le_refl 0) (fun _ _ => rfl) (by decide) (by decide)
  ⟨h.1, by rw [h.2.2.2.2]; rfl⟩

/-! ## C3 -/

/-- C3: for a path that does not begin with '/' and a table with a free slot, `OpenDevice`
returns `IPC_ENOENT` and leaves the kernel (every descriptor slot) and the system (the trace
of device calls: no device is opened) exactly as they were. -/
theorem C3_non_absolute_path_is_ENOENT (c : Consts) (B : Backend) (k : Kernel) (w : Sys)
    (request : OpenRequest) (hmax : c.IPC_MAX_FDS ≤ 2147483648)
    (hfree : ∃ i, i < c.IPC_MAX_FDS ∧ k.m_fdmap i = none)
    (hpath : findCharAtZero request.path '/' = false) :
    OpenDevice c B k w request = (c.IPC_ENOENT, k, w) := by
  obtain ⟨j, hs⟩ := GetFreeDeviceID.scan_isSome_of_free hfree
  rw [OpenDevice_of_scan c B k w request j hmax hs, resolve_not_absolute k w _ hpath]

/-- C3 at a concrete input: the relative path "tmp/file" on an empty table. -/
theorem C3_non_absolute_path_is_ENOENT_witness :
    findCharAtZero (exampleOpen "tmp/file").path '/' = false ∧
    (OpenDevice exampleConsts exampleBackend (exampleKernel (fun _ => none) 0)
        (exampleSys (fun _ => 0) 0) (exampleOpen "tmp/file")).1 = -6 :=
  ⟨by decide,
   by rw [C3_non_absolute_path_is_ENOENT exampleConsts exampleBackend
        (exampleKernel (fun _ => none) 0) (exampleSys (fun _ => 0) 0) (exampleOpen "tmp/file")
        (by decide) ⟨0, by decide, rfl⟩ (by decide)]; rfl⟩

/-! ## C4 -/

/-- C4 fails for an unregistered path under "/dev/": "/dev/foo" begins with '/', does not
match the bus-enumerated pattern "/dev/usb/oh0/" and is not registered, the table has a free
slot, yet the path resolves to no device and `OpenDevice` returns `IPC_ENOENT`. -/
theorem C4_counterexample_unregistered_dev_path :
    findCharAtZero "/dev/foo" '/' = true ∧
    findAtZero "/dev/foo" "/dev/usb/oh0/" = false ∧
    GetDeviceByName (exampleKernel (fun _ => none) 0) "/dev/foo" = none ∧
    (exampleKernel (fun _ => none) 0).m_fdmap 0 = none ∧
    (OpenDevice.resolve (exampleKernel (fun _ => none) 0) (exampleSys (fun _ => 0) 0)
        "/dev/foo").1 = none ∧
    (OpenDevice exampleConsts exampleBackend (exampleKernel (fun _ => none) 0)
        (exampleSys (fun _ => 0) 0) (exampleOpen "/dev/foo")).1 = exampleConsts.IPC_ENOENT := by
  refine ⟨by decide, by decide, by decide, rfl, by decide, by decide⟩

/-- C4, amended: with a free slot, a path that begins with '/' and does not begin with "/dev/"
resolves to a newly constructed FileIO device on that path (its identity is the fresh
allocation index); that device's `Open` is the one call made, with the reserved descriptor in
the request, and the value returned is the device's code if that is below `IPC_SUCCESS` and
the descriptor otherwise. A path under "/dev/" that is neither bus-enumerated nor registered
gives `IPC_ENOENT` with nothing changed. -/
theorem C4_absolute_path_resolution (c : Consts) (B : Backend) (k : Kernel) (w : Sys)
    (request : OpenRequest) (hmax : c.IPC_MAX_FDS ≤ 2147483648)
    (hfree : ∃ i, i < c.IPC_MAX_FDS ∧ k.m_fdmap i = none)
    (habs : findCharAtZero request.path '/' = true) :
    (findAtZero request.path "/dev/" = false →
      OpenDevice.resolve k w request.path
        = (some ⟨DeviceType.FileIO, request.path, w.next_object⟩,
           { w with next_object := w.next_object + 1 }) ∧
      ∃ fd : Nat, GetFreeDeviceID c k = (fd : Int) ∧
        (OpenDevice c B k w request).2.2.calls
          = w.calls ++ [DevCall.Open ⟨DeviceType.FileIO, request.path, w.next_object⟩
                          { request with fd := fd }] ∧
        (OpenDevice c B k w request).1
          = if (B.Open w.calls w.mem ⟨DeviceType.FileIO, request.path, w.next_object⟩
                  { request with fd := fd }).1 < c.IPC_SUCCESS
            then (B.Open w.calls w.mem ⟨DeviceType.FileIO, request.path, w.next_object⟩
                  { request with fd := fd }).1
            else (fd : Int)) ∧
    (findAtZero request.path "/dev/" = true →
      findAtZero request.path "/dev/usb/oh0/" = false →
      GetDeviceByName k request.path = none →
      OpenDevice c B k w request = (c.IPC_ENOENT, k, w)) := by
  obtain ⟨j, hs⟩ := GetFreeDeviceID.scan_isSome_of_free hfree
  constructor
  · intro hdev
    have hres := resolve_fileBacked k w request.path habs hdev
    refine ⟨by rw [hres]; rfl, j, (GetFreeDeviceID_of_scan c k j hmax hs).1, ?_, ?_⟩
    · rw [OpenDevice_of_scan c B k w request j hmax hs, hres]
      simp only [Device.Open, Sys.afterCall, makeFileIODevice]
      split_ifs <;> rfl
    · rw [OpenDevice_of_scan c B k w request j hmax hs, hres]
      simp only [Device.Open, Sys.afterCall, makeFileIODevice]
      split_ifs <;> rfl
  · intro hdev hbus hreg
    rw [OpenDevice_of_scan c B k w request j hmax hs]
    simp [OpenDevice.resolve, hdev, hbus, hreg]

/-- C4 (amended) at a concrete input: "/tmp/file" on an empty table. -/
theorem C4_absolute_path_resolution_witness :
    findCharAtZero (exampleOpen "/tmp/file").path '/' = true ∧
    findAtZero (exampleOpen "/tmp/file").path "/dev/" = false ∧
    OpenDevice.resolve (exampleKernel (fun _ => none) 0) (exampleSys (fun _ => 0) 0)
        (exampleOpen "/tmp/file").path
      = (some ⟨DeviceType.FileIO, "/tmp/file", 2⟩,
         { exampleSys (fun _ => 0) 0 with next_object := 3 }) :=
  ⟨by decide, by decide,
   ((C4_absolute_path_resolution exampleConsts exampleBackend (exampleKernel (fun _ => none) 0)
      (exampleSys (fun _ => 0) 0) (exampleOpen "/tmp/file") (by decide)
      ⟨0, by decide, rfl⟩ (by decide)).1 (by decide)).1⟩

/-! ## C5 -/

/-- C5: when a slot is free, the path resolves to a device and that device's `Open` returns a
code below `IPC_SUCCESS`, `OpenDevice` returns exactly that code and the kernel after the
call is the kernel before it (the reserved slot stays empty). -/
theorem C5_failed_device_Open_propagates (c : Consts) (B : Backend) (k : Kernel) (w : Sys)
    (request : OpenRequest) (device : Device) (hmax : c.IPC_MAX_FDS ≤ 2147483648)
    (hfree : ∃ i, i < c.IPC_MAX_FDS ∧ k.m_fdmap i = none)
    (hres : (OpenDevice.resolve k w request.path).1 = some device)
    (hcode : (Device.Open B (OpenDevice.resolve k w request.path).2 device
        { request with fd := (GetFreeDeviceID c k).toNat }).1 < c.IPC_SUCCESS) :
    (OpenDevice c B k w request).1
      = (Device.Open B (OpenDevice.resolve k w request.path).2 device
          { request with fd := (GetFreeDeviceID c k).toNat }).1 ∧
    (OpenDevice c B k w request).2.1 = k := by
  obtain ⟨j, hs⟩ := GetFreeDeviceID.scan_isSome_of_free hfree
  rw [(GetFreeDeviceID_of_scan c k j hmax hs).1] at hcode ⊢
  simp only [Int.toNat_ofNat] at hcode ⊢
  rw [OpenDevice_of_scan c B k w request j hmax hs]
  rcases hr : OpenDevice.resolve k w request.path with ⟨dev, w1⟩
  rw [hr] at hres hcode
  simp only at hres hcode
  subst hres
  simp only [if_pos hcode]
  exact ⟨trivial, trivial⟩

/-- C5 at a concrete input: the file device's `Open` fails with -106. -/
theorem C5_failed_device_Open_propagates_witness :
    (OpenDevice exampleConsts failingBackend (exampleKernel (fun _ => none) 0)
        (exampleSys (fun _ => 0) 0) (exampleOpen "/tmp/file")).1 = -106 ∧
    (OpenDevice exampleConsts failingBackend (exampleKernel (fun _ => none) 0)
        (exampleSys (fun _ => 0) 0) (exampleOpen "/tmp/file")).2.1
      = exampleKernel (fun _ => none) 0 :=
  have h := C5_failed_device_Open_propagates exampleConsts failingBackend
    (exampleKernel (fun _ => none) 0) (exampleSys (fun _ => 0) 0) (exampleOpen "/tmp/file")
    ⟨DeviceType.FileIO, "/tmp/file", 2⟩ (by decide) ⟨0, by decide, rfl⟩ (by decide)
    (by decide)
  ⟨by rw [h.1]; decide, h.2⟩

/-! ## C6 -/

/-- C6: a Close command for a descriptor `fd` bound to a device returns without fault; after
it slot `fd` is empty and every other slot is as before; the one device call made is that
device's `Close(fd)`; the reply requests delivery and its result code is the value the
device's `Close` returned, whatever that value is. -/
theorem C6_Close_clears_slot (c : Consts) (B : Backend) (k : Kernel) (w : Sys)
    (request : Request) (device : Device)
    (hcmd : request.command = IPC_CMD_CLOSE) (hfd : request.fd < c.IPC_MAX_FDS)
    (hbound : k.m_fdmap request.fd = some device) :
    ∃ result k1 w1, HandleIPCCommand c B k w request = Except.ok (result, k1, w1) ∧
      k1.m_fdmap request.fd = none ∧
      (∀ j, j ≠ request.fd → k1.m_fdmap j = k.m_fdmap j) ∧
      w1.calls = w.calls ++ [DevCall.Close device request.fd] ∧
      result.return_value = (B.Close w.calls w.mem device request.fd).1 ∧
      result.send_reply = true := by
  refine ⟨GetDefaultReply c (Device.Close B w device request.fd).1,
    { k with m_fdmap := Function.update k.m_fdmap request.fd none },
    (Device.Close B w device request.fd).2, ?_, ?_, ?_, rfl, rfl, rfl⟩
  · simp [HandleIPCCommand, hcmd, hfd, hbound, fdmapAt, IPC_CMD_CLOSE, IPC_CMD_OPEN]
  · simp
  · intro j hj
    simp [Function.update, hj]

/-- C6 at a concrete input: the device's `Close` reports the error -4 for descriptor 1; the
reply carries -4. -/
theorem C6_Close_clears_slot_witness :
    slotOneBound 1 = some exampleFS ∧
    ∃ result k1 w1,
      HandleIPCCommand exampleConsts exampleBackend (exampleKernel slotOneBound 0)
        (exampleSys (fun _ => 0) 0) ⟨0x1000, IPC_CMD_CLOSE, 1⟩ = Except.ok (result, k1, w1) ∧
      k1.m_fdmap 1 = none ∧
      (∀ j, j ≠ 1 → k1.m_fdmap j = slotOneBound j) ∧
      w1.calls = [DevCall.Close exampleFS 1] ∧
      result.return_value = -4 ∧
      result.send_reply = true :=
  ⟨rfl, C6_Close_clears_slot exampleConsts exampleBackend (exampleKernel slotOneBound 0)
    (exampleSys (fun _ => 0) 0) ⟨0x1000, IPC_CMD_CLOSE, 1⟩ exampleFS rfl (by decide) rfl⟩

/-! ## C7 -/

theorem HandleIPCCommand_of_invalid_fd (c : Consts) (B : Backend) (k : Kernel) (w : Sys)
    (request : Request) (hcmd : request.command ≠ IPC_CMD_OPEN)
    (hfd : c.IPC_MAX_FDS ≤ request.fd ∨ k.m_fdmap request.fd = none) :
    HandleIPCCommand c B k w request = Except.ok (GetDefaultReply c c.IPC_EINVAL, k, w) := by
  unfold HandleIPCCommand
  rw [if_neg hcmd]
  by_cases hlt : request.fd < c.IPC_MAX_FDS
  · have hnone : k.m_fdmap request.fd = none := by
      rcases hfd with h | h
      · omega
      · exact h
    simp [hlt, fdmapAt, hnone]
  · simp [hlt]

/-- C7: a command other than Open whose descriptor is `>= IPC_MAX_FDS` or names an empty slot
returns, without fault (the table is not indexed out of range), the default reply carrying
`IPC_EINVAL` with `send_reply` set, and leaves the kernel (the descriptor table) and the
system (the trace of device calls: no device operation) exactly as they were. -/
theorem C7_invalid_descriptor_is_EINVAL (c : Consts) (B : Backend) (k : Kernel) (w : Sys)
    (request : Request) (hcmd : request.command ≠ IPC_CMD_OPEN)
    (hfd : c.IPC_MAX_FDS ≤ request.fd ∨ k.m_fdmap request.fd = none) :
    HandleIPCCommand c B k w request = Except.ok (GetDefaultReply c c.IPC_EINVAL, k, w) ∧
    (GetDefaultReply c c.IPC_EINVAL).return_value = c.IPC_EINVAL ∧
    (GetDefaultReply c c.IPC_EINVAL).send_reply = true :=
  ⟨HandleIPCCommand_of_invalid_fd c B k w request hcmd hfd, rfl, rfl⟩

/-- C7 at a concrete input: a Read on the out-of-range descriptor 24. -/
theorem C7_invalid_descriptor_is_EINVAL_witness :
    IPC_CMD_READ ≠ IPC_CMD_OPEN ∧ exampleConsts.IPC_MAX_FDS ≤ 24 ∧
    HandleIPCCommand exampleConsts exampleBackend (exampleKernel slotOneBound 0)
        (exampleSys (fun _ => 0) 0) ⟨0x1000, IPC_CMD_READ, 24⟩
      = Except.ok (GetDefaultReply exampleConsts exampleConsts.IPC_EINVAL,
          exampleKernel slotOneBound 0, exampleSys (fun _ => 0) 0) :=
  ⟨by decide, by decide,
   (C7_invalid_descriptor_is_EINVAL exampleConsts exampleBackend (exampleKernel slotOneBound 0)
      (exampleSys (fun _ => 0) 0) ⟨0x1000, IPC_CMD_READ, 24⟩ (by decide)
      (Or.inl (by decide))).1⟩

/-! ## C8 -/

/-- C8 fails when the descriptor is not bound: the command-kind 9 is none of the seven kinds,
descriptor 0 is unbound, and the dispatch returns the default reply carrying `IPC_EINVAL`
(-4) to the guest instead of aborting. The same happens for the out-of-range descriptor 24. -/
theorem C8_counterexample_unknown_command_unbound_descriptor :
    (9 : Nat) ≠ IPC_CMD_OPEN ∧ (9 : Nat) ≠ IPC_CMD_CLOSE ∧ (9 : Nat) ≠ IPC_CMD_READ ∧
    (9 : Nat) ≠ IPC_CMD_WRITE ∧ (9 : Nat) ≠ IPC_CMD_SEEK ∧ (9 : Nat) ≠ IPC_CMD_IOCTL ∧
    (9 : Nat) ≠ IPC_CMD_IOCTLV ∧
    ((HandleIPCCommand exampleConsts exampleBackend (exampleKernel slotOneBound 0)
        (exampleSys (fun _ => 0) 0) ⟨0x1000, 9, 0⟩).toOption.map (fun r => r.1))
      = some { return_value := -4, send_reply := true, reply_delay_ticks := 182250 } ∧
    ((HandleIPCCommand exampleConsts exampleBackend (exampleKernel slotOneBound 0)
        (exampleSys (fun _ => 0) 0) ⟨0x1000, 9, 24⟩).toOption.map (fun r => r.1))
      = some { return_value := -4, send_reply := true, reply_delay_ticks := 182250 } := by
  refine ⟨by decide, by decide, by decide, by decide, by decide, by decide, by decide,
    by decide, by decide⟩

/-- C8, amended: for a command-kind that is none of Open, Close, Read, Write, Seek, IOCtl,
IOCtlV, the dispatch is a fatal abort (the assertion fires, nothing is returned) when the
descriptor is in range and bound to a device; when the descriptor is out of range or unbound
the dispatch returns the default reply carrying `IPC_EINVAL` and changes nothing. -/
theorem C8_unknown_command_kind (c : Consts) (B : Backend) (k : Kernel) (w : Sys)
    (request : Request)
    (h1 : request.command ≠ IPC_CMD_OPEN) (h2 : request.command ≠ IPC_CMD_CLOSE)
    (h3 : request.command ≠ IPC_CMD_READ) (h4 : request.command ≠ IPC_CMD_WRITE)
    (h5 : request.command ≠ IPC_CMD_SEEK) (h6 : request.command ≠ IPC_CMD_IOCTL)
    (h7 : request.command ≠ IPC_CMD_IOCTLV) :
    ((request.fd < c.IPC_MAX_FDS ∧ k.m_fdmap request.fd ≠ none) →
      HandleIPCCommand c B k w request = Except.error Fault.Assertion) ∧
    ((c.IPC_MAX_FDS ≤ request.fd ∨ k.m_fdmap request.fd = none) →
      HandleIPCCommand c B k w request
        = Except.ok (GetDefaultReply c c.IPC_EINVAL, k, w)) := by
  constructor
  · rintro ⟨hlt, hbound⟩
    obtain ⟨device, hdev⟩ := Option.ne_none_iff_exists'.mp hbound
    unfold HandleIPCCommand
    rw [if_neg h1]
    simp [hlt, fdmapAt, hdev, h2, h3, h4, h5, h6, h7]
  · intro hfd
    exact HandleIPCCommand_of_invalid_fd c B k w request h1 hfd

/-- C8 (amended) at a concrete input: command-kind 9 on the bound descriptor 1 aborts. -/
theorem C8_unknown_command_kind_witness :
    slotOneBound 1 ≠ none ∧
    HandleIPCCommand exampleConsts exampleBackend (exampleKernel slotOneBound 0)
        (exampleSys (fun _ => 0) 0) ⟨0x1000, 9, 1⟩ = Except.error Fault.Assertion :=
  ⟨by decide,
   (C8_unknown_command_kind exampleConsts exampleBackend (exampleKernel slotOneBound 0)
      (exampleSys (fun _ => 0) 0) ⟨0x1000, 9, 1⟩ (by decide) (by decide) (by decide)
      (by decide) (by decide) (by decide) (by decide)).1 ⟨by decide, by decide⟩⟩

/-! ## Guest memory lemmas -/

theorem Write_U32_outside (v a : Nat) (m : Mem) (x : Nat) (h : x < a ∨ a + 4 ≤ x) :
    Write_U32 v a m x = m x := by
  have h0 : x ≠ a := by omega
  have h1 : x ≠ a + 1 := by omega
  have h2 : x ≠ a + 2 := by omega
  have h3 : x ≠ a + 3 := by omega
  simp [Write_U32, Write_U8, h0, h1, h2, h3]

theorem Read_U32_Write_U32_same (v a : Nat) (m : Mem) :
    Read_U32 (Write_U32 v a m) a = v % 4294967296 := by
  simp only [Read_U32, Read_U8, Write_U32, Write_U8]
  have e1 : a + 1 ≠ a + 3 := by omega
  have e2 : a + 1 ≠ a + 2 := by omega
  have e3 : a + 2 ≠ a + 3 := by omega
  have e4 : a ≠ a + 3 := by omega
  have e5 : a ≠ a + 2 := by omega
  have e6 : a ≠ a + 1 := by omega
  simp only [e1, e2, e3, e4, e5, e6, if_true, if_false]
  omega

theorem Read_U32_Write_U32_disjoint (v a b : Nat) (m : Mem) (h : a + 4 ≤ b ∨ b + 4 ≤ a) :
    Read_U32 (Write_U32 v a m) b = Read_U32 m b := by
  simp only [Read_U32, Read_U8]
  rw [Write_U32_outside v a m b (by omega), Write_U32_outside v a m (b + 1) (by omega),
    Write_U32_outside v a m (b + 2) (by omega), Write_U32_outside v a m (b + 3) (by omega)]

theorem Read_U32_lt (m : Mem) (a : Nat) : Read_U32 m a < 4294967296 := by
  simp only [Read_U32, Read_U8]
  omega

theorem toU32_lt (x : Int) : toU32 x < 4294967296 := by
  unfold toU32
  omega

/-! ## What a dispatch leaves alone -/

theorem OpenDevice.resolve_frame (k : Kernel) (w : Sys) (path : String) :
    (OpenDevice.resolve k w path).2.ticks = w.ticks ∧
    (OpenDevice.resolve k w path).2.events = w.events := by
  unfold OpenDevice.resolve
  split_ifs <;> simp [makeOH0Device, makeFileIODevice]

theorem OpenDevice_frame (c : Consts) (B : Backend) (k : Kernel) (w : Sys)
    (request : OpenRequest) :
    (OpenDevice c B k w request).2.1.m_last_reply_time = k.m_last_reply_time ∧
    (OpenDevice c B k w request).2.2.ticks = w.ticks ∧
    (OpenDevice c B k w request).2.2.events = w.events := by
  have hr := OpenDevice.resolve_frame k w request.path
  unfold OpenDevice
  simp only
  split_ifs with h1
  · exact ⟨rfl, rfl, rfl⟩
  · rcases hres : OpenDevice.resolve k w request.path with ⟨dev, w1⟩
    rw [hres] at hr
    cases dev with
    | none => exact ⟨rfl, hr.1, hr.2⟩
    | some device =>
      simp only
      split_ifs
      · exact ⟨rfl, hr.1, hr.2⟩
      · exact ⟨rfl, hr.1, hr.2⟩

theorem HandleIPCCommand_frame (c : Consts) (B : Backend) (k : Kernel) (w : Sys)
    (request : Request) (result : IPCCommandResult) (k1 : Kernel) (w1 : Sys)
    (h : HandleIPCCommand c B k w request = Except.ok (result, k1, w1)) :
    k1.m_last_reply_time = k.m_last_reply_time ∧ w1.ticks = w.ticks ∧
    w1.events = w.events := by
  unfold HandleIPCCommand at h
  by_cases hopen : request.command = IPC_CMD_OPEN
  · rw [if_pos hopen] at h
    have hf := OpenDevice_frame c B k w (OpenRequest.decode B w.mem request.address)
    simp only [Except.ok.injEq, Prod.mk.injEq] at h
    obtain ⟨_, hk, hw⟩ := h
    rw [← hk, ← hw]
    exact hf
  · rw [if_neg hopen] at h
    split at h
    · cases h
    · cases h
      exact ⟨rfl, rfl, rfl⟩
    · split_ifs at h
      all_goals first
        | (cases h; done)
        | (cases h; exact ⟨rfl, rfl, rfl⟩)
        | ((split at h <;> cases h); exact ⟨rfl, rfl, rfl⟩)

theorem effectiveDelay_eq (L t d : Nat) (hL : L < 4611686018427387904)
    (ht : t < 4611686018427387904) (hd : d < 4611686018427387904) :
    effectiveDelay L t d = d + (L - t) := by
  unfold effectiveDelay toS64 toU64
  simp only
  split_ifs <;> omega

theorem ExecuteIPCCommand_of_reply (c : Consts) (B : Backend) (k : Kernel) (w : Sys)
    (address : Nat) (result : IPCCommandResult) (k1 : Kernel) (w1 : Sys)
    (h : HandleIPCCommand c B k w (Request.decode w.mem address) = Except.ok (result, k1, w1))
    (hsend : result.send_reply = true) :
    ExecuteIPCCommand c B k w address =
      Except.ok
        ({ k1 with m_last_reply_time :=
             (w1.ticks + effectiveDelay k1.m_last_reply_time w1.ticks result.reply_delay_ticks)
               % 18446744073709551616 },
         EnqueueIPCReply c w1 (Request.decode w.mem address) result.return_value
           (toS32 (effectiveDelay k1.m_last_reply_time w1.ticks result.reply_delay_ticks))) := by
  unfold ExecuteIPCCommand
  simp only [h, hsend, Bool.true_eq_false, if_false]

/-! ## C9 -/

/-- C9: when the dispatch of the command at address `a` yields a completion result that
requests a reply with result code `r`, `ExecuteIPCCommand` returns, and afterwards the
big-endian word at `a` is `IPC_REPLY`, the word at `a+4` is `r` as a two's-complement u32,
and the word at `a+8` is the command-kind that was at `a` before the dispatch (addresses
are 32-bit: `a+4` and `a+8` are taken modulo 2^32). The reply encoding changes no byte
outside these three words: relative to memory as the device left it, every byte outside
them is unchanged, and when `a + 12 <= 2^32` that is every byte outside `[a, a+12)`. -/
theorem C9_reply_encoding (c : Consts) (B : Backend) (k : Kernel) (w : Sys)
    (address : Nat) (result : IPCCommandResult) (k1 : Kernel) (w1 : Sys)
    (hmarker : c.IPC_REPLY < 4294967296)
    (h : HandleIPCCommand c B k w (Request.decode w.mem address) = Except.ok (result, k1, w1))
    (hsend : result.send_reply = true) :
    ∃ k2 w2, ExecuteIPCCommand c B k w address = Except.ok (k2, w2) ∧
      Read_U32 w2.mem address = c.IPC_REPLY ∧
      Read_U32 w2.mem ((address + 4) % 4294967296) = toU32 result.return_value ∧
      Read_U32 w2.mem ((address + 8) % 4294967296) = Read_U32 w.mem address ∧
      (∀ x, (x < address ∨ address + 4 ≤ x) →
        (x < (address + 4) % 4294967296 ∨ (address + 4) % 4294967296 + 4 ≤ x) →
        (x < (address + 8) % 4294967296 ∨ (address + 8) % 4294967296 + 4 ≤ x) →
        w2.mem x = w1.mem x) ∧
      (address + 12 ≤ 4294967296 →
        ∀ x, (x < address ∨ address + 12 ≤ x) → w2.mem x = w1.mem x) := by
  have hframe : ∀ x, (x < address ∨ address + 4 ≤ x) →
      (x < (address + 4) % 4294967296 ∨ (address + 4) % 4294967296 + 4 ≤ x) →
      (x < (address + 8) % 4294967296 ∨ (address + 8) % 4294967296 + 4 ≤ x) →
      (EnqueueIPCReply c w1 (Request.decode w.mem address) result.return_value
        (toS32 (effectiveDelay k1.m_last_reply_time w1.ticks result.reply_delay_ticks))).mem x
        = w1.mem x := by
    intro x h0 h4 h8
    simp only [EnqueueIPCReply, Request.decode]
    rw [Write_U32_outside _ _ _ _ h0, Write_U32_outside _ _ _ _ h8,
      Write_U32_outside _ _ _ _ h4]
  refine ⟨_, _, ExecuteIPCCommand_of_reply c B k w address result k1 w1 h hsend,
    ?_, ?_, ?_, hframe, ?_⟩
  · simp only [EnqueueIPCReply, Request.decode]
    rw [Read_U32_Write_U32_same]
    exact Nat.mod_eq_of_lt hmarker
  · simp only [EnqueueIPCReply, Request.decode]
    rw [Read_U32_Write_U32_disjoint _ _ _ _ (by omega),
      Read_U32_Write_U32_disjoint _ _ _ _ (by omega), Read_U32_Write_U32_same]
    exact Nat.mod_eq_of_lt (toU32_lt _)
  · simp only [EnqueueIPCReply, Request.decode]
    rw [Read_U32_Write_U32_disjoint _ _ _ _ (by omega), Read_U32_Write_U32_same]
    exact Nat.mod_eq_of_lt (Read_U32_lt _ _)
  · intro hfit x hx
    exact hframe x (by omega) (by omega) (by omega)

/-- C9 at a concrete input: a Read on the bound descriptor 1, answered with the code 7. -/
theorem C9_reply_encoding_witness :
    ∃ k2 w2, ExecuteIPCCommand exampleConsts exampleBackend (exampleKernel slotOneBound 0)
        (exampleSys readRecordMem 0) 0x1000 = Except.ok (k2, w2) ∧
      Read_U32 w2.mem 0x1000 = exampleConsts.IPC_REPLY ∧
      Read_U32 w2.mem ((0x1000 + 4) % 4294967296) = toU32 7 ∧
      Read_U32 w2.mem ((0x1000 + 8) % 4294967296) = Read_U32 readRecordMem 0x1000 ∧
      (∀ x, (x < 0x1000 ∨ 0x1000 + 4 ≤ x) →
        (x < (0x1000 + 4) % 4294967296 ∨ (0x1000 + 4) % 4294967296 + 4 ≤ x) →
        (x < (0x1000 + 8) % 4294967296 ∨ (0x1000 + 8) % 4294967296 + 4 ≤ x) →
        w2.mem x = readRecordMem x) ∧
      (0x1000 + 12 ≤ 4294967296 →
        ∀ x, (x < 0x1000 ∨ 0x1000 + 12 ≤ x) → w2.mem x = readRecordMem x) :=
  C9_reply_encoding exampleConsts exampleBackend (exampleKernel slotOneBound 0)
    (exampleSys readRecordMem 0) 0x1000
    { return_value := 7, send_reply := true, reply_delay_ticks := 10 }
    (exampleKernel slotOneBound 0)
    ((exampleSys readRecordMem 0).afterCall (DevCall.Read exampleFS 0x1000) readRecordMem)
    (by decide) rfl rfl

/-! ## C10 -/

/-- C10 fails when the last reply is still ahead of the clock: at tick `t = 100` with
`last_reply_time = 105`, a Read whose device asks for the delay `d = 10` is scheduled with
the delay 15 and `last_reply_time` becomes 115, where the formula
`d + max(0, last_reply_time - (t + d))` gives the delay 10 and the time 110. -/
theorem C10_counterexample_backlog_added_in_full :
    ((HandleIPCCommand exampleConsts exampleBackend (exampleKernel slotOneBound 105)
        (exampleSys readRecordMem 100)
        (Request.decode readRecordMem 0x1000)).toOption.map (fun r => r.1))
      = some { return_value := 7, send_reply := true, reply_delay_ticks := 10 } ∧
    ((ExecuteIPCCommand exampleConsts exampleBackend (exampleKernel slotOneBound 105)
        (exampleSys readRecordMem 100) 0x1000).toOption.map
          (fun r => (r.1.m_last_reply_time, r.2.events)))
      = some (115, [{ cycles_in_future := 15, userdata := 0x1000 }]) ∧
    effectiveDelay_spec 105 100 10 = 10 ∧
    (100 : Int) + effectiveDelay_spec 105 100 10 = 110 ∧
    ((ExecuteIPCCommand exampleConsts exampleBackend (exampleKernel slotOneBound 105)
        (exampleSys readRecordMem 100) 0x1000).toOption.map
          (fun r => ((r.1.m_last_reply_time : Nat) : Int)))
      ≠ some ((100 : Int) + effectiveDelay_spec 105 100 10) := by
  refine ⟨by decide, by decide, by decide, by decide, by decide⟩

/-- C10, amended: for a dispatch that requires a reply, with `t` the current tick, `d` the
device's requested delay and `L` the kernel's `last_reply_time` before the dispatch (all
below 2^62, so that no 64-bit operation wraps), `ExecuteIPCCommand` schedules the reply
with `effective_delay = d + max(0, L - t)`, narrowed to `int` for the scheduler, and sets
`last_reply_time` to `t + effective_delay`. -/
theorem C10_effective_delay (c : Consts) (B : Backend) (k : Kernel) (w : Sys)
    (address : Nat) (result : IPCCommandResult) (k1 : Kernel) (w1 : Sys)
    (h : HandleIPCCommand c B k w (Request.decode w.mem address) = Except.ok (result, k1, w1))
    (hsend : result.send_reply = true)
    (hL : k.m_last_reply_time < 4611686018427387904)
    (ht : w.ticks < 4611686018427387904)
    (hd : result.reply_delay_ticks < 4611686018427387904) :
    ∃ (k2 : Kernel) (w2 : Sys) (effective_delay : Nat),
      ExecuteIPCCommand c B k w address = Except.ok (k2, w2) ∧
      (effective_delay : Int)
        = (result.reply_delay_ticks : Int)
            + max 0 ((k.m_last_reply_time : Int) - (w.ticks : Int)) ∧
      k2.m_last_reply_time = w.ticks + effective_delay ∧
      w2.events = w.events ++ [{ cycles_in_future := toS32 effective_delay,
                                 userdata := address }] := by
  obtain ⟨f1, f2, f3⟩ := HandleIPCCommand_frame c B k w _ result k1 w1 h
  have he := effectiveDelay_eq k.m_last_reply_time w.ticks result.reply_delay_ticks hL ht hd
  refine ⟨_, _, result.reply_delay_ticks + (k.m_last_reply_time - w.ticks),
    ExecuteIPCCommand_of_reply c B k w address result k1 w1 h hsend, ?_, ?_, ?_⟩
  · omega
  · simp only [f1, f2, he]
    omega
  · simp only [f1, f2, f3, he, EnqueueIPCReply, Request.decode]

/-- C10 (amended) at a concrete input: `t = 100`, `L = 105`, `d = 10` give the delay 15. -/
theorem C10_effective_delay_witness :
    ∃ (k2 : Kernel) (w2 : Sys) (effective_delay : Nat),
      ExecuteIPCCommand exampleConsts exampleBackend (exampleKernel slotOneBound 105)
        (exampleSys readRecordMem 100) 0x1000 = Except.ok (k2, w2) ∧
      (effective_delay : Int) = ((10 : Nat) : Int) + max 0 (((105 : Nat) : Int) - ((100 : Nat) : Int)) ∧
      k2.m_last_reply_time = 100 + effective_delay ∧
      w2.events = [] ++ [{ cycles_in_future := toS32 effective_delay, userdata := 0x1000 }] :=
  C10_effective_delay exampleConsts exampleBackend (exampleKernel slotOneBound 105)
    (exampleSys readRecordMem 100) 0x1000
    { return_value := 7, send_reply := true, reply_delay_ticks := 10 }
    (exampleKernel slotOneBound 105)
    ((exampleSys readRecordMem 100).afterCall (DevCall.Read exampleFS 0x1000) readRecordMem)
    rfl rfl (by decide) (by decide) (by decide)

/-! ## Lemmas on the memory layout publisher -/

theorem Write_U8_outside (v a : Nat) (m : Mem) (x : Nat) (h : x ≠ a) :
    Write_U8 v a m x = m x := by
  simp [Write_U8, h]

theorem Write_U16_outside (v a : Nat) (m : Mem) (x : Nat) (h : x < a ∨ a + 2 ≤ x) :
    Write_U16 v a m x = m x := by
  have h0 : x ≠ a := by omega
  have h1 : x ≠ a + 1 := by omega
  simp [Write_U16, Write_U8, h0, h1]

theorem Read_U32_Write_U8_disjoint (v a b : Nat) (m : Mem) (h : a < b ∨ b + 4 ≤ a) :
    Read_U32 (Write_U8 v a m) b = Read_U32 m b := by
  simp only [Read_U32, Read_U8]
  rw [Write_U8_outside v a m b (by omega), Write_U8_outside v a m (b + 1) (by omega),
    Write_U8_outside v a m (b + 2) (by omega), Write_U8_outside v a m (b + 3) (by omega)]

theorem Read_U32_Write_U16_disjoint (v a b : Nat) (m : Mem) (h : a + 2 ≤ b ∨ b + 4 ≤ a) :
    Read_U32 (Write_U16 v a m) b = Read_U32 m b := by
  simp only [Read_U32, Read_U8]
  rw [Write_U16_outside v a m b (by omega), Write_U16_outside v a m (b + 1) (by omega),
    Write_U16_outside v a m (b + 2) (by omega), Write_U16_outside v a m (b + 3) (by omega)]

theorem SetupMemory.reload_outside (imv : MemoryValues) (mem : Mem) (x : Nat)
    (h1 : x < 0x3118 ∨ 0x312c ≤ x) (h2 : x < 0x3130 ∨ 0x3138 ≤ x)
    (h3 : x < 0x3140 ∨ 0x3144 ≤ x) (h4 : x < 0x3148 ∨ 0x3150 ≤ x) :
    SetupMemory.reload imv mem x = mem x := by
  simp only [SetupMemory.reload, ADDR_IOS_VERSION, ADDR_MEM2_SIZE, ADDR_MEM2_SIM_SIZE,
    ADDR_MEM2_END, ADDR_MEM2_ARENA_BEGIN, ADDR_MEM2_ARENA_END, ADDR_IPC_BUFFER_BEGIN,
    ADDR_IPC_BUFFER_END, ADDR_UNKNOWN_BEGIN, ADDR_UNKNOWN_END]
  rw [Write_U32_outside _ _ _ _ (by omega), Write_U32_outside _ _ _ _ (by omega),
    Write_U32_outside _ _ _ _ (by omega), Write_U32_outside _ _ _ _ (by omega),
    Write_U32_outside _ _ _ _ (by omega), Write_U32_outside _ _ _ _ (by omega),
    Write_U32_outside _ _ _ _ (by omega), Write_U32_outside _ _ _ _ (by omega),
    Write_U32_outside _ _ _ _ (by omega), Write_U32_outside _ _ _ _ (by omega)]

theorem SetupMemory.reload_words (imv : MemoryValues) (mem : Mem) :
    Read_U32 (SetupMemory.reload imv mem) ADDR_IOS_VERSION = imv.ios_version % 4294967296 ∧
    Read_U32 (SetupMemory.reload imv mem) ADDR_MEM2_SIZE
      = imv.mem2_physical_size % 4294967296 ∧
    Read_U32 (SetupMemory.reload imv mem) ADDR_MEM2_SIM_SIZE
      = imv.mem2_simulated_size % 4294967296 ∧
    Read_U32 (SetupMemory.reload imv mem) ADDR_MEM2_END = imv.mem2_end % 4294967296 ∧
    Read_U32 (SetupMemory.reload imv mem) ADDR_MEM2_ARENA_BEGIN
      = imv.mem2_arena_begin % 4294967296 ∧
    Read_U32 (SetupMemory.reload imv mem) ADDR_MEM2_ARENA_END
      = imv.mem2_arena_end % 4294967296 ∧
    Read_U32 (SetupMemory.reload imv mem) ADDR_IPC_BUFFER_BEGIN
      = imv.ipc_buffer_begin % 4294967296 ∧
    Read_U32 (SetupMemory.reload imv mem) ADDR_IPC_BUFFER_END
      = imv.ipc_buffer_end % 4294967296 ∧
    Read_U32 (SetupMemory.reload imv mem) ADDR_UNKNOWN_BEGIN
      = imv.unknown_begin % 4294967296 ∧
    Read_U32 (SetupMemory.reload imv mem) ADDR_UNKNOWN_END
      = imv.unknown_end % 4294967296 := by
  simp only [SetupMemory.reload, ADDR_IOS_VERSION, ADDR_MEM2_SIZE, ADDR_MEM2_SIM_SIZE,
    ADDR_MEM2_END, ADDR_MEM2_ARENA_BEGIN, ADDR_MEM2_ARENA_END, ADDR_IPC_BUFFER_BEGIN,
    ADDR_IPC_BUFFER_END, ADDR_UNKNOWN_BEGIN, ADDR_UNKNOWN_END]
  refine ⟨?_, ?_, ?_, ?_, ?_, ?_, ?_, ?_, ?_, ?_⟩ <;>
    simp (disch := omega) only [Read_U32_Write_U32_same, Read_U32_Write_U32_disjoint]

theorem SetupMemory.full_words (imv : MemoryValues) (mem : Mem) :
    Read_U32 (SetupMemory.full imv mem) ADDR_MEM1_SIZE = imv.mem1_physical_size % 4294967296 ∧
    Read_U32 (SetupMemory.full imv mem) ADDR_MEM1_SIM_SIZE
      = imv.mem1_simulated_size % 4294967296 ∧
    Read_U32 (SetupMemory.full imv mem) ADDR_MEM1_END = imv.mem1_end % 4294967296 ∧
    Read_U32 (SetupMemory.full imv mem) ADDR_MEM1_ARENA_BEGIN
      = imv.mem1_arena_begin % 4294967296 ∧
    Read_U32 (SetupMemory.full imv mem) ADDR_MEM1_ARENA_END
      = imv.mem1_arena_end % 4294967296 ∧
    Read_U32 (SetupMemory.full imv mem) ADDR_MEM2_SIZE = imv.mem2_physical_size % 4294967296 ∧
    Read_U32 (SetupMemory.full imv mem) ADDR_MEM2_SIM_SIZE
      = imv.mem2_simulated_size % 4294967296 ∧
    Read_U32 (SetupMemory.full imv mem) ADDR_MEM2_END = imv.mem2_end % 4294967296 ∧
    Read_U32 (SetupMemory.full imv mem) ADDR_MEM2_ARENA_BEGIN
      = imv.mem2_arena_begin % 4294967296 ∧
    Read_U32 (SetupMemory.full imv mem) ADDR_MEM2_ARENA_END
      = imv.mem2_arena_end % 4294967296 ∧
    Read_U32 (SetupMemory.full imv mem) ADDR_IPC_BUFFER_BEGIN
      = imv.ipc_buffer_begin % 4294967296 ∧
    Read_U32 (SetupMemory.full imv mem) ADDR_IPC_BUFFER_END
      = imv.ipc_buffer_end % 4294967296 ∧
    Read_U32 (SetupMemory.full imv mem) ADDR_HOLLYWOOD_REVISION
      = imv.hollywood_revision % 4294967296 ∧
    Read_U32 (SetupMemory.full imv mem) ADDR_IOS_VERSION = imv.ios_version % 4294967296 ∧
    Read_U32 (SetupMemory.full imv mem) ADDR_IOS_DATE = imv.ios_date % 4294967296 ∧
    Read_U32 (SetupMemory.full imv mem) ADDR_UNKNOWN_BEGIN
      = imv.unknown_begin % 4294967296 ∧
    Read_U32 (SetupMemory.full imv mem) ADDR_UNKNOWN_END = imv.unknown_end % 4294967296 ∧
    Read_U32 (SetupMemory.full imv mem) ADDR_RAM_VENDOR = imv.ram_vendor % 4294967296 ∧
    Read_U32 (SetupMemory.full imv mem) ADDR_SYSMENU_SYNC
      = imv.sysmenu_sync % 4294967296 := by
  simp only [SetupMemory.full, ADDR_MEM1_SIZE, ADDR_MEM1_SIM_SIZE, ADDR_MEM1_END,
    ADDR_MEM1_ARENA_BEGIN, ADDR_MEM1_ARENA_END, ADDR_PH1, ADDR_MEM2_SIZE, ADDR_MEM2_SIM_SIZE,
    ADDR_MEM2_END, ADDR_MEM2_ARENA_BEGIN, ADDR_MEM2_ARENA_END, ADDR_PH2,
    ADDR_IPC_BUFFER_BEGIN, ADDR_IPC_BUFFER_END, ADDR_HOLLYWOOD_REVISION, ADDR_PH3,
    ADDR_IOS_VERSION, ADDR_IOS_DATE, ADDR_UNKNOWN_BEGIN, ADDR_UNKNOWN_END, ADDR_PH4, ADDR_PH5,
    ADDR_RAM_VENDOR, ADDR_BOOT_FLAG, ADDR_APPLOADER_FLAG, ADDR_DEVKIT_BOOT_PROGRAM_VERSION,
    ADDR_SYSMENU_SYNC]
  refine ⟨?_, ?_, ?_, ?_, ?_, ?_, ?_, ?_, ?_, ?_, ?_, ?_, ?_, ?_, ?_, ?_, ?_, ?_, ?_⟩ <;>
    simp (disch := omega) only [Read_U32_Write_U32_same, Read_U32_Write_U32_disjoint,
      Read_U32_Write_U8_disjoint, Read_U32_Write_U16_disjoint]

theorem findMemoryValues_eq_none (table : List MemoryValues) (ios_title_id : Nat) :
    findMemoryValues table ios_title_id = none ↔
      ∀ imv, imv ∈ table → imv.ios_number ≠ ios_title_id % 65536 := by
  simp [findMemoryValues]

/-! ## C15 -/

/-- C15: for a title id whose low 16 bits match the `ios_number` of no row of the memory-values
table, `SetupMemory` returns false and leaves guest memory exactly as it was, in the mode Full
and in the mode IOSReload. -/
theorem C15_unknown_version_writes_nothing (table : List MemoryValues) (ios_title_id : Nat)
    (setup_type : MemorySetupType) (mem : Mem)
    (hunknown : ∀ imv, imv ∈ table → imv.ios_number ≠ ios_title_id % 65536) :
    SetupMemory table ios_title_id setup_type mem = (false, mem) := by
  unfold SetupMemory
  rw [(findMemoryValues_eq_none table ios_title_id).mpr hunknown]

/-- C15 at a concrete input: IOS 3 has no row in the example table. -/
theorem C15_unknown_version_writes_nothing_witness :
    SetupMemory exampleTable titleIOS3 MemorySetupType.Full readRecordMem
      = (false, readRecordMem) ∧
    SetupMemory exampleTable titleIOS3 MemorySetupType.IOSReload readRecordMem
      = (false, readRecordMem) :=
  ⟨C15_unknown_version_writes_nothing exampleTable titleIOS3 MemorySetupType.Full
      readRecordMem (by decide),
   C15_unknown_version_writes_nothing exampleTable titleIOS3 MemorySetupType.IOSReload
      readRecordMem (by decide)⟩

/-! ## C16 -/

/-- C16: for a title id whose version has a Memory Layout Record (with 32-bit fields), after
`SetupMemory` in the mode Full, which returns true, every published field of the record reads
back as the big-endian word at its fixed address: no later write of the publish overlaps an
earlier field. -/
theorem C16_full_publish_reads_back (table : List MemoryValues) (ios_title_id : Nat)
    (mem : Mem) (imv : MemoryValues)
    (hknown : findMemoryValues table ios_title_id = some imv) (hfits : imv.fitsU32) :
    (SetupMemory table ios_title_id MemorySetupType.Full mem).1 = true ∧
    Read_U32 (SetupMemory table ios_title_id MemorySetupType.Full mem).2 0x3100
      = imv.mem1_physical_size ∧
    Read_U32 (SetupMemory table ios_title_id MemorySetupType.Full mem).2 0x3104
      = imv.mem1_simulated_size ∧
    Read_U32 (SetupMemory table ios_title_id MemorySetupType.Full mem).2 0x3108
      = imv.mem1_end ∧
    Read_U32 (SetupMemory table ios_title_id MemorySetupType.Full mem).2 0x310c
      = imv.mem1_arena_begin ∧
    Read_U32 (SetupMemory table ios_title_id MemorySetupType.Full mem).2 0x3110
      = imv.mem1_arena_end ∧
    Read_U32 (SetupMemory table ios_title_id MemorySetupType.Full mem).2 0x3118
      = imv.mem2_physical_size ∧
    Read_U32 (SetupMemory table ios_title_id MemorySetupType.Full mem).2 0x311c
      = imv.mem2_simulated_size ∧
    Read_U32 (SetupMemory table ios_title_id MemorySetupType.Full mem).2 0x3120
      = imv.mem2_end ∧
    Read_U32 (SetupMemory table ios_title_id MemorySetupType.Full mem).2 0x3124
      = imv.mem2_arena_begin ∧
    Read_U32 (SetupMemory table ios_title_id MemorySetupType.Full mem).2 0x3128
      = imv.mem2_arena_end ∧
    Read_U32 (SetupMemory table ios_title_id MemorySetupType.Full mem).2 0x3130
      = imv.ipc_buffer_begin ∧
    Read_U32 (SetupMemory table ios_title_id MemorySetupType.Full mem).2 0x3134
      = imv.ipc_buffer_end ∧
    Read_U32 (SetupMemory table ios_title_id MemorySetupType.Full mem).2 0x3138
      = imv.hollywood_revision ∧
    Read_U32 (SetupMemory table ios_title_id MemorySetupType.Full mem).2 0x3140
      = imv.ios_version ∧
    Read_U32 (SetupMemory table ios_title_id MemorySetupType.Full mem).2 0x3144
      = imv.ios_date ∧
    Read_U32 (SetupMemory table ios_title_id MemorySetupType.Full mem).2 0x3148
      = imv.unknown_begin ∧
    Read_U32 (SetupMemory table ios_title_id MemorySetupType.Full mem).2 0x314c
      = imv.unknown_end ∧
    Read_U32 (SetupMemory table ios_title_id MemorySetupType.Full mem).2 0x3158
      = imv.ram_vendor ∧
    Read_U32 (SetupMemory table ios_title_id MemorySetupType.Full mem).2 0x3160
      = imv.sysmenu_sync := by
  obtain ⟨f1, f2, f3, f4, f5, f6, f7, f8, f9, f10, f11, f12, f13, f14, f15, f16, f17, f18,
    f19⟩ := hfits
  have hw := SetupMemory.full_words imv mem
  simp only [ADDR_MEM1_SIZE, ADDR_MEM1_SIM_SIZE, ADDR_MEM1_END, ADDR_MEM1_ARENA_BEGIN,
    ADDR_MEM1_ARENA_END, ADDR_MEM2_SIZE, ADDR_MEM2_SIM_SIZE, ADDR_MEM2_END,
    ADDR_MEM2_ARENA_BEGIN, ADDR_MEM2_ARENA_END, ADDR_IPC_BUFFER_BEGIN, ADDR_IPC_BUFFER_END,
    ADDR_HOLLYWOOD_REVISION, ADDR_IOS_VERSION, ADDR_IOS_DATE, ADDR_UNKNOWN_BEGIN,
    ADDR_UNKNOWN_END, ADDR_RAM_VENDOR, ADDR_SYSMENU_SYNC] at hw
  obtain ⟨w1, w2, w3, w4, w5, w6, w7, w8, w9, w10, w11, w12, w13, w14, w15, w16, w17, w18,
    w19⟩ := hw
  simp only [SetupMemory, hknown]
  refine ⟨trivial, ?_, ?_, ?_, ?_, ?_, ?_, ?_, ?_, ?_, ?_, ?_, ?_, ?_, ?_, ?_, ?_, ?_, ?_, ?_⟩
  · rw [w1]; exact Nat.mod_eq_of_lt f3
  · rw [w2]; exact Nat.mod_eq_of_lt f4
  · rw [w3]; exact Nat.mod_eq_of_lt f5
  · rw [w4]; exact Nat.mod_eq_of_lt f6
  · rw [w5]; exact Nat.mod_eq_of_lt f7
  · rw [w6]; exact Nat.mod_eq_of_lt f8
  · rw [w7]; exact Nat.mod_eq_of_lt f9
  · rw [w8]; exact Nat.mod_eq_of_lt f10
  · rw [w9]; exact Nat.mod_eq_of_lt f11
  · rw [w10]; exact Nat.mod_eq_of_lt f12
  · rw [w11]; exact Nat.mod_eq_of_lt f13
  · rw [w12]; exact Nat.mod_eq_of_lt f14
  · rw [w13]; exact Nat.mod_eq_of_lt f15
  · rw [w14]; exact Nat.mod_eq_of_lt f1
  · rw [w15]; exact Nat.mod_eq_of_lt f2
  · rw [w16]; exact Nat.mod_eq_of_lt f17
  · rw [w17]; exact Nat.mod_eq_of_lt f18
  · rw [w18]; exact Nat.mod_eq_of_lt f16
  · rw [w19]; exact Nat.mod_eq_of_lt f19

/-- C16 at a concrete input: IOS 80 on the example table; the word at 0x3110 is the record's
`mem1_arena_end`. -/
theorem C16_full_publish_reads_back_witness :
    findMemoryValues exampleTable titleIOS80 = some exampleValues ∧
    Read_U32 (SetupMemory exampleTable titleIOS80 MemorySetupType.Full readRecordMem).2 0x3110
      = 0x81800003 :=
  ⟨by decide,
   (C16_full_publish_reads_back exampleTable titleIOS80 readRecordMem exampleValues
      (by decide) (by decide)).2.2.2.2.2.1⟩

/-! ## C17 -/

/-- C17: for a known version (with 32-bit fields), `SetupMemory` in the mode IOSReload returns
true and writes the ten words IOS_VERSION (0x3140), MEM2_SIZE, MEM2_SIM_SIZE, MEM2_END,
MEM2_ARENA_BEGIN, MEM2_ARENA_END, IPC_BUFFER_BEGIN, IPC_BUFFER_END, UNKNOWN_BEGIN and
UNKNOWN_END with the record's values; every guest-memory byte outside these ten words
(outside 0x3118-0x312b, 0x3130-0x3137, 0x3140-0x3143 and 0x3148-0x314f) is unchanged. -/
theorem C17_reload_writes_ten_words (table : List MemoryValues) (ios_title_id : Nat)
    (mem : Mem) (imv : MemoryValues)
    (hknown : findMemoryValues table ios_title_id = some imv) (hfits : imv.fitsU32) :
    (SetupMemory table ios_title_id MemorySetupType.IOSReload mem).1 = true ∧
    Read_U32 (SetupMemory table ios_title_id MemorySetupType.IOSReload mem).2 0x3140
      = imv.ios_version ∧
    Read_U32 (SetupMemory table ios_title_id MemorySetupType.IOSReload mem).2 0x3118
      = imv.mem2_physical_size ∧
    Read_U32 (SetupMemory table ios_title_id MemorySetupType.IOSReload mem).2 0x311c
      = imv.mem2_simulated_size ∧
    Read_U32 (SetupMemory table ios_title_id MemorySetupType.IOSReload mem).2 0x3120
      = imv.mem2_end ∧
    Read_U32 (SetupMemory table ios_title_id MemorySetupType.IOSReload mem).2 0x3124
      = imv.mem2_arena_begin ∧
    Read_U32 (SetupMemory table ios_title_id MemorySetupType.IOSReload mem).2 0x3128
      = imv.mem2_arena_end ∧
    Read_U32 (SetupMemory table ios_title_id MemorySetupType.IOSReload mem).2 0x3130
      = imv.ipc_buffer_begin ∧
    Read_U32 (SetupMemory table ios_title_id MemorySetupType.IOSReload mem).2 0x3134
      = imv.ipc_buffer_end ∧
    Read_U32 (SetupMemory table ios_title_id MemorySetupType.IOSReload mem).2 0x3148
      = imv.unknown_begin ∧
    Read_U32 (SetupMemory table ios_title_id MemorySetupType.IOSReload mem).2 0x314c
      = imv.unknown_end ∧
    (∀ x, (x < 0x3118 ∨ 0x312c ≤ x) → (x < 0x3130 ∨ 0x3138 ≤ x) →
      (x < 0x3140 ∨ 0x3144 ≤ x) → (x < 0x3148 ∨ 0x3150 ≤ x) →
      (SetupMemory table ios_title_id MemorySetupType.IOSReload mem).2 x = mem x) := by
  obtain ⟨f1, _, _, _, _, _, _, f8, f9, f10, f11, f12, f13, f14, _, _, f17, f18, _⟩ := hfits
  have hw := SetupMemory.reload_words imv mem
  simp only [ADDR_MEM2_SIZE, ADDR_MEM2_SIM_SIZE, ADDR_MEM2_END, ADDR_MEM2_ARENA_BEGIN,
    ADDR_MEM2_ARENA_END, ADDR_IPC_BUFFER_BEGIN, ADDR_IPC_BUFFER_END, ADDR_IOS_VERSION,
    ADDR_UNKNOWN_BEGIN, ADDR_UNKNOWN_END] at hw
  obtain ⟨w1, w2, w3, w4, w5, w6, w7, w8, w9, w10⟩ := hw
  simp only [SetupMemory, hknown]
  refine ⟨trivial, ?_, ?_, ?_, ?_, ?_, ?_, ?_, ?_, ?_, ?_, ?_⟩
  · rw [w1]; exact Nat.mod_eq_of_lt f1
  · rw [w2]; exact Nat.mod_eq_of_lt f8
  · rw [w3]; exact Nat.mod_eq_of_lt f9
  · rw [w4]; exact Nat.mod_eq_of_lt f10
  · rw [w5]; exact Nat.mod_eq_of_lt f11
  · rw [w6]; exact Nat.mod_eq_of_lt f12
  · rw [w7]; exact Nat.mod_eq_of_lt f13
  · rw [w8]; exact Nat.mod_eq_of_lt f14
  · rw [w9]; exact Nat.mod_eq_of_lt f17
  · rw [w10]; exact Nat.mod_eq_of_lt f18
  · intro x h1 h2 h3 h4
    exact SetupMemory.reload_outside imv mem x h1 h2 h3 h4

/-- C17 at a concrete input: IOS 80 on the example table; the word at 0x3118 is the record's
`mem2_physical_size` and the byte at 0x3100 (MEM1_SIZE) is untouched. -/
theorem C17_reload_writes_ten_words_witness :
    findMemoryValues exampleTable titleIOS80 = some exampleValues ∧
    Read_U32 (SetupMemory exampleTable titleIOS80 MemorySetupType.IOSReload readRecordMem).2
      0x3118 = 0x04000000 ∧
    (SetupMemory exampleTable titleIOS80 MemorySetupType.IOSReload readRecordMem).2 0x3100
      = readRecordMem 0x3100 :=
  have h := C17_reload_writes_ten_words exampleTable titleIOS80 readRecordMem exampleValues
    (by decide) (by decide)
  ⟨by decide, h.2.2.1,
   h.2.2.2.2.2.2.2.2.2.2.2 0x3100 (by decide) (by decide) (by decide) (by decide)⟩

/-! ## Lemmas on successive dispatches -/

theorem OpenDevice_kernel (c : Consts) (B : Backend) (k : Kernel) (w : Sys)
    (request : OpenRequest) :
    (OpenDevice c B k w request).2.1
      = { k with m_fdmap := (OpenDevice c B k w request).2.1.m_fdmap } := by
  unfold OpenDevice
  simp only
  split_ifs with h1
  · rfl
  · rcases OpenDevice.resolve k w request.path with ⟨dev, w1⟩
    cases dev with
    | none => rfl
    | some device =>
      simp only
      split_ifs <;> rfl

theorem HandleIPCCommand_kernel (c : Consts) (B : Backend) (k : Kernel) (w : Sys)
    (request : Request) (result : IPCCommandResult) (k1 : Kernel) (w1 : Sys)
    (h : HandleIPCCommand c B k w request = Except.ok (result, k1, w1)) :
    k1 = { k with m_fdmap := k1.m_fdmap } := by
  unfold HandleIPCCommand at h
  by_cases hopen : request.command = IPC_CMD_OPEN
  · rw [if_pos hopen] at h
    have hf := OpenDevice_kernel c B k w (OpenRequest.decode B w.mem request.address)
    simp only [Except.ok.injEq, Prod.mk.injEq] at h
    obtain ⟨_, hk, _⟩ := h
    rw [← hk]
    exact hf
  · rw [if_neg hopen] at h
    split at h
    · cases h
    · cases h
      rfl
    · split_ifs at h
      all_goals first
        | (cases h; done)
        | (cases h; rfl)
        | ((split at h <;> cases h); rfl)

theorem ExecuteIPCCommand_kernel (c : Consts) (B : Backend) (k : Kernel) (w : Sys)
    (address : Nat) (k2 : Kernel) (w2 : Sys)
    (h : ExecuteIPCCommand c B k w address = Except.ok (k2, w2)) :
    k2.m_request_queue = k.m_request_queue ∧ k2.m_reply_queue = k.m_reply_queue ∧
    k2.m_ack_queue = k.m_ack_queue := by
  unfold ExecuteIPCCommand at h
  simp only at h
  split at h
  · cases h
  · rename_i result k1 w1 hh
    have hk := HandleIPCCommand_kernel c B k w _ result k1 w1 hh
    split_ifs at h
    · cases h
      rw [hk]
      exact ⟨rfl, rfl, rfl⟩
    · cases h
      rw [hk]
      exact ⟨rfl, rfl, rfl⟩

theorem effectiveDelay_eq_of_lt (L t d : Nat) (hL : L < 9223372036854775808)
    (ht : t < 9223372036854775808) (hd : d < 9223372036854775808) :
    effectiveDelay L t d = d + (L - t) := by
  unfold effectiveDelay toS64 toU64
  simp only
  split_ifs <;> omega

/-! ## C11 -/

/-- C11: `ExecuteIPCCommand` at an input where the order of the replies is lost, although the
code means to keep it (comment `Ensure replies happen in order`, IOS.cpp 478). At tick 100 a
Read whose device asks for the delay 10 is scheduled 10 ticks ahead (delivery at 110); a
second Read dispatched at the same tick whose device asks for 2^31 ticks gets the effective
delay 2^31 + 10, which `static_cast<int>` (IOS.cpp 484) turns into -2147483638, so its reply
is scheduled before the first one, while `last_reply_time` grows from 110 to 2147483758. -/
theorem C11_narrowed_delay_reorders_replies :
    ((ExecuteIPCCommand.twice exampleConsts lateBackend (exampleKernel slotOneBound 0)
        (exampleSys twoRecordsMem 100) 0x1000 100 0x1020).toOption.map
          (fun r => (r.2.events, r.1.m_last_reply_time)))
      = some ([{ cycles_in_future := 10, userdata := 0x1000 },
               { cycles_in_future := -2147483638, userdata := 0x1020 }], 2147483758) ∧
    ((ExecuteIPCCommand exampleConsts lateBackend (exampleKernel slotOneBound 0)
        (exampleSys twoRecordsMem 100) 0x1000).toOption.map
          (fun r => r.1.m_last_reply_time)) = some 110 ∧
    ¬ ((100 : Int) + 10 ≤ (100 : Int) + (-2147483638)) := by
  refine ⟨by decide, by decide, by decide⟩

/-- The bookkeeping of `last_reply_time` is right for every delay: with clock, `last_reply_time`
and the device's delay below 2^62 (no 64-bit operation wraps), `last_reply_time` does not
decrease across an `ExecuteIPCCommand` call, and after a call that requires a reply it is
the current tick plus the effective delay. -/
theorem ExecuteIPCCommand_last_reply_time_mono (c : Consts) (B : Backend) (k : Kernel)
    (w : Sys) (address : Nat) (result : IPCCommandResult) (k1 : Kernel) (w1 : Sys)
    (kA : Kernel) (wA : Sys)
    (h : HandleIPCCommand c B k w (Request.decode w.mem address) = Except.ok (result, k1, w1))
    (hA : ExecuteIPCCommand c B k w address = Except.ok (kA, wA))
    (hL : k.m_last_reply_time < 4611686018427387904)
    (ht : w.ticks < 4611686018427387904)
    (hd : result.reply_delay_ticks < 4611686018427387904) :
    k.m_last_reply_time ≤ kA.m_last_reply_time ∧
    (result.send_reply = true →
      kA.m_last_reply_time
        = w.ticks + (result.reply_delay_ticks + (k.m_last_reply_time - w.ticks))) := by
  obtain ⟨f1, f2, _⟩ := HandleIPCCommand_frame c B k w _ result k1 w1 h
  by_cases hs : result.send_reply = true
  · have hA2 := ExecuteIPCCommand_of_reply c B k w address result k1 w1 h hs
    rw [hA] at hA2
    simp only [Except.ok.injEq, Prod.mk.injEq] at hA2
    obtain ⟨hkA, _⟩ := hA2
    have d1 := effectiveDelay_eq_of_lt k.m_last_reply_time w.ticks result.reply_delay_ticks
      (by omega) (by omega) (by omega)
    rw [f1, f2, d1] at hkA
    have hLA : kA.m_last_reply_time
        = w.ticks + (result.reply_delay_ticks + (k.m_last_reply_time - w.ticks)) := by
      rw [hkA]
      simp only
      omega
    exact ⟨by omega, fun _ => hLA⟩
  · have hs2 : result.send_reply = false := by simpa using hs
    unfold ExecuteIPCCommand at hA
    simp only [h, hs2, if_true] at hA
    simp only [Except.ok.injEq, Prod.mk.injEq] at hA
    obtain ⟨hkA, _⟩ := hA
    rw [← hkA, f1]
    exact ⟨le_refl _, fun hx => absurd hx hs⟩

/-- Where the narrowing to `int` is the identity the order holds: let two commands that
require replies be dispatched one after the other by `ExecuteIPCCommand`, the second with
the clock at `t2`, and let both effective delays (the device's delay plus the backlog behind
`last_reply_time`) be below 2^31, with clock and `last_reply_time` below 2^62. Then each
reply is scheduled to fire at the new `last_reply_time`, the delivery time of the first
reply is at most that of the second, and `last_reply_time` does not decrease across the two
calls. -/
theorem replies_in_order_of_small_delays (c : Consts) (B : Backend) (k : Kernel) (w : Sys)
    (a1 a2 t2 : Nat) (r1 r2 : IPCCommandResult) (k1 k2 kA : Kernel) (w1 w2 wA : Sys)
    (h1 : HandleIPCCommand c B k w (Request.decode w.mem a1) = Except.ok (r1, k1, w1))
    (hs1 : r1.send_reply = true)
    (hA : ExecuteIPCCommand c B k w a1 = Except.ok (kA, wA))
    (h2 : HandleIPCCommand c B kA { wA with ticks := t2 } (Request.decode wA.mem a2)
        = Except.ok (r2, k2, w2))
    (hs2 : r2.send_reply = true)
    (hL : k.m_last_reply_time < 4611686018427387904)
    (ht1 : w.ticks < 4611686018427387904) (ht2 : t2 < 4611686018427387904)
    (he1 : r1.reply_delay_ticks + (k.m_last_reply_time - w.ticks) < 2147483648)
    (he2 : r2.reply_delay_ticks + (kA.m_last_reply_time - t2) < 2147483648) :
    ∃ (kB : Kernel) (wB : Sys) (e1 e2 : ScheduledEvent),
      ExecuteIPCCommand c B kA { wA with ticks := t2 } a2 = Except.ok (kB, wB) ∧
      wA.events = w.events ++ [e1] ∧ wB.events = wA.events ++ [e2] ∧
      ((kA.m_last_reply_time : Nat) : Int) = (w.ticks : Int) + e1.cycles_in_future ∧
      ((kB.m_last_reply_time : Nat) : Int) = (t2 : Int) + e2.cycles_in_future ∧
      (w.ticks : Int) + e1.cycles_in_future ≤ (t2 : Int) + e2.cycles_in_future ∧
      k.m_last_reply_time ≤ kA.m_last_reply_time ∧
      kA.m_last_reply_time ≤ kB.m_last_reply_time := by
  obtain ⟨f1, f2, f3⟩ := HandleIPCCommand_frame c B k w _ r1 k1 w1 h1
  obtain ⟨g1, g2, g3⟩ := HandleIPCCommand_frame c B kA { wA with ticks := t2 } _ r2 k2 w2 h2
  simp only at g2 g3
  have hA2 := ExecuteIPCCommand_of_reply c B k w a1 r1 k1 w1 h1 hs1
  rw [hA] at hA2
  simp only [Except.ok.injEq, Prod.mk.injEq] at hA2
  obtain ⟨hkA, hwA⟩ := hA2
  have d1 := effectiveDelay_eq_of_lt k.m_last_reply_time w.ticks r1.reply_delay_ticks
    (by omega) (by omega) (by omega)
  rw [f1, f2, d1] at hkA hwA
  have hLA : kA.m_last_reply_time
      = w.ticks + (r1.reply_delay_ticks + (k.m_last_reply_time - w.ticks)) := by
    rw [hkA]
    simp only
    omega
  have hEA : wA.events = w.events ++
      [{ cycles_in_future :=
           ((r1.reply_delay_ticks + (k.m_last_reply_time - w.ticks) : Nat) : Int),
         userdata := a1 }] := by
    rw [hwA]
    simp only [EnqueueIPCReply, Request.decode, f3, toS32_of_lt he1]
  have d2 := effectiveDelay_eq_of_lt kA.m_last_reply_time t2 r2.reply_delay_ticks
    (by omega) (by omega) (by omega)
  have hB := ExecuteIPCCommand_of_reply c B kA { wA with ticks := t2 } a2 r2 k2 w2 h2 hs2
  rw [g1, g2, d2] at hB
  refine ⟨_, _, _, { cycles_in_future :=
      ((r2.reply_delay_ticks + (kA.m_last_reply_time - t2) : Nat) : Int), userdata := a2 },
    hB, hEA, ?_, ?_, ?_, ?_, ?_, ?_⟩
  · simp only [EnqueueIPCReply, Request.decode, g3, toS32_of_lt he2]
  · rw [hLA]
    push_cast
    rfl
  · simp only
    omega
  · simp only
    omega
  · omega
  · simp only
    omega

/-- The order at a concrete input: at tick 100 two Reads with the delay 10 each; the replies
are scheduled for 110 and 120. -/
theorem replies_in_order_of_small_delays_witness :
    ∃ (kB : Kernel) (wB : Sys) (e1 e2 : ScheduledEvent),
      ExecuteIPCCommand exampleConsts exampleBackend
        { exampleKernel slotOneBound 0 with m_last_reply_time := (100 + 10) % 18446744073709551616 }
        { EnqueueIPCReply exampleConsts
            ((exampleSys twoRecordsMem 100).afterCall (DevCall.Read exampleFS 0x1000)
              twoRecordsMem)
            (Request.decode twoRecordsMem 0x1000) 7 10 with ticks := 100 }
        0x1020 = Except.ok (kB, wB) ∧
      (EnqueueIPCReply exampleConsts
          ((exampleSys twoRecordsMem 100).afterCall (DevCall.Read exampleFS 0x1000)
            twoRecordsMem)
          (Request.decode twoRecordsMem 0x1000) 7 10).events = [] ++ [e1] ∧
      wB.events = (EnqueueIPCReply exampleConsts
          ((exampleSys twoRecordsMem 100).afterCall (DevCall.Read exampleFS 0x1000)
            twoRecordsMem)
          (Request.decode twoRecordsMem 0x1000) 7 10).events ++ [e2] ∧
      (((100 + 10) % 18446744073709551616 : Nat) : Int)
        = ((100 : Nat) : Int) + e1.cycles_in_future ∧
      ((kB.m_last_reply_time : Nat) : Int) = ((100 : Nat) : Int) + e2.cycles_in_future ∧
      ((100 : Nat) : Int) + e1.cycles_in_future ≤ ((100 : Nat) : Int) + e2.cycles_in_future ∧
      0 ≤ (100 + 10) % 18446744073709551616 ∧
      (100 + 10) % 18446744073709551616 ≤ kB.m_last_reply_time :=
  replies_in_order_of_small_delays exampleConsts exampleBackend (exampleKernel slotOneBound 0)
    (exampleSys twoRecordsMem 100) 0x1000 0x1020 100
    { return_value := 7, send_reply := true, reply_delay_ticks := 10 }
    { return_value := 7, send_reply := true, reply_delay_ticks := 10 }
    (exampleKernel slotOneBound 0)
    { exampleKernel slotOneBound 0 with m_last_reply_time := (100 + 10) % 18446744073709551616 }
    { exampleKernel slotOneBound 0 with m_last_reply_time := (100 + 10) % 18446744073709551616 }
    ((exampleSys twoRecordsMem 100).afterCall (DevCall.Read exampleFS 0x1000) twoRecordsMem)
    (({ EnqueueIPCReply exampleConsts
          ((exampleSys twoRecordsMem 100).afterCall (DevCall.Read exampleFS 0x1000)
            twoRecordsMem)
          (Request.decode twoRecordsMem 0x1000) 7 10 with ticks := 100 } : Sys).afterCall
      (DevCall.Read exampleFS 0x1020)
      (EnqueueIPCReply exampleConsts
          ((exampleSys twoRecordsMem 100).afterCall (DevCall.Read exampleFS 0x1000)
            twoRecordsMem)
          (Request.decode twoRecordsMem 0x1000) 7 10).mem)
    (EnqueueIPCReply exampleConsts
      ((exampleSys twoRecordsMem 100).afterCall (DevCall.Read exampleFS 0x1000) twoRecordsMem)
      (Request.decode twoRecordsMem 0x1000) 7 10)
    rfl rfl rfl rfl rfl (by decide) (by decide) (by decide) (by decide) (by decide)

/-! ## C12 -/

/-- C12: with the mailbox ready, one `UpdateIPC` call handles one queue entry by the strict
priority request, reply, ack. If the request queue is `command :: rest`, the front request is
acknowledged and dispatched: the call ends as `ExecuteIPCCommand` on it ends (a fault if the
dispatch aborts), and when that returns, the request queue is `rest` and the reply and ack
queues are as before. Otherwise, if the reply queue is `address :: rest`, that reply is
delivered and only it is removed; otherwise, if the ack queue is `address :: rest`, that
acknowledgement is delivered and only it is removed; with all three queues empty nothing
changes. When the mailbox is not ready nothing changes. -/
theorem C12_UpdateIPC_strict_priority (c : Consts) (B : Backend) (k : Kernel) (w : Sys)
    (signals : List IPCSignal) :
    (∀ command rest, k.m_request_queue = command :: rest →
      (∀ e, ExecuteIPCCommand c B { k with m_request_queue := rest } w command
          = Except.error e → UpdateIPC c B true k w signals = Except.error e) ∧
      (∀ k1 w1, ExecuteIPCCommand c B { k with m_request_queue := rest } w command
          = Except.ok (k1, w1) →
        UpdateIPC c B true k w signals
          = Except.ok (k1, w1, signals ++ [IPCSignal.Ack command]) ∧
        k1.m_request_queue = rest ∧ k1.m_reply_queue = k.m_reply_queue ∧
        k1.m_ack_queue = k.m_ack_queue)) ∧
    (∀ address rest, k.m_request_queue = [] → k.m_reply_queue = address :: rest →
      UpdateIPC c B true k w signals
        = Except.ok ({ k with m_reply_queue := rest }, w,
            signals ++ [IPCSignal.Reply address])) ∧
    (∀ address rest, k.m_request_queue = [] → k.m_reply_queue = [] →
      k.m_ack_queue = address :: rest →
      UpdateIPC c B true k w signals
        = Except.ok ({ k with m_ack_queue := rest }, w,
            signals ++ [IPCSignal.Ack address])) ∧
    (k.m_request_queue = [] → k.m_reply_queue = [] → k.m_ack_queue = [] →
      UpdateIPC c B true k w signals = Except.ok (k, w, signals)) ∧
    UpdateIPC c B false k w signals = Except.ok (k, w, signals) := by
  refine ⟨?_, ?_, ?_, ?_, ?_⟩
  · intro command rest hq
    constructor
    · intro e he
      simp [UpdateIPC, hq, he]
    · intro k1 w1 hok
      refine ⟨by simp [UpdateIPC, hq, hok], ?_⟩
      exact ExecuteIPCCommand_kernel c B _ w command k1 w1 hok
  · intro address rest hq hr
    simp [UpdateIPC, hq, hr]
  · intro address rest hq hr ha
    simp [UpdateIPC, hq, hr, ha]
  · intro hq hr ha
    simp [UpdateIPC, hq, hr, ha]
  · simp [UpdateIPC]

/-! ## C13 -/

theorem OpenDevice_nonneg (c : Consts) (B : Backend) (k : Kernel) (w : Sys)
    (request : OpenRequest)
    (hmax : c.IPC_MAX_FDS ≤ 2147483648) (hsucc : c.IPC_SUCCESS ≤ 0)
    (hexh : c.FS_EFDEXHAUSTED < 0) (hnoent : c.IPC_ENOENT < 0)
    (hfd : 0 ≤ (OpenDevice c B k w request).1) :
    ∃ (j : Nat) (device : Device),
      GetFreeDeviceID.scan k.m_fdmap 0 c.IPC_MAX_FDS = some j ∧
      (OpenDevice c B k w request).1 = (j : Int) ∧
      (OpenDevice c B k w request).2.1.m_fdmap = Function.update k.m_fdmap j (some device) := by
  cases hs : GetFreeDeviceID.scan k.m_fdmap 0 c.IPC_MAX_FDS with
  | none =>
    rw [OpenDevice_exhausted c B k w request hs] at hfd
    simp only at hfd
    omega
  | some j =>
    rw [OpenDevice_of_scan c B k w request j hmax hs] at hfd ⊢
    rcases hr : OpenDevice.resolve k w request.path with ⟨dev, w1⟩
    rw [hr] at hfd
    cases dev with
    | none =>
      simp only at hfd
      omega
    | some device =>
      simp only at hfd ⊢
      by_cases hcode : (Device.Open B w1 device { request with fd := j }).1 < c.IPC_SUCCESS
      · rw [if_pos hcode] at hfd
        simp only at hfd
        omega
      · rw [if_neg hcode]
        exact ⟨j, device, rfl, rfl, rfl⟩

theorem AddDevice.each_frame (names : List String) :
    ∀ (k : Kernel) (w : Sys), ∃ k1 w1, AddDevice.each k w names = Except.ok (k1, w1) ∧
      k1.m_fdmap = k.m_fdmap ∧ w1.mem = w.mem ∧ w1.events = w.events ∧
      k1.m_title_id = k.m_title_id ∧
      (∀ n, (k.m_device_map.lookup n).isSome = true ∨ n ∈ names →
        (k1.m_device_map.lookup n).isSome = true) := by
  induction names with
  | nil =>
    intro k w
    refine ⟨k, w, rfl, rfl, rfl, rfl, rfl, ?_⟩
    intro n hn
    rcases hn with hn | hn
    · exact hn
    · cases hn
  | cons name names ih =>
    intro k w
    obtain ⟨k1, w1, e1, e2, e3, e4, e5, e6⟩ :=
      ih { k with m_device_map :=
             mapAssign k.m_device_map name (makeStaticDevice w name).1 }
        (makeStaticDevice w name).2
    refine ⟨k1, w1, ?_, e2, e3, e4, e5, ?_⟩
    · simp only [AddDevice.each, AddDevice, makeStaticDevice, if_true]
      exact e1
    · intro n hn
      apply e6
      by_cases hnn : n = name
      · left
        subst hnn
        simp only [makeStaticDevice]
        generalize k.m_device_map = m
        induction m with
        | nil => simp [mapAssign, List.lookup]
        | cons p rest ihm =>
          obtain ⟨pn, pd⟩ := p
          unfold mapAssign
          by_cases hp : pn = n
          · simp [hp, List.lookup]
          · rw [if_neg hp]
            have hb : (n == pn) = false := by
              simp only [beq_eq_false_iff_ne, ne_eq]
              exact fun h => hp h.symm
            simp only [List.lookup, hb]
            exact ihm
      · rcases hn with hn | hn
        · left
          simp only
          generalize k.m_device_map = m at hn
          induction m with
          | nil => simp [List.lookup] at hn
          | cons p rest ihm =>
            obtain ⟨pn, pd⟩ := p
            unfold mapAssign
            by_cases hp : pn = name
            · rw [if_pos hp]
              have hb : (n == pn) = false := by
                simp only [beq_eq_false_iff_ne, ne_eq]
                exact fun h => hnn (h.trans hp)
              simp only [List.lookup, hb] at hn ⊢
              exact hn
            · rw [if_neg hp]
              by_cases hb : (n == pn) = true
              · simp only [List.lookup, hb]
                rfl
              · have hb2 : (n == pn) = false := by simpa using hb
                simp only [List.lookup, hb2] at hn ⊢
                exact ihm hn
        · right
          rcases List.mem_cons.mp hn with h | h
          · exact absurd h hnn
          · exact h

theorem EmulationKernel_fdmap (P : Platform) (w : Sys) (title_id : Nat) (k : Kernel)
    (w1 : Sys) (h : EmulationKernel P w title_id = Except.ok (k, w1)) :
    ∀ i, k.m_fdmap i = none := by
  unfold EmulationKernel at h
  simp only at h
  split_ifs at h with hm
  · cases h
    intro i
    rfl
  · obtain ⟨ka, wa, a1, a2, _, _, _, _⟩ := AddDevice.each_frame ["/dev/fs", "/dev/es"]
      (Kernel.new title_id) (EnqueueIPCAcknowledgement
        { w with mem := (SetupMemory P.memory_values title_id MemorySetupType.IOSReload
            w.mem).2 } 0 0)
    unfold AddCoreDevices at h
    rw [a1] at h
    simp only at h
    unfold AddStaticDevices at h
    obtain ⟨kb, wb, b1, b2, _, _, _, _⟩ := AddDevice.each_frame
      ((if P.m_bt_passthrough_enabled = false then ["/dev/usb/oh1/57e/305"]
        else ["/dev/usb/oh1/57e/305"]) ++
       ["/dev/stm/immediate", "/dev/stm/eventhook", "/dev/di", "/dev/net/kd/request",
        "/dev/net/kd/time", "/dev/net/ncd/manage", "/dev/net/wd/command", "/dev/net/ip/top",
        "/dev/net/ssl", "/dev/usb/kbd", "/dev/sdio/slot0", "/dev/sdio/slot1", "/dev/usb/hid",
        "/dev/usb/oh0", "/dev/usb/oh1", "/dev/usb/ven", "/dev/usb/wfssrv", "/dev/wfsi"])
      ka wa
    rw [b1] at h
    cases h
    intro i
    rw [b2, a2]
    rfl

/-- C13: a successful `OpenDevice` returning `fd`, followed by a Close dispatch on `fd`
(which returns and empties slot `fd`), followed by another successful `OpenDevice`, returns
`fd` again. On a kernel as `EmulationKernel` constructs it a successful `OpenDevice` returns
the descriptor 0, so there Open, Close(0), Open give 0 both times. -/
theorem C13_open_close_open_same_descriptor (c : Consts) (B : Backend) (k : Kernel) (w : Sys)
    (req1 req2 : OpenRequest) (address : Nat)
    (hmax : c.IPC_MAX_FDS ≤ 2147483648) (hsucc : c.IPC_SUCCESS ≤ 0)
    (hexh : c.FS_EFDEXHAUSTED < 0) (hnoent : c.IPC_ENOENT < 0)
    (h1 : 0 ≤ (OpenDevice c B k w req1).1) :
    (∃ result kc wc,
      HandleIPCCommand c B (OpenDevice c B k w req1).2.1 (OpenDevice c B k w req1).2.2
          ⟨address, IPC_CMD_CLOSE, (OpenDevice c B k w req1).1.toNat⟩
        = Except.ok (result, kc, wc) ∧
      kc.m_fdmap (OpenDevice c B k w req1).1.toNat = none ∧
      (0 ≤ (OpenDevice c B kc wc req2).1 →
        (OpenDevice c B kc wc req2).1 = (OpenDevice c B k w req1).1)) ∧
    (∀ (P : Platform) (w0 : Sys) (title_id : Nat),
      EmulationKernel P w0 title_id = Except.ok (k, w) → (OpenDevice c B k w req1).1 = 0) := by
  obtain ⟨j, device, hs, hj, hmap⟩ := OpenDevice_nonneg c B k w req1 hmax hsucc hexh hnoent h1
  obtain ⟨_, hj2, hj3, hj4⟩ := GetFreeDeviceID.scan_eq_some hs
  constructor
  · rw [hj]
    simp only [Int.toNat_ofNat]
    have hbound : (OpenDevice c B k w req1).2.1.m_fdmap j = some device := by
      rw [hmap]; simp
    refine ⟨GetDefaultReply c (Device.Close B (OpenDevice c B k w req1).2.2 device j).1,
      { (OpenDevice c B k w req1).2.1 with
        m_fdmap := Function.update (OpenDevice c B k w req1).2.1.m_fdmap j none },
      (Device.Close B (OpenDevice c B k w req1).2.2 device j).2, ?_, ?_, ?_⟩
    · have hlt : j < c.IPC_MAX_FDS := by omega
      simp [HandleIPCCommand, hlt, hbound, fdmapAt, IPC_CMD_CLOSE, IPC_CMD_OPEN]
    · simp
    · intro h2
      obtain ⟨j2, device2, hs2, hj2', _⟩ := OpenDevice_nonneg c B _ _ req2 hmax hsucc hexh
        hnoent h2
      rw [hj2']
      have hfirst : GetFreeDeviceID.scan
          (Function.update (OpenDevice c B k w req1).2.1.m_fdmap j none) 0 c.IPC_MAX_FDS
          = some j := by
        apply GetFreeDeviceID.scan_first_free (Nat.zero_le _) (by omega) (by simp)
        intro x _ hx
        have hxj : x ≠ j := by omega
        rw [hmap]
        simp only [Function.update, hxj, dite_false]
        exact hj4 x (Nat.zero_le _) hx
      simp only at hs2
      rw [hfirst] at hs2
      cases hs2
      rfl
  · intro P w0 title_id hk
    have hempty := EmulationKernel_fdmap P w0 title_id k w hk
    rw [hj]
    have hzero : j = 0 := by
      by_contra hne
      exact hj4 0 (Nat.zero_le _) (by omega) (hempty 0)
    rw [hzero]
    rfl

/-- C12 at a concrete input: with one entry in each queue, the request at 0x1000 is the one
handled; the reply and ack queues keep their entries. -/
theorem C12_UpdateIPC_strict_priority_witness :
    UpdateIPC exampleConsts exampleBackend true queuedKernel (exampleSys readRecordMem 0) []
      = Except.ok
          ({ ({ queuedKernel with m_request_queue := [] } : Kernel) with
               m_last_reply_time := (0 + 10) % 18446744073709551616 },
           EnqueueIPCReply exampleConsts
             ((exampleSys readRecordMem 0).afterCall (DevCall.Read exampleFS 0x1000)
               readRecordMem)
             (Request.decode readRecordMem 0x1000) 7 10,
           [] ++ [IPCSignal.Ack 0x1000]) ∧
    ({ ({ queuedKernel with m_request_queue := [] } : Kernel) with
         m_last_reply_time := (0 + 10) % 18446744073709551616 } : Kernel).m_reply_queue
      = [0x2000] :=
  have h := ((C12_UpdateIPC_strict_priority exampleConsts exampleBackend queuedKernel
    (exampleSys readRecordMem 0) []).1 0x1000 [] rfl).2
      { ({ queuedKernel with m_request_queue := [] } : Kernel) with
          m_last_reply_time := (0 + 10) % 18446744073709551616 }
      (EnqueueIPCReply exampleConsts
        ((exampleSys readRecordMem 0).afterCall (DevCall.Read exampleFS 0x1000) readRecordMem)
        (Request.decode readRecordMem 0x1000) 7 10) rfl
  ⟨h.1, h.2.2.1⟩

/-- C13 at a concrete input: on the kernel constructed for IOS 80, Open("/dev/fs") returns
the descriptor 0. -/
theorem C13_open_close_open_same_descriptor_witness :
    0 ≤ (OpenDevice exampleConsts exampleBackend bootedKernel bootedSys
          (exampleOpen "/dev/fs")).1 ∧
    (OpenDevice exampleConsts exampleBackend bootedKernel bootedSys
          (exampleOpen "/dev/fs")).1 = 0 :=
  ⟨by decide,
   (C13_open_close_open_same_descriptor exampleConsts exampleBackend bootedKernel bootedSys
      (exampleOpen "/dev/fs") (exampleOpen "/dev/fs") 0x1000 (by decide) (by decide)
      (by decide) (by decide) (by decide)).2 examplePlatform (exampleSys readRecordMem 0)
      titleIOS80 rfl⟩

/-! ## C14 -/

theorem resolve_registered (k : Kernel) (w : Sys) (path : String) (device : Device)
    (hdev : findAtZero path "/dev/" = true) (hreg : GetDeviceByName k path = some device) :
    OpenDevice.resolve k w path = (some device, w) := by
  simp [OpenDevice.resolve, hdev, hreg]

/-- C14 fails: `OpenDevice` has no check that a Static device is already bound. With a
device whose `Open` succeeds again, two consecutive Opens of the registered Static device
"/dev/fs" return the descriptors 0 and 1 and leave both slots bound to that one device. -/
theorem C14_counterexample_static_device_bound_twice :
    exampleFS.deviceType = DeviceType.Static ∧
    GetDeviceByName (exampleKernel (fun _ => none) 0) "/dev/fs" = some exampleFS ∧
    (OpenDevice.run exampleConsts exampleBackend (exampleKernel (fun _ => none) 0)
        (exampleSys (fun _ => 0) 0) [exampleOpen "/dev/fs", exampleOpen "/dev/fs"]).1
      = [0, 1] ∧
    (OpenDevice.run exampleConsts exampleBackend (exampleKernel (fun _ => none) 0)
        (exampleSys (fun _ => 0) 0)
        [exampleOpen "/dev/fs", exampleOpen "/dev/fs"]).2.1.m_fdmap 0 = some exampleFS ∧
    (OpenDevice.run exampleConsts exampleBackend (exampleKernel (fun _ => none) 0)
        (exampleSys (fun _ => 0) 0)
        [exampleOpen "/dev/fs", exampleOpen "/dev/fs"]).2.1.m_fdmap 1 = some exampleFS := by
  refine ⟨by decide, by decide, by decide, by decide, by decide⟩

/-- C14, amended: `OpenDevice` on the name of a registered Static device (a path under
"/dev/") that is already bound to slot `i`, with another slot free, calls that device's
`Open` and does what its code says: for a code below `IPC_SUCCESS` it returns that code and
the descriptor table is unchanged (no second slot is bound); otherwise it returns the lowest
free descriptor, which differs from `i`, and binds it to the same device, so that the device
is then bound to two slots. The kernel itself never refuses the re-open. -/
theorem C14_reopen_static_device (c : Consts) (B : Backend) (k : Kernel) (w : Sys)
    (request : OpenRequest) (device : Device) (i : Nat)
    (hmax : c.IPC_MAX_FDS ≤ 2147483648)
    (hfree : ∃ j, j < c.IPC_MAX_FDS ∧ k.m_fdmap j = none)
    (hdev : findAtZero request.path "/dev/" = true)
    (hreg : GetDeviceByName k request.path = some device)
    (hbound : k.m_fdmap i = some device) :
    ((B.Open w.calls w.mem device
          { request with fd := (GetFreeDeviceID c k).toNat }).1 < c.IPC_SUCCESS →
      (OpenDevice c B k w request).1
        = (B.Open w.calls w.mem device
            { request with fd := (GetFreeDeviceID c k).toNat }).1 ∧
      (OpenDevice c B k w request).2.1 = k) ∧
    (¬ (B.Open w.calls w.mem device
          { request with fd := (GetFreeDeviceID c k).toNat }).1 < c.IPC_SUCCESS →
      ∃ fd : Nat, fd ≠ i ∧ fd < c.IPC_MAX_FDS ∧
        (OpenDevice c B k w request).1 = (fd : Int) ∧
        (OpenDevice c B k w request).2.1.m_fdmap fd = some device ∧
        (OpenDevice c B k w request).2.1.m_fdmap i = some device) := by
  obtain ⟨j, hs⟩ := GetFreeDeviceID.scan_isSome_of_free hfree
  obtain ⟨hg, hj⟩ := GetFreeDeviceID_of_scan c k j hmax hs
  obtain ⟨_, _, hj3, _⟩ := GetFreeDeviceID.scan_eq_some hs
  rw [hg]
  simp only [Int.toNat_ofNat]
  rw [OpenDevice_of_scan c B k w request j hmax hs, resolve_registered k w _ device hdev hreg]
  simp only [Device.Open]
  constructor
  · intro hcode
    rw [if_pos hcode]
    exact ⟨rfl, rfl⟩
  · intro hcode
    rw [if_neg hcode]
    have hji : j ≠ i := by
      intro h
      rw [h, hbound] at hj3
      cases hj3
    refine ⟨j, hji, hj, rfl, by simp, ?_⟩
    simp only [Function.update, Ne.symm hji, dite_false]
    exact hbound

/-- C14 (amended) at a concrete input: "/dev/fs" is bound to slot 0 and its `Open` succeeds
again; the second Open returns the descriptor 1, bound to the same device. -/
theorem C14_reopen_static_device_witness :
    slotZeroBound 0 = some exampleFS ∧
    ∃ fd : Nat, fd ≠ 0 ∧ fd < exampleConsts.IPC_MAX_FDS ∧
      (OpenDevice exampleConsts exampleBackend (exampleKernel slotZeroBound 0)
          (exampleSys (fun _ => 0) 0) (exampleOpen "/dev/fs")).1 = (fd : Int) ∧
      (OpenDevice exampleConsts exampleBackend (exampleKernel slotZeroBound 0)
          (exampleSys (fun _ => 0) 0) (exampleOpen "/dev/fs")).2.1.m_fdmap fd
        = some exampleFS ∧
      (OpenDevice exampleConsts exampleBackend (exampleKernel slotZeroBound 0)
          (exampleSys (fun _ => 0) 0) (exampleOpen "/dev/fs")).2.1.m_fdmap 0
        = some exampleFS :=
  ⟨rfl,
   (C14_reopen_static_device exampleConsts exampleBackend (exampleKernel slotZeroBound 0)
      (exampleSys (fun _ => 0) 0) (exampleOpen "/dev/fs") exampleFS 0 (by decide)
      ⟨1, by decide, rfl⟩ (by decide) (by decide) rfl).2 (by decide)⟩

/-! ## Lemmas on the kernel lifecycle -/

theorem SetupMemory_false (table : List MemoryValues) (ios_title_id : Nat)
    (setup_type : MemorySetupType) (mem : Mem)
    (h : (SetupMemory table ios_title_id setup_type mem).1 = false) :
    (SetupMemory table ios_title_id setup_type mem).2 = mem := by
  unfold SetupMemory at h ⊢
  cases hf : findMemoryValues table ios_title_id with
  | none => rfl
  | some imv =>
    rw [hf] at h
    cases setup_type <;> simp at h

theorem SetupMemory_reload_known (table : List MemoryValues) (ios_title_id : Nat)
    (mem : Mem) (imv : MemoryValues)
    (hknown : findMemoryValues table ios_title_id = some imv) :
    SetupMemory table ios_title_id MemorySetupType.IOSReload mem
      = (true, SetupMemory.reload imv mem) := by
  simp only [SetupMemory, hknown]

theorem closeOpenDevices_of_unbound (B : Backend) (fdmap : Nat → Option Device)
    (slots : List Nat) (w : Sys) (h : ∀ i, i ∈ slots → fdmap i = none) :
    closeOpenDevices B fdmap w slots = w := by
  induction slots generalizing w with
  | nil => rfl
  | cons i rest ih =>
    unfold closeOpenDevices
    rw [h i (List.mem_cons_self _ _)]
    exact ih w (fun x hx => h x (List.mem_cons_of_mem _ hx))

theorem EmulationKernel_of_MIOS (P : Platform) (w : Sys) :
    EmulationKernel P w P.MIOS
      = Except.ok (Kernel.new P.MIOS,
          { w with
            mem := P.MIOS_Load
              (SetupMemory P.memory_values P.MIOS MemorySetupType.IOSReload w.mem).2 }) := by
  simp [EmulationKernel]

theorem EmulationKernel_of_not_MIOS (P : Platform) (w : Sys) (title_id : Nat)
    (h : title_id ≠ P.MIOS) :
    ∃ k w1, EmulationKernel P w title_id = Except.ok (k, w1) ∧
      (∀ i, k.m_fdmap i = none) ∧ k.m_title_id = title_id ∧
      w1.mem = (SetupMemory P.memory_values title_id MemorySetupType.IOSReload w.mem).2 ∧
      w1.events = w.events ++ [{ cycles_in_future := 0,
                                 userdata := 0 ||| ENQUEUE_ACKNOWLEDGEMENT_FLAG }] ∧
      (k.m_device_map.lookup "/dev/fs").isSome = true ∧
      (k.m_device_map.lookup "/dev/es").isSome = true := by
  obtain ⟨ka, wa, a1, a2, a3, a4, a5, a6⟩ := AddDevice.each_frame ["/dev/fs", "/dev/es"]
    (Kernel.new title_id) (EnqueueIPCAcknowledgement
      { w with mem := (SetupMemory P.memory_values title_id MemorySetupType.IOSReload
          w.mem).2 } 0 0)
  obtain ⟨kb, wb, b1, b2, b3, b4, b5, b6⟩ := AddDevice.each_frame
    ((if P.m_bt_passthrough_enabled = false then ["/dev/usb/oh1/57e/305"]
      else ["/dev/usb/oh1/57e/305"]) ++
     ["/dev/stm/immediate", "/dev/stm/eventhook", "/dev/di", "/dev/net/kd/request",
      "/dev/net/kd/time", "/dev/net/ncd/manage", "/dev/net/wd/command", "/dev/net/ip/top",
      "/dev/net/ssl", "/dev/usb/kbd", "/dev/sdio/slot0", "/dev/sdio/slot1", "/dev/usb/hid",
      "/dev/usb/oh0", "/dev/usb/oh1", "/dev/usb/ven", "/dev/usb/wfssrv", "/dev/wfsi"])
    ka wa
  refine ⟨kb, wb, ?_, ?_, ?_, ?_, ?_, ?_, ?_⟩
  · unfold EmulationKernel
    simp only [if_neg h]
    unfold AddCoreDevices
    rw [a1]
    simp only
    unfold AddStaticDevices
    exact b1
  · intro i
    rw [b2, a2]
    rfl
  · rw [b5, a5]
    rfl
  · rw [b3, a3]
    rfl
  · rw [b4, a4]
    rfl
  · exact b6 "/dev/fs" (Or.inl (a6 "/dev/fs" (Or.inr (by simp))))
  · exact b6 "/dev/es" (Or.inl (a6 "/dev/es" (Or.inr (by simp))))

theorem BootIOS_of_not_BC (c : Consts) (B : Backend) (P : Platform) (fuel : Nat)
    (s_ios : Option Kernel) (w : Sys) (ios_title_id : Nat) (h : ios_title_id ≠ P.BC) :
    BootIOS c B P (fuel + 1) s_ios w ios_title_id =
      match EmulationKernel P (resetIOS c B s_ios w) ios_title_id with
      | Except.error e => some (Except.error e)
      | Except.ok (k, w1) => some (Except.ok (true, k, w1)) := by
  simp [BootIOS, h]

/-! ## C18 -/

/-- What `BootIOS` does to guest memory: `BootIOS` to a version with a known Memory Layout
Record (32-bit fields; not the titles BC and MIOS, whose boot also runs `MIOS::Load`) returns
true and writes the ten words of the reload publish: the new IOS version at 0x3140 and MEM2_SIZE, MEM2_SIM_SIZE,
MEM2_END, MEM2_ARENA_BEGIN, MEM2_ARENA_END, IPC_BUFFER_BEGIN, IPC_BUFFER_END, UNKNOWN_BEGIN,
UNKNOWN_END with the record's values. Every other byte, the other memory-layout constants of
the region 0x3100-0x3163 among them, is as the teardown of the old kernel left it, which is
as it was before the call when no descriptor of the old kernel was bound. -/
theorem BootIOS_memory_effect (c : Consts) (B : Backend) (P : Platform) (fuel : Nat)
    (s_ios : Option Kernel) (w : Sys) (ios_title_id : Nat) (imv : MemoryValues)
    (hbc : ios_title_id ≠ P.BC) (hmios : ios_title_id ≠ P.MIOS)
    (hknown : findMemoryValues P.memory_values ios_title_id = some imv)
    (hfits : imv.fitsU32) :
    ∃ k w1, BootIOS c B P (fuel + 1) s_ios w ios_title_id = some (Except.ok (true, k, w1)) ∧
      Read_U32 w1.mem 0x3140 = imv.ios_version ∧
      Read_U32 w1.mem 0x3118 = imv.mem2_physical_size ∧
      Read_U32 w1.mem 0x311c = imv.mem2_simulated_size ∧
      Read_U32 w1.mem 0x3120 = imv.mem2_end ∧
      Read_U32 w1.mem 0x3124 = imv.mem2_arena_begin ∧
      Read_U32 w1.mem 0x3128 = imv.mem2_arena_end ∧
      Read_U32 w1.mem 0x3130 = imv.ipc_buffer_begin ∧
      Read_U32 w1.mem 0x3134 = imv.ipc_buffer_end ∧
      Read_U32 w1.mem 0x3148 = imv.unknown_begin ∧
      Read_U32 w1.mem 0x314c = imv.unknown_end ∧
      (∀ x, (x < 0x3118 ∨ 0x312c ≤ x) → (x < 0x3130 ∨ 0x3138 ≤ x) →
        (x < 0x3140 ∨ 0x3144 ≤ x) → (x < 0x3148 ∨ 0x3150 ≤ x) →
        w1.mem x = (resetIOS c B s_ios w).mem x) ∧
      ((∀ kold, s_ios = some kold → ∀ i, i < c.IPC_MAX_FDS → kold.m_fdmap i = none) →
        (resetIOS c B s_ios w).mem = w.mem) := by
  obtain ⟨k, w1, e1, _, _, e4, _, _, _⟩ :=
    EmulationKernel_of_not_MIOS P (resetIOS c B s_ios w) ios_title_id hmios
  rw [SetupMemory_reload_known _ _ _ imv hknown] at e4
  simp only at e4
  obtain ⟨f1, _, _, _, _, _, _, f8, f9, f10, f11, f12, f13, f14, _, _, f17, f18, _⟩ := hfits
  have hw := SetupMemory.reload_words imv (resetIOS c B s_ios w).mem
  simp only [ADDR_MEM2_SIZE, ADDR_MEM2_SIM_SIZE, ADDR_MEM2_END, ADDR_MEM2_ARENA_BEGIN,
    ADDR_MEM2_ARENA_END, ADDR_IPC_BUFFER_BEGIN, ADDR_IPC_BUFFER_END, ADDR_IOS_VERSION,
    ADDR_UNKNOWN_BEGIN, ADDR_UNKNOWN_END] at hw
  obtain ⟨w1', w2, w3, w4, w5, w6, w7, w8, w9, w10⟩ := hw
  refine ⟨k, w1, ?_, ?_, ?_, ?_, ?_, ?_, ?_, ?_, ?_, ?_, ?_, ?_, ?_⟩
  · rw [BootIOS_of_not_BC c B P fuel s_ios w ios_title_id hbc, e1]
  · rw [e4, w1']; exact Nat.mod_eq_of_lt f1
  · rw [e4, w2]; exact Nat.mod_eq_of_lt f8
  · rw [e4, w3]; exact Nat.mod_eq_of_lt f9
  · rw [e4, w4]; exact Nat.mod_eq_of_lt f10
  · rw [e4, w5]; exact Nat.mod_eq_of_lt f11
  · rw [e4, w6]; exact Nat.mod_eq_of_lt f12
  · rw [e4, w7]; exact Nat.mod_eq_of_lt f13
  · rw [e4, w8]; exact Nat.mod_eq_of_lt f14
  · rw [e4, w9]; exact Nat.mod_eq_of_lt f17
  · rw [e4, w10]; exact Nat.mod_eq_of_lt f18
  · intro x h1 h2 h3 h4
    rw [e4]
    exact SetupMemory.reload_outside imv _ x h1 h2 h3 h4
  · intro hunbound
    cases s_ios with
    | none => rfl
    | some kold =>
      simp only [resetIOS]
      rw [closeOpenDevices_of_unbound B kold.m_fdmap (List.range c.IPC_MAX_FDS) _
        (fun i hi => hunbound kold rfl i (List.mem_range.mp hi))]

/-- The memory effect at a concrete input: booting IOS 80 over a kernel with no bound
descriptor; MEM2_SIZE reads the record's value. -/
theorem BootIOS_memory_effect_witness :
    titleIOS80 ≠ examplePlatform.BC ∧ titleIOS80 ≠ examplePlatform.MIOS ∧
    ∃ k w1, BootIOS exampleConsts exampleBackend examplePlatform (0 + 1)
        (some (exampleKernel (fun _ => none) 0)) (exampleSys readRecordMem 0) titleIOS80
        = some (Except.ok (true, k, w1)) ∧
      Read_U32 w1.mem 0x3140 = exampleValues.ios_version ∧
      Read_U32 w1.mem 0x3118 = exampleValues.mem2_physical_size :=
  ⟨by decide, by decide,
   match BootIOS_memory_effect exampleConsts exampleBackend examplePlatform 0
      (some (exampleKernel (fun _ => none) 0)) (exampleSys readRecordMem 0) titleIOS80
      exampleValues (by decide) (by decide) (by decide) (by decide) with
   | ⟨k, w1, h⟩ => ⟨k, w1, h.1, h.2.1, h.2.2.1⟩⟩

/-! ## C19 -/

/-- C19 fails when the DOL does not load: the loader is valid, the boot content exists, the
DOL is valid and the version is known, so `SetupMemory` in the mode Full has published the
record before `LoadIntoMemory` fails. `BootstrapPPC` returns false, PC and MSR are unchanged,
and the word at 0x3110 (MEM1_ARENA_END) has changed from 0 to the record's value. -/
theorem C19_counterexample_publish_precedes_DOL_load :
    (BootstrapPPC examplePlatform (exampleKernel (fun _ => none) 0) readRecordMem
        { MSR := 0x8000, PC := 0x100 } failingLoader).1 = false ∧
    (BootstrapPPC examplePlatform (exampleKernel (fun _ => none) 0) readRecordMem
        { MSR := 0x8000, PC := 0x100 } failingLoader).2.2 = { MSR := 0x8000, PC := 0x100 } ∧
    Read_U32 readRecordMem 0x3110 = 0 ∧
    Read_U32 (BootstrapPPC examplePlatform (exampleKernel (fun _ => none) 0) readRecordMem
        { MSR := 0x8000, PC := 0x100 } failingLoader).2.1 0x3110 = 0x81800003 := by
  refine ⟨by decide, by decide, by decide, by decide⟩

/-- C19, amended: whenever `BootstrapPPC` returns false, the main processor's PC and MSR are
unchanged. When the failure is an invalid loader, missing boot content, an invalid DOL or an
unknown version, guest memory is exactly as before the call. When the failure is the DOL
failing to load into memory, the Full publish of the Memory Layout Record has already been
made: guest memory is what `LoadIntoMemory` left of the published memory. -/
theorem C19_BootstrapPPC_failure (P : Platform) (k : Kernel) (mem : Mem) (ppc : PPCState)
    (content_loader : NANDContentLoader)
    (hfalse : (BootstrapPPC P k mem ppc content_loader).1 = false) :
    (BootstrapPPC P k mem ppc content_loader).2.2 = ppc ∧
    ((content_loader.IsValid = false ∨ content_loader.boot_content = none ∨
        (∃ dol_loader, content_loader.boot_content = some dol_loader ∧
          dol_loader.IsValid = false) ∨
        (SetupMemory P.memory_values k.m_title_id MemorySetupType.Full mem).1 = false) →
      (BootstrapPPC P k mem ppc content_loader).2.1 = mem) ∧
    (∀ dol_loader, content_loader.IsValid = true →
      content_loader.boot_content = some dol_loader → dol_loader.IsValid = true →
      (SetupMemory P.memory_values k.m_title_id MemorySetupType.Full mem).1 = true →
      (BootstrapPPC P k mem ppc content_loader).2.1
        = (dol_loader.LoadIntoMemory
            (SetupMemory P.memory_values k.m_title_id MemorySetupType.Full mem).2).2) := by
  refine ⟨?_, ?_, ?_⟩
  · unfold BootstrapPPC at hfalse ⊢
    by_cases h1 : content_loader.IsValid = false
    · rw [if_pos h1]
    · rw [if_neg h1] at hfalse ⊢
      cases hb : content_loader.boot_content with
      | none => rfl
      | some dol =>
        rw [hb] at hfalse
        simp only at hfalse ⊢
        by_cases h2 : dol.IsValid = false
        · rw [if_pos h2]
        · rw [if_neg h2] at hfalse ⊢
          by_cases h3 : (SetupMemory P.memory_values k.m_title_id MemorySetupType.Full
              mem).1 = false
          · rw [if_pos h3]
          · rw [if_neg h3] at hfalse ⊢
            by_cases h4 : (dol.LoadIntoMemory (SetupMemory P.memory_values k.m_title_id
                MemorySetupType.Full mem).2).1 = false
            · rw [if_pos h4]
            · rw [if_neg h4] at hfalse
              simp at hfalse
  · intro hcase
    unfold BootstrapPPC
    by_cases h1 : content_loader.IsValid = false
    · rw [if_pos h1]
    · rw [if_neg h1]
      cases hb : content_loader.boot_content with
      | none => rfl
      | some dol =>
        simp only
        by_cases h2 : dol.IsValid = false
        · rw [if_pos h2]
        · rw [if_neg h2]
          have h3 : (SetupMemory P.memory_values k.m_title_id MemorySetupType.Full mem).1
              = false := by
            rcases hcase with h | h | ⟨d, hd1, hd2⟩ | h
            · exact absurd h h1
            · rw [hb] at h
              cases h
            · rw [hb] at hd1
              cases hd1
              exact absurd hd2 h2
            · exact h
          rw [if_pos h3]
          exact SetupMemory_false _ _ _ _ h3
  · intro dol h1 hb h2 h3
    unfold BootstrapPPC at hfalse ⊢
    simp only [h1, hb, h2, h3, Bool.true_eq_false, if_false] at hfalse ⊢
    by_cases h4 : (dol.LoadIntoMemory (SetupMemory P.memory_values k.m_title_id
        MemorySetupType.Full mem).2).1 = false
    · rw [if_pos h4]
    · rw [if_neg h4] at hfalse
      simp at hfalse

/-- C19 (amended) at a concrete input: an invalid loader; nothing changes. -/
theorem C19_BootstrapPPC_failure_witness :
    (BootstrapPPC examplePlatform (exampleKernel (fun _ => none) 0) readRecordMem
        { MSR := 0x8000, PC := 0x100 } invalidLoader).1 = false ∧
    (BootstrapPPC examplePlatform (exampleKernel (fun _ => none) 0) readRecordMem
        { MSR := 0x8000, PC := 0x100 } invalidLoader).2.2 = { MSR := 0x8000, PC := 0x100 } ∧
    (BootstrapPPC examplePlatform (exampleKernel (fun _ => none) 0) readRecordMem
        { MSR := 0x8000, PC := 0x100 } invalidLoader).2.1 = readRecordMem :=
  have h := C19_BootstrapPPC_failure examplePlatform (exampleKernel (fun _ => none) 0)
    readRecordMem { MSR := 0x8000, PC := 0x100 } invalidLoader rfl
  ⟨rfl, h.1, h.2.1 (Or.inl rfl)⟩

/-! ## C20 -/

/-- C20 fails for the title MIOS: its constructor returns before any device is registered,
so the kernel constructed for MIOS has an empty Registry and `GetFS` and `GetES` fail. -/
theorem C20_counterexample_MIOS_has_no_devices :
    ((EmulationKernel examplePlatform (exampleSys readRecordMem 0)
        examplePlatform.MIOS).toOption.map
          (fun r => (r.1.m_device_map, (GetFS r.1).toOption, (GetES r.1).toOption)))
      = some ([], none, none) := by
  decide

/-- C20, amended: for every title id the constructed kernel starts with all descriptor slots
empty. For every title id other than MIOS the construction returns a kernel whose Registry
contains "/dev/fs" and "/dev/es", so that `GetFS` and `GetES` succeed. For the title MIOS the
Registry is empty and `GetFS` and `GetES` fail. -/
theorem C20_constructed_kernel (P : Platform) (w : Sys) (title_id : Nat) :
    (title_id ≠ P.MIOS →
      ∃ k w1 fs es, EmulationKernel P w title_id = Except.ok (k, w1) ∧
        (∀ i, k.m_fdmap i = none) ∧ GetFS k = Except.ok fs ∧ GetES k = Except.ok es) ∧
    (title_id = P.MIOS →
      ∃ k w1, EmulationKernel P w title_id = Except.ok (k, w1) ∧
        (∀ i, k.m_fdmap i = none) ∧ k.m_device_map = [] ∧
        GetFS k = Except.error Fault.OutOfBounds ∧
        GetES k = Except.error Fault.OutOfBounds) := by
  constructor
  · intro h
    obtain ⟨k, w1, e1, e2, _, _, _, e6, e7⟩ := EmulationKernel_of_not_MIOS P w title_id h
    obtain ⟨fs, hfs⟩ := Option.isSome_iff_exists.mp e6
    obtain ⟨es, hes⟩ := Option.isSome_iff_exists.mp e7
    refine ⟨k, w1, fs, es, e1, e2, ?_, ?_⟩
    · simp only [GetFS, hfs]
    · simp only [GetES, hes]
  · intro h
    subst h
    exact ⟨_, _, EmulationKernel_of_MIOS P w, fun _ => rfl, rfl, rfl, rfl⟩

/-- C20 (amended) at a concrete input: the kernel constructed for IOS 80 has the filesystem
device in its Registry. -/
theorem C20_constructed_kernel_witness :
    titleIOS80 ≠ examplePlatform.MIOS ∧
    ∃ k w1 fs es,
      EmulationKernel examplePlatform (exampleSys readRecordMem 0) titleIOS80
        = Except.ok (k, w1) ∧
      (∀ i, k.m_fdmap i = none) ∧ GetFS k = Except.ok fs ∧ GetES k = Except.ok es :=
  ⟨by decide,
   (C20_constructed_kernel examplePlatform (exampleSys readRecordMem 0) titleIOS80).1
     (by decide)⟩

/-! ## C21 -/

theorem AddDevice.each_kernel (names : List String) :
    ∀ (k : Kernel) (w : Sys) (k1 : Kernel) (w1 : Sys),
      AddDevice.each k w names = Except.ok (k1, w1) →
      k1 = { k with m_device_map := k1.m_device_map } := by
  induction names with
  | nil =>
    intro k w k1 w1 h
    cases h
    rfl
  | cons name names ih =>
    intro k w k1 w1 h
    simp only [AddDevice.each, AddDevice, makeStaticDevice, if_true] at h
    have := ih _ _ k1 w1 h
    rw [this]

theorem EmulationKernel_queues (P : Platform) (w : Sys) (title_id : Nat) (k : Kernel)
    (w1 : Sys) (h : EmulationKernel P w title_id = Except.ok (k, w1)) :
    k.m_request_queue = [] ∧ k.m_reply_queue = [] ∧ k.m_ack_queue = [] ∧
    k.m_title_id = title_id := by
  unfold EmulationKernel at h
  simp only at h
  split_ifs at h with hm
  · cases h
    exact ⟨rfl, rfl, rfl, rfl⟩
  · unfold AddCoreDevices at h
    split at h
    · cases h
    · rename_i ka wa ha
      unfold AddStaticDevices at h
      have e1 := AddDevice.each_kernel _ _ _ ka wa ha
      have e2 := AddDevice.each_kernel _ _ _ k w1 h
      rw [e2, e1]
      exact ⟨rfl, rfl, rfl, rfl⟩

theorem EmulationKernel_returns (P : Platform) (w : Sys) (title_id : Nat) :
    ∃ k w1, EmulationKernel P w title_id = Except.ok (k, w1) := by
  by_cases h : title_id = P.MIOS
  · subst h
    exact ⟨_, _, EmulationKernel_of_MIOS P w⟩
  · obtain ⟨k, w1, e, _⟩ := EmulationKernel_of_not_MIOS P w title_id h
    exact ⟨k, w1, e⟩

/-- C21: with `Titles::MIOS` different from `Titles::BC`, `BootIOS(Titles::BC)` is
`BootIOS(Titles::MIOS)`: one redirection (two calls in all) and it returns true with a kernel
whose title id is MIOS. For every title id `BootIOS` returns true, and the kernel it
constructs has the title id asked for, or MIOS when BC was asked for; no kernel with the
title id BC is constructed. -/
theorem C21_BootIOS_redirects_BC_to_MIOS (c : Consts) (B : Backend) (P : Platform)
    (fuel : Nat) (s_ios : Option Kernel) (w : Sys) (hne : P.MIOS ≠ P.BC) :
    BootIOS c B P (fuel + 2) s_ios w P.BC = BootIOS c B P (fuel + 1) s_ios w P.MIOS ∧
    BootIOS c B P (fuel + 2) s_ios w P.BC = BootIOS c B P (fuel + 2) s_ios w P.MIOS ∧
    (∃ w1, BootIOS c B P (fuel + 2) s_ios w P.BC
        = some (Except.ok (true, Kernel.new P.MIOS, w1)) ∧
      (Kernel.new P.MIOS).m_title_id = P.MIOS) ∧
    (∀ ios_title_id, ∃ k w1,
      BootIOS c B P (fuel + 2) s_ios w ios_title_id = some (Except.ok (true, k, w1)) ∧
      k.m_title_id = (if ios_title_id = P.BC then P.MIOS else ios_title_id) ∧
      k.m_title_id ≠ P.BC) := by
  have hstep : BootIOS c B P (fuel + 2) s_ios w P.BC
      = BootIOS c B P (fuel + 1) s_ios w P.MIOS := by
    simp [BootIOS]
  have hmios : ∀ n, BootIOS c B P (n + 1) s_ios w P.MIOS
      = some (Except.ok (true, Kernel.new P.MIOS,
          { resetIOS c B s_ios w with
            mem := P.MIOS_Load (SetupMemory P.memory_values P.MIOS
              MemorySetupType.IOSReload (resetIOS c B s_ios w).mem).2 })) := by
    intro n
    rw [BootIOS_of_not_BC c B P n s_ios w P.MIOS hne, EmulationKernel_of_MIOS]
  refine ⟨hstep, ?_, ⟨_, by rw [hstep, hmios], rfl⟩, ?_⟩
  · rw [hstep, hmios, hmios]
  · intro ios_title_id
    by_cases hbc : ios_title_id = P.BC
    · subst hbc
      refine ⟨_, _, by rw [hstep, hmios], ?_, hne⟩
      simp [Kernel.new]
    · obtain ⟨k, w1, e⟩ := EmulationKernel_returns P (resetIOS c B s_ios w) ios_title_id
      obtain ⟨_, _, _, ht⟩ := EmulationKernel_queues P _ ios_title_id k w1 e
      refine ⟨k, w1, ?_, ?_, ?_⟩
      · rw [BootIOS_of_not_BC c B P (fuel + 1) s_ios w ios_title_id hbc, e]
      · rw [ht, if_neg hbc]
      · rw [ht]
        exact hbc

/-- C21 at a concrete input: booting BC on the example platform constructs the MIOS
kernel. -/
theorem C21_BootIOS_redirects_BC_to_MIOS_witness :
    examplePlatform.MIOS ≠ examplePlatform.BC ∧
    BootIOS exampleConsts exampleBackend examplePlatform (0 + 2) none
        (exampleSys readRecordMem 0) examplePlatform.BC
      = BootIOS exampleConsts exampleBackend examplePlatform (0 + 2) none
        (exampleSys readRecordMem 0) examplePlatform.MIOS :=
  ⟨by decide,
   (C21_BootIOS_redirects_BC_to_MIOS exampleConsts exampleBackend examplePlatform 0 none
      (exampleSys readRecordMem 0) (by decide)).2.1⟩

/-! ## C22 -/

theorem closeOpenDevices_events (B : Backend) (fdmap : Nat → Option Device)
    (slots : List Nat) (w : Sys) :
    (closeOpenDevices B fdmap w slots).events = w.events := by
  induction slots generalizing w with
  | nil => rfl
  | cons i rest ih =>
    unfold closeOpenDevices
    cases fdmap i with
    | none => exact ih w
    | some device =>
      simp only
      rw [ih]
      rfl

/-- C22: when `BootIOS` replaces a running kernel, the enqueue events that were pending for
it are removed by its destructor, and after the call the pending enqueue events are exactly
those the new kernel's construction scheduled: the one boot acknowledgement for address 0
(none when the new title is MIOS, reached directly or through BC); the request, reply and
ack queues of the new kernel are empty. Device operations schedule no events. -/
theorem C22_BootIOS_flushes_pending_events (c : Consts) (B : Backend) (P : Platform)
    (fuel : Nat) (old : Kernel) (w : Sys) (ios_title_id : Nat) (hne : P.MIOS ≠ P.BC) :
    ∃ k w1, BootIOS c B P (fuel + 2) (some old) w ios_title_id
        = some (Except.ok (true, k, w1)) ∧
      w1.events = (if ios_title_id = P.MIOS ∨ ios_title_id = P.BC then []
        else [{ cycles_in_future := 0, userdata := 0 ||| ENQUEUE_ACKNOWLEDGEMENT_FLAG }]) ∧
      k.m_request_queue = [] ∧ k.m_reply_queue = [] ∧ k.m_ack_queue = [] := by
  have hreset : (resetIOS c B (some old) w).events = [] := by
    simp only [resetIOS]
    rw [closeOpenDevices_events]
  have hmios : ∀ n, BootIOS c B P (n + 1) (some old) w P.MIOS
      = some (Except.ok (true, Kernel.new P.MIOS,
          { resetIOS c B (some old) w with
            mem := P.MIOS_Load (SetupMemory P.memory_values P.MIOS
              MemorySetupType.IOSReload (resetIOS c B (some old) w).mem).2 })) := by
    intro n
    rw [BootIOS_of_not_BC c B P n (some old) w P.MIOS hne, EmulationKernel_of_MIOS]
  by_cases hbc : ios_title_id = P.BC
  · subst hbc
    have hstep : BootIOS c B P (fuel + 2) (some old) w P.BC
        = BootIOS c B P (fuel + 1) (some old) w P.MIOS := by
      simp [BootIOS]
    refine ⟨Kernel.new P.MIOS, _, hstep.trans (hmios fuel), ?_, rfl, rfl, rfl⟩
    simp only [or_true, if_true]
    exact hreset
  · by_cases hm : ios_title_id = P.MIOS
    · subst hm
      refine ⟨Kernel.new P.MIOS, _, hmios (fuel + 1), ?_, rfl, rfl, rfl⟩
      simp only [true_or, if_true]
      exact hreset
    · obtain ⟨k, w1, e1, _, _, _, e5, _, _⟩ :=
        EmulationKernel_of_not_MIOS P (resetIOS c B (some old) w) ios_title_id hm
      obtain ⟨q1, q2, q3, _⟩ := EmulationKernel_queues P _ ios_title_id k w1 e1
      refine ⟨k, w1, ?_, ?_, q1, q2, q3⟩
      · rw [BootIOS_of_not_BC c B P (fuel + 1) (some old) w ios_title_id hbc, e1]
      · rw [e5, hreset]
        simp [hm, hbc]

/-- C22 at a concrete input: an event pending for the old kernel is gone after booting
IOS 80; only the boot acknowledgement is pending. -/
theorem C22_BootIOS_flushes_pending_events_witness :
    examplePlatform.MIOS ≠ examplePlatform.BC ∧
    ∃ k w1, BootIOS exampleConsts exampleBackend examplePlatform (0 + 2)
        (some (exampleKernel slotOneBound 0))
        (EnqueueIPCRequest (exampleSys readRecordMem 0) 0x1000) titleIOS80
        = some (Except.ok (true, k, w1)) ∧
      w1.events = (if titleIOS80 = examplePlatform.MIOS ∨ titleIOS80 = examplePlatform.BC
        then []
        else [{ cycles_in_future := 0, userdata := 0 ||| ENQUEUE_ACKNOWLEDGEMENT_FLAG }]) ∧
      k.m_request_queue = [] ∧ k.m_reply_queue = [] ∧ k.m_ack_queue = [] :=
  ⟨by decide,
   C22_BootIOS_flushes_pending_events exampleConsts exampleBackend examplePlatform 0
     (exampleKernel slotOneBound 0) (EnqueueIPCRequest (exampleSys readRecordMem 0) 0x1000)
     titleIOS80 (by decide)⟩

/-! ## C23 -/

theorem lookup_mapAssign (m : List (String × Device)) (name : String) (device : Device)
    (n : String) :
    (mapAssign m name device).lookup n = if n = name then some device else m.lookup n := by
  induction m with
  | nil =>
    by_cases h : n = name
    · simp [mapAssign, List.lookup, h]
    · have hb : (n == name) = false := by simpa using h
      simp [mapAssign, List.lookup, h, hb]
  | cons p rest ih =>
    obtain ⟨pn, pd⟩ := p
    unfold mapAssign
    by_cases hp : pn = name
    · rw [if_pos hp]
      by_cases h : n = name
      · subst h
        subst hp
        simp [List.lookup]
      · have hb : (n == pn) = false := by
          simp only [beq_eq_false_iff_ne, ne_eq]
          exact fun e => h (e.trans hp)
        simp [List.lookup, hb, h]
    · rw [if_neg hp]
      by_cases hb : (n == pn) = true
      · have hn : n = pn := by simpa using hb
        have hne : ¬ n = name := fun e => hp (hn.symm.trans e)
        simp [List.lookup, hb, hne]
      · have hb2 : (n == pn) = false := by simpa using hb
        simp only [List.lookup, hb2]
        exact ih

/-- C23 fails for a duplicate name: `AddDevice` has no check on the name. Registering a
Static device named "/dev/fs" on a kernel whose Registry already holds "/dev/fs" returns
without abort, and the Registry then holds the new device under that name. -/
theorem C23_counterexample_duplicate_name_replaces_entry :
    GetDeviceByName (exampleKernel (fun _ => none) 0) "/dev/fs" = some exampleFS ∧
    ((AddDevice (exampleKernel (fun _ => none) 0)
        { deviceType := DeviceType.Static, name := "/dev/fs", id := 7 }).toOption.map
          (fun k => GetDeviceByName k "/dev/fs"))
      = some (some { deviceType := DeviceType.Static, name := "/dev/fs", id := 7 }) := by
  refine ⟨by decide, by decide⟩

/-- C23, amended: `AddDevice` of a device of the Static type returns without abort whether or
not its name is already present: afterwards the Registry holds the device under its name
(replacing an entry of that name, if there was one) and every entry of another name is
unchanged, as is the descriptor table. The fatal programming error is a device whose type is
not Static: then the assertion fires. -/
theorem C23_AddDevice_inserts_or_replaces (k : Kernel) (device : Device) :
    (device.deviceType = DeviceType.Static →
      ∃ k1, AddDevice k device = Except.ok k1 ∧
        GetDeviceByName k1 device.name = some device ∧
        (∀ n, n ≠ device.name → GetDeviceByName k1 n = GetDeviceByName k n) ∧
        k1.m_fdmap = k.m_fdmap) ∧
    (device.deviceType ≠ DeviceType.Static →
      AddDevice k device = Except.error Fault.Assertion) := by
  constructor
  · intro hs
    refine ⟨{ k with m_device_map := mapAssign k.m_device_map device.name device }, ?_, ?_,
      ?_, rfl⟩
    · simp [AddDevice, hs]
    · simp [GetDeviceByName, lookup_mapAssign]
    · intro n hn
      simp [GetDeviceByName, lookup_mapAssign, hn]
  · intro hs
    simp [AddDevice, hs]

/-- C23 (amended) at a concrete input: a device under the new name "/dev/new". -/
theorem C23_AddDevice_inserts_or_replaces_witness :
    ∃ k1, AddDevice (exampleKernel (fun _ => none) 0)
        { deviceType := DeviceType.Static, name := "/dev/new", id := 7 } = Except.ok k1 ∧
      GetDeviceByName k1 "/dev/new"
        = some { deviceType := DeviceType.Static, name := "/dev/new", id := 7 } ∧
      (∀ n, n ≠ "/dev/new" →
        GetDeviceByName k1 n = GetDeviceByName (exampleKernel (fun _ => none) 0) n) ∧
      k1.m_fdmap = (exampleKernel (fun _ => none) 0).m_fdmap :=
  (C23_AddDevice_inserts_or_replaces (exampleKernel (fun _ => none) 0)
    { deviceType := DeviceType.Static, name := "/dev/new", id := 7 }).1 rfl

/-! ## C27 -/

theorem and_two_pow_ne_zero (x i : Nat) (h : x.testBit i = true) : x &&& 2 ^ i ≠ 0 := by
  intro h0
  have ht : (x &&& 2 ^ i).testBit i = true := by
    rw [Nat.testBit_and, h, Nat.testBit_two_pow_self]
    rfl
  rw [h0] at ht
  simp at ht

theorem and_two_pow_eq_zero (x i : Nat) (h : x.testBit i = false) : x &&& 2 ^ i = 0 := by
  apply Nat.eq_of_testBit_eq
  intro j
  rw [Nat.testBit_and, Nat.testBit_two_pow]
  by_cases hij : i = j
  · subst hij
    simp [h]
  · simp [hij]

theorem mod_or_of_high (a f : Nat) (ha : a < 4294967296)
    (hf : ∀ j, j < 32 → f.testBit j = false) : (a ||| f) % 4294967296 = a := by
  have e : (4294967296 : Nat) = 2 ^ 32 := by norm_num
  rw [e] at ha ⊢
  apply Nat.eq_of_testBit_eq
  intro j
  rw [Nat.testBit_mod_two_pow, Nat.testBit_or]
  by_cases hj : j < 32
  · simp [hj, hf j hj]
  · have hlt : a < 2 ^ j :=
      lt_of_lt_of_le ha (Nat.pow_le_pow_right (by norm_num) (by omega))
    simp [hj, Nat.testBit_lt_two_pow hlt]

theorem testBit_of_lt_u32 (a j : Nat) (ha : a < 4294967296) (hj : 32 ≤ j) :
    a.testBit j = false := by
  have e : (4294967296 : Nat) = 2 ^ 32 := by norm_num
  rw [e] at ha
  exact Nat.testBit_lt_two_pow
    (lt_of_lt_of_le ha (Nat.pow_le_pow_right (by norm_num) hj))

theorem flag_values :
    ENQUEUE_REQUEST_FLAG = 2 ^ 32 ∧ ENQUEUE_ACKNOWLEDGEMENT_FLAG = 2 ^ 33 := by
  constructor <;> norm_num [ENQUEUE_REQUEST_FLAG, ENQUEUE_ACKNOWLEDGEMENT_FLAG]

theorem HandleIPCEvent_of_request (c : Consts) (B : Backend) (ready : Bool) (k : Kernel)
    (w : Sys) (signals : List IPCSignal) (a : Nat) (ha : a < 4294967296) :
    HandleIPCEvent c B ready k w signals (a ||| ENQUEUE_REQUEST_FLAG)
      = UpdateIPC c B ready { k with m_request_queue := k.m_request_queue ++ [a] } w
          signals := by
  obtain ⟨hr, hk⟩ := flag_values
  have h1 : (a ||| ENQUEUE_REQUEST_FLAG) &&& ENQUEUE_ACKNOWLEDGEMENT_FLAG = 0 := by
    rw [hr, hk]
    apply and_two_pow_eq_zero
    rw [Nat.testBit_or, testBit_of_lt_u32 a 33 ha (by omega), Nat.testBit_two_pow]
    simp
  have h2 : (a ||| ENQUEUE_REQUEST_FLAG) &&& ENQUEUE_REQUEST_FLAG ≠ 0 := by
    rw [hr]
    apply and_two_pow_ne_zero
    rw [Nat.testBit_or, Nat.testBit_two_pow_self]
    simp
  have h3 : (a ||| ENQUEUE_REQUEST_FLAG) % 4294967296 = a := by
    apply mod_or_of_high a _ ha
    intro j hj
    rw [hr, Nat.testBit_two_pow]
    simp
    omega
  unfold HandleIPCEvent
  rw [h3]
  simp only [h1, ne_eq, not_true_eq_false, if_false]
  rw [if_pos h2]

theorem HandleIPCEvent_of_ack (c : Consts) (B : Backend) (ready : Bool) (k : Kernel)
    (w : Sys) (signals : List IPCSignal) (a f : Nat) (ha : a < 4294967296)
    (hf : f = ENQUEUE_ACKNOWLEDGEMENT_FLAG
      ∨ f = ENQUEUE_REQUEST_FLAG ||| ENQUEUE_ACKNOWLEDGEMENT_FLAG) :
    HandleIPCEvent c B ready k w signals (a ||| f)
      = UpdateIPC c B ready { k with m_ack_queue := k.m_ack_queue ++ [a] } w signals := by
  obtain ⟨hr, hk⟩ := flag_values
  have hbit : f.testBit 33 = true := by
    rcases hf with h | h
    · rw [h, hk, Nat.testBit_two_pow_self]
    · rw [h, hk, Nat.testBit_or, Nat.testBit_two_pow_self]
      simp
  have hlow : ∀ j, j < 32 → f.testBit j = false := by
    intro j hj
    rcases hf with h | h
    · rw [h, hk, Nat.testBit_two_pow]
      simp
      omega
    · rw [h, hk, hr, Nat.testBit_or, Nat.testBit_two_pow, Nat.testBit_two_pow]
      simp
      omega
  have h1 : (a ||| f) &&& ENQUEUE_ACKNOWLEDGEMENT_FLAG ≠ 0 := by
    rw [hk]
    apply and_two_pow_ne_zero
    rw [Nat.testBit_or, hbit]
    simp
  have h3 : (a ||| f) % 4294967296 = a := mod_or_of_high a f ha hlow
  unfold HandleIPCEvent
  rw [h3, if_pos h1]

theorem HandleIPCEvent_of_reply (c : Consts) (B : Backend) (ready : Bool) (k : Kernel)
    (w : Sys) (signals : List IPCSignal) (a : Nat) (ha : a < 4294967296) :
    HandleIPCEvent c B ready k w signals a
      = UpdateIPC c B ready { k with m_reply_queue := k.m_reply_queue ++ [a] } w signals := by
  obtain ⟨hr, hk⟩ := flag_values
  have h1 : a &&& ENQUEUE_ACKNOWLEDGEMENT_FLAG = 0 := by
    rw [hk]
    exact and_two_pow_eq_zero a 33 (testBit_of_lt_u32 a 33 ha (by omega))
  have h2 : a &&& ENQUEUE_REQUEST_FLAG = 0 := by
    rw [hr]
    exact and_two_pow_eq_zero a 32 (testBit_of_lt_u32 a 32 ha (by omega))
  unfold HandleIPCEvent
  rw [Nat.mod_eq_of_lt ha]
  simp only [h1, h2, ne_eq, not_true_eq_false, if_false]

/-- C27: for a 32-bit command address `a`, the payload that `EnqueueIPCRequest(a)` schedules
is classified by `HandleIPCEvent` as a request, the payload of `EnqueueIPCAcknowledgement(a)`
as an acknowledgement and the payload of `EnqueueIPCReply` for a request at `a` as a reply:
`HandleIPCEvent` appends exactly `a` (no flag bit) at the back of that one queue and then
runs `UpdateIPC`; with the mailbox not ready that is the whole effect. A payload carrying
both flags is classified as an acknowledgement. -/
theorem C27_event_payload_classification (c : Consts) (B : Backend) (ready : Bool)
    (k : Kernel) (w : Sys) (signals : List IPCSignal) (a command fd : Nat)
    (return_value cycles : Int) (ha : a < 4294967296) :
    ((EnqueueIPCRequest w a).events
        = w.events ++ [{ cycles_in_future := 1000, userdata := a ||| ENQUEUE_REQUEST_FLAG }] ∧
      HandleIPCEvent c B ready k w signals (a ||| ENQUEUE_REQUEST_FLAG)
        = UpdateIPC c B ready { k with m_request_queue := k.m_request_queue ++ [a] } w
            signals ∧
      HandleIPCEvent c B false k w signals (a ||| ENQUEUE_REQUEST_FLAG)
        = Except.ok ({ k with m_request_queue := k.m_request_queue ++ [a] }, w, signals)) ∧
    ((EnqueueIPCAcknowledgement w a cycles).events
        = w.events ++ [{ cycles_in_future := cycles,
                         userdata := a ||| ENQUEUE_ACKNOWLEDGEMENT_FLAG }] ∧
      HandleIPCEvent c B ready k w signals (a ||| ENQUEUE_ACKNOWLEDGEMENT_FLAG)
        = UpdateIPC c B ready { k with m_ack_queue := k.m_ack_queue ++ [a] } w signals ∧
      HandleIPCEvent c B false k w signals (a ||| ENQUEUE_ACKNOWLEDGEMENT_FLAG)
        = Except.ok ({ k with m_ack_queue := k.m_ack_queue ++ [a] }, w, signals)) ∧
    ((EnqueueIPCReply c w ⟨a, command, fd⟩ return_value cycles).events
        = w.events ++ [{ cycles_in_future := cycles, userdata := a }] ∧
      HandleIPCEvent c B ready k w signals a
        = UpdateIPC c B ready { k with m_reply_queue := k.m_reply_queue ++ [a] } w
            signals ∧
      HandleIPCEvent c B false k w signals a
        = Except.ok ({ k with m_reply_queue := k.m_reply_queue ++ [a] }, w, signals)) ∧
    HandleIPCEvent c B ready k w signals
        (a ||| (ENQUEUE_REQUEST_FLAG ||| ENQUEUE_ACKNOWLEDGEMENT_FLAG))
      = UpdateIPC c B ready { k with m_ack_queue := k.m_ack_queue ++ [a] } w signals := by
  refine ⟨⟨rfl, HandleIPCEvent_of_request c B ready k w signals a ha, ?_⟩,
    ⟨rfl, HandleIPCEvent_of_ack c B ready k w signals a _ ha (Or.inl rfl), ?_⟩,
    ⟨rfl, HandleIPCEvent_of_reply c B ready k w signals a ha, ?_⟩,
    HandleIPCEvent_of_ack c B ready k w signals a _ ha (Or.inr rfl)⟩
  · rw [HandleIPCEvent_of_request c B false k w signals a ha]
    simp [UpdateIPC]
  · rw [HandleIPCEvent_of_ack c B false k w signals a _ ha (Or.inl rfl)]
    simp [UpdateIPC]
  · rw [HandleIPCEvent_of_reply c B false k w signals a ha]
    simp [UpdateIPC]

/-- C27 at a concrete input: the request payload for the address 0x1000, with the mailbox
not ready, lands at the back of the request queue. -/
theorem C27_event_payload_classification_witness :
    HandleIPCEvent exampleConsts exampleBackend false queuedKernel
        (exampleSys readRecordMem 0) [] (0x1000 ||| ENQUEUE_REQUEST_FLAG)
      = Except.ok ({ queuedKernel with
                     m_request_queue := queuedKernel.m_request_queue ++ [0x1000] },
          exampleSys readRecordMem 0, []) :=
  (C27_event_payload_classification exampleConsts exampleBackend false queuedKernel
    (exampleSys readRecordMem 0) [] 0x1000 3 1 0 0 (by decide)).1.2.2

/-! ## C29 -/

/-- C29: for a dispatch that requires a reply (clock, `last_reply_time` and the device's delay
below 2^62), with the effective delay `d + max(0, last_reply_time - t)`: the delay handed to
the scheduler is the effective delay narrowed to a signed 32-bit `int` (its value modulo 2^32
read as signed), `last_reply_time` becomes the current tick plus the un-narrowed effective
delay, and when the effective delay is below 2^31 the event is scheduled to fire at exactly
the new `last_reply_time`. -/
theorem C29_scheduler_delay_is_narrowed (c : Consts) (B : Backend) (k : Kernel) (w : Sys)
    (address : Nat) (result : IPCCommandResult) (k1 : Kernel) (w1 : Sys)
    (h : HandleIPCCommand c B k w (Request.decode w.mem address) = Except.ok (result, k1, w1))
    (hsend : result.send_reply = true)
    (hL : k.m_last_reply_time < 4611686018427387904)
    (ht : w.ticks < 4611686018427387904)
    (hd : result.reply_delay_ticks < 4611686018427387904) :
    ∃ (k2 : Kernel) (w2 : Sys) (e : ScheduledEvent),
      ExecuteIPCCommand c B k w address = Except.ok (k2, w2) ∧
      w2.events = w.events ++ [e] ∧ e.userdata = address ∧
      e.cycles_in_future
        = (if (result.reply_delay_ticks + (k.m_last_reply_time - w.ticks)) % 4294967296
              < 2147483648
           then (((result.reply_delay_ticks + (k.m_last_reply_time - w.ticks)) % 4294967296
              : Nat) : Int)
           else (((result.reply_delay_ticks + (k.m_last_reply_time - w.ticks)) % 4294967296
              : Nat) : Int) - 4294967296) ∧
      k2.m_last_reply_time
        = w.ticks + (result.reply_delay_ticks + (k.m_last_reply_time - w.ticks)) ∧
      (result.reply_delay_ticks + (k.m_last_reply_time - w.ticks) < 2147483648 →
        (w.ticks : Int) + e.cycles_in_future = ((k2.m_last_reply_time : Nat) : Int)) := by
  obtain ⟨f1, f2, f3⟩ := HandleIPCCommand_frame c B k w _ result k1 w1 h
  have he := effectiveDelay_eq k.m_last_reply_time w.ticks result.reply_delay_ticks hL ht hd
  refine ⟨_, _,
    ScheduledEvent.mk (toS32 (result.reply_delay_ticks + (k.m_last_reply_time - w.ticks)))
      address,
    ExecuteIPCCommand_of_reply c B k w address result k1 w1 h hsend, ?_, rfl, rfl, ?_, ?_⟩
  · simp only [f1, f2, f3, he, EnqueueIPCReply, Request.decode]
  · simp only [f1, f2, he]
    omega
  · intro hlt
    simp only [f1, f2, he, toS32_of_lt hlt]
    omega

/-- C29 at a concrete input: `t = 100`, `L = 105`, `d = 10`: the delay 15 is scheduled and the
event fires at 115, the new `last_reply_time`. -/
theorem C29_scheduler_delay_is_narrowed_witness :
    ∃ (k2 : Kernel) (w2 : Sys) (e : ScheduledEvent),
      ExecuteIPCCommand exampleConsts exampleBackend (exampleKernel slotOneBound 105)
        (exampleSys readRecordMem 100) 0x1000 = Except.ok (k2, w2) ∧
      w2.events = [] ++ [e] ∧ e.userdata = 0x1000 ∧
      e.cycles_in_future
        = (if (10 + (105 - 100)) % 4294967296 < 2147483648
           then (((10 + (105 - 100)) % 4294967296 : Nat) : Int)
           else (((10 + (105 - 100)) % 4294967296 : Nat) : Int) - 4294967296) ∧
      k2.m_last_reply_time = 100 + (10 + (105 - 100)) ∧
      (10 + (105 - 100) < 2147483648 →
        ((100 : Nat) : Int) + e.cycles_in_future = ((k2.m_last_reply_time : Nat) : Int)) :=
  C29_scheduler_delay_is_narrowed exampleConsts exampleBackend (exampleKernel slotOneBound 105)
    (exampleSys readRecordMem 100) 0x1000
    { return_value := 7, send_reply := true, reply_delay_ticks := 10 }
    (exampleKernel slotOneBound 105)
    ((exampleSys readRecordMem 100).afterCall (DevCall.Read exampleFS 0x1000) readRecordMem)
    rfl rfl (by decide) (by decide) (by decide)

/-! ## C28 -/

theorem holdsWord_Write_U32_same (v a : Nat) (m : Mem) : holdsWord (Write_U32 v a m) a v := by
  have e1 : a + 1 ≠ a + 3 := by omega
  have e2 : a + 1 ≠ a + 2 := by omega
  have e3 : a + 2 ≠ a + 3 := by omega
  have e4 : a ≠ a + 3 := by omega
  have e5 : a ≠ a + 2 := by omega
  have e6 : a ≠ a + 1 := by omega
  simp [holdsWord, Write_U32, Write_U8, e1, e2, e3, e4, e5, e6]

theorem holdsWord_Write_U32_disjoint (u b v a : Nat) (m : Mem) (h : b + 4 ≤ a ∨ a + 4 ≤ b) :
    holdsWord (Write_U32 u b m) a v ↔ holdsWord m a v := by
  simp only [holdsWord]
  rw [Write_U32_outside u b m a (by omega), Write_U32_outside u b m (a + 1) (by omega),
    Write_U32_outside u b m (a + 2) (by omega), Write_U32_outside u b m (a + 3) (by omega)]

theorem holdsWord_Write_U8_disjoint (u b v a : Nat) (m : Mem) (h : b < a ∨ a + 4 ≤ b) :
    holdsWord (Write_U8 u b m) a v ↔ holdsWord m a v := by
  simp only [holdsWord]
  rw [Write_U8_outside u b m a (by omega), Write_U8_outside u b m (a + 1) (by omega),
    Write_U8_outside u b m (a + 2) (by omega), Write_U8_outside u b m (a + 3) (by omega)]

theorem holdsWord_Write_U16_disjoint (u b v a : Nat) (m : Mem) (h : b + 2 ≤ a ∨ a + 4 ≤ b) :
    holdsWord (Write_U16 u b m) a v ↔ holdsWord m a v := by
  simp only [holdsWord]
  rw [Write_U16_outside u b m a (by omega), Write_U16_outside u b m (a + 1) (by omega),
    Write_U16_outside u b m (a + 2) (by omega), Write_U16_outside u b m (a + 3) (by omega)]

theorem holdsByte_Write_U8_same (v a : Nat) (m : Mem) : holdsByte (Write_U8 v a m) a v := by
  simp [holdsByte, Write_U8]

theorem holdsByte_Write_U8_disjoint (u b v a : Nat) (m : Mem) (h : a ≠ b) :
    holdsByte (Write_U8 u b m) a v ↔ holdsByte m a v := by
  simp only [holdsByte]
  rw [Write_U8_outside u b m a h]

theorem holdsByte_Write_U16_disjoint (u b v a : Nat) (m : Mem) (h : a < b ∨ b + 2 ≤ a) :
    holdsByte (Write_U16 u b m) a v ↔ holdsByte m a v := by
  simp only [holdsByte]
  rw [Write_U16_outside u b m a h]

theorem holdsByte_Write_U32_disjoint (u b v a : Nat) (m : Mem) (h : a < b ∨ b + 4 ≤ a) :
    holdsByte (Write_U32 u b m) a v ↔ holdsByte m a v := by
  simp only [holdsByte]
  rw [Write_U32_outside u b m a h]

theorem holdsHalf_Write_U16_same (v a : Nat) (m : Mem) : holdsHalf (Write_U16 v a m) a v := by
  have e : a ≠ a + 1 := by omega
  simp [holdsHalf, Write_U16, Write_U8, e]

theorem holdsHalf_Write_U32_disjoint (u b v a : Nat) (m : Mem) (h : a + 2 ≤ b ∨ b + 4 ≤ a) :
    holdsHalf (Write_U32 u b m) a v ↔ holdsHalf m a v := by
  simp only [holdsHalf]
  rw [Write_U32_outside u b m a (by omega), Write_U32_outside u b m (a + 1) (by omega)]

theorem Write_U8_of_holds (v a : Nat) (m : Mem) (h : holdsByte m a v) : Write_U8 v a m = m := by
  funext x
  unfold Write_U8
  by_cases hx : x = a
  · rw [if_pos hx, hx]
    exact h.symm
  · rw [if_neg hx]

theorem Write_U16_of_holds (v a : Nat) (m : Mem) (h : holdsHalf m a v) :
    Write_U16 v a m = m := by
  obtain ⟨h0, h1⟩ := h
  unfold Write_U16
  rw [Write_U8_of_holds (v / 256) a m h0, Write_U8_of_holds v (a + 1) m h1]

theorem Write_U32_of_holds (v a : Nat) (m : Mem) (h : holdsWord m a v) :
    Write_U32 v a m = m := by
  obtain ⟨h0, h1, h2, h3⟩ := h
  unfold Write_U32
  rw [Write_U8_of_holds (v / 16777216) a m h0, Write_U8_of_holds (v / 65536) (a + 1) m h1,
    Write_U8_of_holds (v / 256) (a + 2) m h2, Write_U8_of_holds v (a + 3) m h3]

theorem SetupMemory.full_holds (imv : MemoryValues) (mem : Mem) :
    (holdsWord (SetupMemory.full imv mem) 0x3100 imv.mem1_physical_size ∧
     holdsWord (SetupMemory.full imv mem) 0x3104 imv.mem1_simulated_size ∧
     holdsWord (SetupMemory.full imv mem) 0x3108 imv.mem1_end ∧
     holdsWord (SetupMemory.full imv mem) 0x310c imv.mem1_arena_begin ∧
     holdsWord (SetupMemory.full imv mem) 0x3110 imv.mem1_arena_end ∧
     holdsWord (SetupMemory.full imv mem) 0x3114 PLACEHOLDER ∧
     holdsWord (SetupMemory.full imv mem) 0x3118 imv.mem2_physical_size ∧
     holdsWord (SetupMemory.full imv mem) 0x311c imv.mem2_simulated_size ∧
     holdsWord (SetupMemory.full imv mem) 0x3120 imv.mem2_end) ∧
    (holdsWord (SetupMemory.full imv mem) 0x3124 imv.mem2_arena_begin ∧
     holdsWord (SetupMemory.full imv mem) 0x3128 imv.mem2_arena_end ∧
     holdsWord (SetupMemory.full imv mem) 0x312c PLACEHOLDER ∧
     holdsWord (SetupMemory.full imv mem) 0x3130 imv.ipc_buffer_begin ∧
     holdsWord (SetupMemory.full imv mem) 0x3134 imv.ipc_buffer_end ∧
     holdsWord (SetupMemory.full imv mem) 0x3138 imv.hollywood_revision ∧
     holdsWord (SetupMemory.full imv mem) 0x313c PLACEHOLDER ∧
     holdsWord (SetupMemory.full imv mem) 0x3140 imv.ios_version ∧
     holdsWord (SetupMemory.full imv mem) 0x3144 imv.ios_date) ∧
    (holdsWord (SetupMemory.full imv mem) 0x3148 imv.unknown_begin ∧
     holdsWord (SetupMemory.full imv mem) 0x314c imv.unknown_end ∧
     holdsWord (SetupMemory.full imv mem) 0x3150 PLACEHOLDER ∧
     holdsWord (SetupMemory.full imv mem) 0x3154 PLACEHOLDER ∧
     holdsWord (SetupMemory.full imv mem) 0x3158 imv.ram_vendor ∧
     holdsByte (SetupMemory.full imv mem) 0x315c 0xDE ∧
     holdsByte (SetupMemory.full imv mem) 0x315d 0xAD ∧
     holdsHalf (SetupMemory.full imv mem) 0x315e 0xBEEF ∧
     holdsWord (SetupMemory.full imv mem) 0x3160 imv.sysmenu_sync) := by
  simp only [SetupMemory.full, ADDR_MEM1_SIZE, ADDR_MEM1_SIM_SIZE, ADDR_MEM1_END,
    ADDR_MEM1_ARENA_BEGIN, ADDR_MEM1_ARENA_END, ADDR_PH1, ADDR_MEM2_SIZE, ADDR_MEM2_SIM_SIZE,
    ADDR_MEM2_END, ADDR_MEM2_ARENA_BEGIN, ADDR_MEM2_ARENA_END, ADDR_PH2,
    ADDR_IPC_BUFFER_BEGIN, ADDR_IPC_BUFFER_END, ADDR_HOLLYWOOD_REVISION, ADDR_PH3,
    ADDR_IOS_VERSION, ADDR_IOS_DATE, ADDR_UNKNOWN_BEGIN, ADDR_UNKNOWN_END, ADDR_PH4, ADDR_PH5,
    ADDR_RAM_VENDOR, ADDR_BOOT_FLAG, ADDR_APPLOADER_FLAG, ADDR_DEVKIT_BOOT_PROGRAM_VERSION,
    ADDR_SYSMENU_SYNC]
  refine ⟨⟨?_, ?_, ?_, ?_, ?_, ?_, ?_, ?_, ?_⟩, ⟨?_, ?_, ?_, ?_, ?_, ?_, ?_, ?_, ?_⟩,
    ⟨?_, ?_, ?_, ?_, ?_, ?_, ?_, ?_, ?_⟩⟩ <;>
    simp (disch := omega) only [holdsWord_Write_U32_same, holdsWord_Write_U32_disjoint,
      holdsWord_Write_U8_disjoint, holdsWord_Write_U16_disjoint, holdsByte_Write_U8_same,
      holdsByte_Write_U8_disjoint, holdsByte_Write_U16_disjoint, holdsByte_Write_U32_disjoint,
      holdsHalf_Write_U16_same, holdsHalf_Write_U32_disjoint]

theorem SetupMemory.full_idempotent (imv : MemoryValues) (mem : Mem) :
    SetupMemory.full imv (SetupMemory.full imv mem) = SetupMemory.full imv mem := by
  obtain ⟨⟨a1, a2, a3, a4, a5, a6, a7, a8, a9⟩, ⟨b1, b2, b3, b4, b5, b6, b7, b8, b9⟩,
    ⟨c1, c2, c3, c4, c5, c6, c7, c8, c9⟩⟩ := SetupMemory.full_holds imv mem
  generalize SetupMemory.full imv mem = M at *
  simp only [SetupMemory.full, ADDR_MEM1_SIZE, ADDR_MEM1_SIM_SIZE, ADDR_MEM1_END,
    ADDR_MEM1_ARENA_BEGIN, ADDR_MEM1_ARENA_END, ADDR_PH1, ADDR_MEM2_SIZE, ADDR_MEM2_SIM_SIZE,
    ADDR_MEM2_END, ADDR_MEM2_ARENA_BEGIN, ADDR_MEM2_ARENA_END, ADDR_PH2,
    ADDR_IPC_BUFFER_BEGIN, ADDR_IPC_BUFFER_END, ADDR_HOLLYWOOD_REVISION, ADDR_PH3,
    ADDR_IOS_VERSION, ADDR_IOS_DATE, ADDR_UNKNOWN_BEGIN, ADDR_UNKNOWN_END, ADDR_PH4, ADDR_PH5,
    ADDR_RAM_VENDOR, ADDR_BOOT_FLAG, ADDR_APPLOADER_FLAG, ADDR_DEVKIT_BOOT_PROGRAM_VERSION,
    ADDR_SYSMENU_SYNC]
  rw [Write_U32_of_holds _ _ M a1, Write_U32_of_holds _ _ M a2, Write_U32_of_holds _ _ M a3,
    Write_U32_of_holds _ _ M a4, Write_U32_of_holds _ _ M a5, Write_U32_of_holds _ _ M a6,
    Write_U32_of_holds _ _ M a7, Write_U32_of_holds _ _ M a8, Write_U32_of_holds _ _ M a9,
    Write_U32_of_holds _ _ M b1, Write_U32_of_holds _ _ M b2, Write_U32_of_holds _ _ M b3,
    Write_U32_of_holds _ _ M b4, Write_U32_of_holds _ _ M b5, Write_U32_of_holds _ _ M b6,
    Write_U32_of_holds _ _ M b7, Write_U32_of_holds _ _ M b8, Write_U32_of_holds _ _ M b9,
    Write_U32_of_holds _ _ M c1, Write_U32_of_holds _ _ M c2, Write_U32_of_holds _ _ M c3,
    Write_U32_of_holds _ _ M c4, Write_U32_of_holds _ _ M c5, Write_U8_of_holds _ _ M c6,
    Write_U8_of_holds _ _ M c7, Write_U16_of_holds _ _ M c8, Write_U32_of_holds _ _ M c9]

theorem SetupMemory.reload_after_full (imv : MemoryValues) (mem : Mem) :
    SetupMemory.reload imv (SetupMemory.full imv mem) = SetupMemory.full imv mem := by
  obtain ⟨⟨_, _, _, _, _, _, a7, a8, a9⟩, ⟨b1, b2, _, b4, b5, _, _, b8, _⟩,
    ⟨c1, c2, _, _, _, _, _, _, _⟩⟩ := SetupMemory.full_holds imv mem
  generalize SetupMemory.full imv mem = M at *
  simp only [SetupMemory.reload, ADDR_MEM2_SIZE, ADDR_MEM2_SIM_SIZE, ADDR_MEM2_END,
    ADDR_MEM2_ARENA_BEGIN, ADDR_MEM2_ARENA_END, ADDR_IPC_BUFFER_BEGIN, ADDR_IPC_BUFFER_END,
    ADDR_IOS_VERSION, ADDR_UNKNOWN_BEGIN, ADDR_UNKNOWN_END]
  rw [Write_U32_of_holds _ _ M b8, Write_U32_of_holds _ _ M a7, Write_U32_of_holds _ _ M a8,
    Write_U32_of_holds _ _ M a9, Write_U32_of_holds _ _ M b1, Write_U32_of_holds _ _ M b2,
    Write_U32_of_holds _ _ M b4, Write_U32_of_holds _ _ M b5, Write_U32_of_holds _ _ M c1,
    Write_U32_of_holds _ _ M c2]

/-- C28: for a known version and any initial guest memory, `SetupMemory` in the mode
IOSReload applied right after `SetupMemory` in the mode Full for the same title id returns
true and leaves memory equal to the result of Full alone, and Full applied twice equals Full
applied once: after Full, memory already holds at each of the ten reload addresses the word
that Reload writes there. -/
theorem C28_reload_after_full_is_identity (table : List MemoryValues) (ios_title_id : Nat)
    (mem : Mem) (imv : MemoryValues)
    (hknown : findMemoryValues table ios_title_id = some imv) :
    SetupMemory table ios_title_id MemorySetupType.IOSReload
        (SetupMemory table ios_title_id MemorySetupType.Full mem).2
      = (true, (SetupMemory table ios_title_id MemorySetupType.Full mem).2) ∧
    SetupMemory table ios_title_id MemorySetupType.Full
        (SetupMemory table ios_title_id MemorySetupType.Full mem).2
      = (true, (SetupMemory table ios_title_id MemorySetupType.Full mem).2) ∧
    (holdsWord (SetupMemory table ios_title_id MemorySetupType.Full mem).2 0x3140
        imv.ios_version ∧
     holdsWord (SetupMemory table ios_title_id MemorySetupType.Full mem).2 0x3118
        imv.mem2_physical_size ∧
     holdsWord (SetupMemory table ios_title_id MemorySetupType.Full mem).2 0x311c
        imv.mem2_simulated_size ∧
     holdsWord (SetupMemory table ios_title_id MemorySetupType.Full mem).2 0x3120
        imv.mem2_end ∧
     holdsWord (SetupMemory table ios_title_id MemorySetupType.Full mem).2 0x3124
        imv.mem2_arena_begin ∧
     holdsWord (SetupMemory table ios_title_id MemorySetupType.Full mem).2 0x3128
        imv.mem2_arena_end ∧
     holdsWord (SetupMemory table ios_title_id MemorySetupType.Full mem).2 0x3130
        imv.ipc_buffer_begin ∧
     holdsWord (SetupMemory table ios_title_id MemorySetupType.Full mem).2 0x3134
        imv.ipc_buffer_end ∧
     holdsWord (SetupMemory table ios_title_id MemorySetupType.Full mem).2 0x3148
        imv.unknown_begin ∧
     holdsWord (SetupMemory table ios_title_id MemorySetupType.Full mem).2 0x314c
        imv.unknown_end) := by
  obtain ⟨⟨_, _, _, _, _, _, a7, a8, a9⟩, ⟨b1, b2, _, b4, b5, _, _, b8, _⟩,
    ⟨c1, c2, _, _, _, _, _, _, _⟩⟩ := SetupMemory.full_holds imv mem
  simp only [SetupMemory, hknown, SetupMemory.reload_after_full,
    SetupMemory.full_idempotent]
  exact ⟨trivial, trivial, b8, a7, a8, a9, b1, b2, b4, b5, c1, c2⟩

/-- C28 at a concrete input: IOS 80 on the example table. -/
theorem C28_reload_after_full_is_identity_witness :
    findMemoryValues exampleTable titleIOS80 = some exampleValues ∧
    SetupMemory exampleTable titleIOS80 MemorySetupType.IOSReload
        (SetupMemory exampleTable titleIOS80 MemorySetupType.Full readRecordMem).2
      = (true, (SetupMemory exampleTable titleIOS80 MemorySetupType.Full readRecordMem).2) :=
  ⟨by decide,
   (C28_reload_after_full_is_identity exampleTable titleIOS80 readRecordMem exampleValues
      (by decide)).1⟩

/-! ## Save states: what a snapshot writes and what a restore reads -/

theorem DoState.devices_write (es : List (String × Device)) :
    ∀ its : List Item,
      DoState.devices es { mode := PointerWrap.Mode.MODE_WRITE, items := its }
        = some { mode := PointerWrap.Mode.MODE_WRITE,
                 items := its ++ es.map (fun entry => Item.DeviceState entry.2.name) } := by
  induction es with
  | nil => intro its; simp [DoState.devices]
  | cons e rest ih =>
    intro its
    simp only [DoState.devices, Device.DoState, PointerWrap.Do]
    rw [ih]
    simp

theorem DoState.devices_read (es : List (String × Device)) :
    ∀ (names : List String) (rest : List Item), names.length = es.length →
      DoState.devices es
          { mode := PointerWrap.Mode.MODE_READ,
            items := names.map Item.DeviceState ++ rest }
        = some { mode := PointerWrap.Mode.MODE_READ, items := rest } := by
  induction es with
  | nil =>
    intro names rest h
    have : names = [] := List.length_eq_zero.mp h
    subst this
    simp [DoState.devices]
  | cons e es ih =>
    intro names rest h
    cases names with
    | nil => simp at h
    | cons n names =>
      simp only [List.map_cons, List.cons_append, DoState.devices, Device.DoState,
        PointerWrap.Do]
      exact ih names rest (by simpa using h)

theorem descriptorRecord_none : descriptorRecord none = [Item.U32 0] := rfl

theorem descriptorRecord_some (device : Device) :
    descriptorRecord (some device)
      = [Item.U32 1, Item.DevType device.deviceType,
         if device.deviceType = DeviceType.Static then Item.Str device.name
         else Item.DeviceState device.name] := rfl

theorem DoState.writeDescriptors_write (fdmap : Nat → Option Device) (slots : List Nat) :
    ∀ its : List Item,
      DoState.writeDescriptors fdmap slots
          { mode := PointerWrap.Mode.MODE_WRITE, items := its }
        = some { mode := PointerWrap.Mode.MODE_WRITE,
                 items := its ++ slots.flatMap (fun i => descriptorRecord (fdmap i)) } := by
  induction slots with
  | nil => intro its; simp [DoState.writeDescriptors]
  | cons i slots ih =>
    intro its
    cases hd : fdmap i with
    | none =>
      simp only [DoState.writeDescriptors, PointerWrap.DoU32, PointerWrap.Do, hd,
        Option.isSome_none, Bool.false_eq_true, if_false, if_true, List.flatMap_cons,
        descriptorRecord_none]
      rw [ih]
      simp
    | some d =>
      by_cases ht : d.deviceType = DeviceType.Static
      · simp only [DoState.writeDescriptors, PointerWrap.DoU32, PointerWrap.Do, hd,
          Option.isSome_some, if_true, one_ne_zero, if_false, PointerWrap.DoDevType, ht,
          PointerWrap.DoStr, List.flatMap_cons, descriptorRecord_some]
        rw [ih]
        simp
      · simp only [DoState.writeDescriptors, PointerWrap.DoU32, PointerWrap.Do, hd,
          Option.isSome_some, if_true, one_ne_zero, if_false, PointerWrap.DoDevType, ht,
          Device.DoState, List.flatMap_cons, descriptorRecord_some]
        rw [ih]
        simp

theorem DoState_write (c : Consts) (P : Platform) (k : Kernel) (w : Sys) (its : List Item)
    (h : k.m_title_id ≠ P.MIOS) :
    DoState c P k w { mode := PointerWrap.Mode.MODE_WRITE, items := its }
      = some (k, w, { mode := PointerWrap.Mode.MODE_WRITE,
                      items := its ++ savedLayout c k }) := by
  simp only [DoState, PointerWrap.DoQueue, PointerWrap.DoU64, PointerWrap.DoU32,
    PointerWrap.DoU16, PointerWrap.DoIOSC, PointerWrap.Do, if_neg h,
    DoState.devices_write, DoState.writeDescriptors_write]
  simp [savedLayout, stateHeader]

theorem DoState_write_MIOS (c : Consts) (P : Platform) (k : Kernel) (w : Sys)
    (its : List Item) (h : k.m_title_id = P.MIOS) :
    DoState c P k w { mode := PointerWrap.Mode.MODE_WRITE, items := its }
      = some (k, w, { mode := PointerWrap.Mode.MODE_WRITE,
                      items := its ++ stateHeader k.m_request_queue k.m_reply_queue
                        k.m_last_reply_time k.m_title_id k.m_ppc_uid k.m_ppc_gid }) := by
  simp only [DoState, PointerWrap.DoQueue, PointerWrap.DoU64, PointerWrap.DoU32,
    PointerWrap.DoU16, PointerWrap.DoIOSC, PointerWrap.Do, if_pos h]
  simp [stateHeader]

theorem DoState.readDescriptors_records (records : Nat → Option Device) (n : Nat) :
    ∀ (s : Nat) (k : Kernel) (w : Sys) (tail : List Item),
      ∃ k2 w2,
        DoState.readDescriptors (List.range' s n) k w
            { mode := PointerWrap.Mode.MODE_READ,
              items := (List.range' s n).flatMap (fun i => descriptorRecord (records i))
                ++ tail }
          = some (k2, w2, { mode := PointerWrap.Mode.MODE_READ, items := tail }) ∧
        k2 = { k with m_fdmap := k2.m_fdmap } ∧
        (∀ i, (i < s ∨ s + n ≤ i) → k2.m_fdmap i = k.m_fdmap i) ∧
        (∀ i, s ≤ i → i < s + n →
          (records i = none → k2.m_fdmap i = k.m_fdmap i) ∧
          (∀ d, records i = some d → d.deviceType = DeviceType.Static →
            k2.m_fdmap i = GetDeviceByName k d.name) ∧
          (∀ d, records i = some d → d.deviceType ≠ DeviceType.Static →
            ∃ d2, k2.m_fdmap i = some d2 ∧ d2.deviceType = d.deviceType ∧
              d2.name = d.name)) := by
  induction n with
  | zero =>
    intro s k w tail
    refine ⟨k, w, by simp [DoState.readDescriptors], rfl, fun _ _ => rfl, ?_⟩
    intro i h1 h2
    omega
  | succ n ih =>
    intro s k w tail
    rw [List.range'_succ, List.flatMap_cons, List.append_assoc]
    cases hr : records s with
    | none =>
      obtain ⟨k2, w2, e1, e2, e3, e4⟩ := ih (s + 1) k w tail
      refine ⟨k2, w2, ?_, e2, fun i hi => e3 i (by omega), ?_⟩
      · simp only [descriptorRecord_none, List.cons_append, List.nil_append,
          DoState.readDescriptors, PointerWrap.DoU32, PointerWrap.Do, if_true]
        exact e1
      · intro i h1 h2
        by_cases hi : i = s
        · subst hi
          refine ⟨fun _ => e3 i (by omega), ?_, ?_⟩
          · intro d hd
            rw [hr] at hd
            cases hd
          · intro d hd
            rw [hr] at hd
            cases hd
        · exact e4 i (by omega) (by omega)
    | some d =>
      obtain ⟨ty, nm, id⟩ := d
      cases ty with
      | Static =>
        obtain ⟨k2, w2, e1, e2, e3, e4⟩ := ih (s + 1)
          { k with m_fdmap := Function.update k.m_fdmap s (GetDeviceByName k nm) } w tail
        refine ⟨k2, w2, ?_, ?_, ?_, ?_⟩
        · simp only [descriptorRecord_some, if_true, List.cons_append, List.nil_append,
            DoState.readDescriptors, PointerWrap.DoU32, PointerWrap.Do, one_ne_zero,
            if_false, PointerWrap.DoDevType, PointerWrap.DoStr]
          exact e1
        · rw [e2]
        · intro i hi
          rw [e3 i (by omega)]
          exact Function.update_noteq (by omega) _ _
        · intro i h1 h2
          by_cases hi : i = s
          · subst hi
            have hv : k2.m_fdmap i = GetDeviceByName k nm := by
              rw [e3 i (by omega)]
              exact Function.update_same _ _ _
            refine ⟨fun h => ?_, ?_, ?_⟩
            · rw [hr] at h
              cases h
            · intro d hd _
              rw [hr] at hd
              cases hd
              exact hv
            · intro d hd hne
              rw [hr] at hd
              cases hd
              exact absurd rfl hne
          · obtain ⟨a1, a2, a3⟩ := e4 i (by omega) (by omega)
            refine ⟨fun h => ?_, a2, a3⟩
            rw [a1 h]
            exact Function.update_noteq hi _ _
      | FileIO =>
        obtain ⟨k2, w2, e1, e2, e3, e4⟩ := ih (s + 1)
          { k with
            m_fdmap :=
              Function.update k.m_fdmap s
                (some { (makeFileIODevice w "").1 with name := nm }) }
          (makeFileIODevice w "").2 tail
        refine ⟨k2, w2, ?_, ?_, ?_, ?_⟩
        · simp only [descriptorRecord_some, List.cons_append, List.nil_append,
            DoState.readDescriptors, PointerWrap.DoU32, PointerWrap.Do, one_ne_zero,
            if_false, PointerWrap.DoDevType, Device.DoState, reduceCtorEq]
          exact e1
        · rw [e2]
        · intro i hi
          rw [e3 i (by omega)]
          exact Function.update_noteq (by omega) _ _
        · intro i h1 h2
          by_cases hi : i = s
          · subst hi
            have hv : k2.m_fdmap i = some { (makeFileIODevice w "").1 with name := nm } := by
              rw [e3 i (by omega)]
              exact Function.update_same _ _ _
            refine ⟨fun h => ?_, ?_, ?_⟩
            · rw [hr] at h
              cases h
            · intro d hd hst
              rw [hr] at hd
              cases hd
              cases hst
            · intro d hd _
              rw [hr] at hd
              cases hd
              exact ⟨_, hv, rfl, rfl⟩
          · obtain ⟨a1, a2, a3⟩ := e4 i (by omega) (by omega)
            refine ⟨fun h => ?_, a2, a3⟩
            rw [a1 h]
            exact Function.update_noteq hi _ _
      | OH0 =>
        obtain ⟨k2, w2, e1, e2, e3, e4⟩ := ih (s + 1)
          { k with
            m_fdmap :=
              Function.update k.m_fdmap s
                (some { (makeOH0Device w "").1 with name := nm }) }
          (makeOH0Device w "").2 tail
        refine ⟨k2, w2, ?_, ?_, ?_, ?_⟩
        · simp only [descriptorRecord_some, List.cons_append, List.nil_append,
            DoState.readDescriptors, PointerWrap.DoU32, PointerWrap.Do, one_ne_zero,
            if_false, PointerWrap.DoDevType, Device.DoState, reduceCtorEq]
          exact e1
        · rw [e2]
        · intro i hi
          rw [e3 i (by omega)]
          exact Function.update_noteq (by omega) _ _
        · intro i h1 h2
          by_cases hi : i = s
          · subst hi
            have hv : k2.m_fdmap i = some { (makeOH0Device w "").1 with name := nm } := by
              rw [e3 i (by omega)]
              exact Function.update_same _ _ _
            refine ⟨fun h => ?_, ?_, ?_⟩
            · rw [hr] at h
              cases h
            · intro d hd hst
              rw [hr] at hd
              cases hd
              cases hst
            · intro d hd _
              rw [hr] at hd
              cases hd
              exact ⟨_, hv, rfl, rfl⟩
          · obtain ⟨a1, a2, a3⟩ := e4 i (by omega) (by omega)
            refine ⟨fun h => ?_, a2, a3⟩
            rw [a1 h]
            exact Function.update_noteq hi _ _

theorem DoState_read (c : Consts) (P : Platform) (k : Kernel) (w : Sys)
    (request_queue reply_queue : List Nat) (last_reply_time title_id uid gid : Nat)
    (names : List String) (rest : List Item)
    (hnames : names.length = k.m_device_map.length) (h : title_id ≠ P.MIOS) :
    DoState c P k w
        { mode := PointerWrap.Mode.MODE_READ,
          items := stateHeader request_queue reply_queue last_reply_time title_id uid gid
            ++ names.map Item.DeviceState ++ rest }
      = DoState.readDescriptors (List.range c.IPC_MAX_FDS)
          { k with m_request_queue := request_queue, m_reply_queue := reply_queue,
                   m_last_reply_time := last_reply_time, m_title_id := title_id,
                   m_ppc_uid := uid, m_ppc_gid := gid }
          w { mode := PointerWrap.Mode.MODE_READ, items := rest } := by
  have hlen : names.length = (mapEntries k.m_device_map).length := by
    rw [hnames]
    exact (List.length_insertionSort _ _).symm
  simp only [DoState, stateHeader, List.cons_append, List.nil_append, List.append_assoc,
    PointerWrap.DoQueue, PointerWrap.DoU64, PointerWrap.DoU32,
    PointerWrap.DoU16, PointerWrap.DoIOSC, PointerWrap.Do, if_neg h,
    DoState.devices_read _ names rest hlen, if_true]

theorem DoState_read_MIOS (c : Consts) (P : Platform) (k : Kernel) (w : Sys)
    (request_queue reply_queue : List Nat) (last_reply_time title_id uid gid : Nat)
    (rest : List Item) (h : title_id = P.MIOS) :
    DoState c P k w
        { mode := PointerWrap.Mode.MODE_READ,
          items := stateHeader request_queue reply_queue last_reply_time title_id uid gid
            ++ rest }
      = some ({ k with m_request_queue := request_queue, m_reply_queue := reply_queue,
                       m_last_reply_time := last_reply_time, m_title_id := title_id,
                       m_ppc_uid := uid, m_ppc_gid := gid },
              w, { mode := PointerWrap.Mode.MODE_READ, items := rest }) := by
  simp only [DoState, stateHeader, List.cons_append, List.nil_append,
    PointerWrap.DoQueue, PointerWrap.DoU64, PointerWrap.DoU32,
    PointerWrap.DoU16, PointerWrap.DoIOSC, PointerWrap.Do, if_pos h]

theorem AddDevice.each_registry (names : List String) :
    ∀ (k : Kernel) (w : Sys) (k1 : Kernel) (w1 : Sys),
      AddDevice.each k w names = Except.ok (k1, w1) →
      (∀ n d, k.m_device_map.lookup n = some d →
        d.deviceType = DeviceType.Static ∧ d.name = n) →
      ∀ n d, k1.m_device_map.lookup n = some d →
        d.deviceType = DeviceType.Static ∧ d.name = n := by
  induction names with
  | nil =>
    intro k w k1 w1 h hk
    cases h
    exact hk
  | cons name names ih =>
    intro k w k1 w1 h hk
    simp only [AddDevice.each, AddDevice, makeStaticDevice, if_true] at h
    refine ih _ _ k1 w1 h ?_
    intro n d hd
    simp only [lookup_mapAssign] at hd
    by_cases hn : n = name
    · rw [if_pos hn] at hd
      cases hd
      exact ⟨rfl, hn.symm⟩
    · rw [if_neg hn] at hd
      exact hk n d hd

theorem EmulationKernel_registry (P : Platform) (w : Sys) (title_id : Nat) (k : Kernel)
    (w1 : Sys) (h : EmulationKernel P w title_id = Except.ok (k, w1)) :
    ∀ n d, GetDeviceByName k n = some d → d.deviceType = DeviceType.Static ∧ d.name = n := by
  unfold EmulationKernel at h
  simp only at h
  split_ifs at h with hm
  · cases h
    intro n d hd
    simp [GetDeviceByName, Kernel.new] at hd
  · unfold AddCoreDevices at h
    split at h
    · cases h
    · rename_i ka wa ha
      unfold AddStaticDevices at h
      have e1 := AddDevice.each_registry _ _ _ ka wa ha
        (by intro n d hd; simp [Kernel.new] at hd)
      exact AddDevice.each_registry _ _ _ k w1 h e1

theorem lookup_isSome_iff_mem_keys (m : List (String × Device)) (n : String) :
    (m.lookup n).isSome = true ↔ n ∈ m.map Prod.fst := by
  induction m with
  | nil => simp [List.lookup]
  | cons p rest ih =>
    obtain ⟨pn, pd⟩ := p
    by_cases h : n = pn
    · subst h
      simp [List.lookup]
    · have hb : (n == pn) = false := by simpa using h
      simp only [List.lookup, hb, List.map_cons, List.mem_cons, h, false_or]
      exact ih

theorem DoState_round_trip (c : Consts) (P : Platform) (k : Kernel) (k' : Kernel) (w' : Sys)
    (hmios : k.m_title_id ≠ P.MIOS)
    (hlen : k.m_device_map.length = k'.m_device_map.length) :
    ∃ k2 w2,
      DoState c P k' w' { mode := PointerWrap.Mode.MODE_READ, items := savedLayout c k }
        = some (k2, w2, { mode := PointerWrap.Mode.MODE_READ, items := [] }) ∧
      k2.m_request_queue = k.m_request_queue ∧ k2.m_reply_queue = k.m_reply_queue ∧
      k2.m_last_reply_time = k.m_last_reply_time ∧ k2.m_title_id = k.m_title_id ∧
      k2.m_ppc_uid = k.m_ppc_uid ∧ k2.m_ppc_gid = k.m_ppc_gid ∧
      k2.m_ack_queue = k'.m_ack_queue ∧ k2.m_device_map = k'.m_device_map ∧
      (∀ i, c.IPC_MAX_FDS ≤ i → k2.m_fdmap i = k'.m_fdmap i) ∧
      (∀ i, i < c.IPC_MAX_FDS →
        (k.m_fdmap i = none → k2.m_fdmap i = k'.m_fdmap i) ∧
        (∀ d, k.m_fdmap i = some d → d.deviceType = DeviceType.Static →
          k2.m_fdmap i = GetDeviceByName k' d.name) ∧
        (∀ d, k.m_fdmap i = some d → d.deviceType ≠ DeviceType.Static →
          ∃ d2, k2.m_fdmap i = some d2 ∧ d2.deviceType = d.deviceType ∧
            d2.name = d.name)) := by
  obtain ⟨k2, w2, e1, e2, e3, e4⟩ :=
    DoState.readDescriptors_records k.m_fdmap c.IPC_MAX_FDS 0
      { k' with m_request_queue := k.m_request_queue, m_reply_queue := k.m_reply_queue,
                m_last_reply_time := k.m_last_reply_time, m_title_id := k.m_title_id,
                m_ppc_uid := k.m_ppc_uid, m_ppc_gid := k.m_ppc_gid }
      w' []
  refine ⟨k2, w2, ?_, ?_⟩
  · have hn : ((mapEntries k.m_device_map).map (fun entry => entry.2.name)).length
        = k'.m_device_map.length := by
      rw [List.length_map, ← hlen]
      exact List.length_insertionSort _ _
    have hread := DoState_read c P k' w' k.m_request_queue k.m_reply_queue
      k.m_last_reply_time k.m_title_id k.m_ppc_uid k.m_ppc_gid
      ((mapEntries k.m_device_map).map (fun entry => entry.2.name))
      ((List.range c.IPC_MAX_FDS).flatMap (fun i => descriptorRecord (k.m_fdmap i)) ++ [])
      hn hmios
    rw [List.range_eq_range', e1] at hread
    rw [← hread]
    simp [savedLayout, List.map_map, Function.comp_def, List.range_eq_range']
  · rw [e2]
    refine ⟨rfl, rfl, rfl, rfl, rfl, rfl, rfl, rfl, ?_, ?_⟩
    · intro i hi
      exact e3 i (Or.inr (by omega))
    · intro i hi
      exact e4 i (Nat.zero_le _) (by omega)

theorem DoState_round_trip_MIOS (c : Consts) (P : Platform) (k : Kernel) (k' : Kernel)
    (w' : Sys) (hmios : k.m_title_id = P.MIOS) :
    DoState c P k' w'
        { mode := PointerWrap.Mode.MODE_READ,
          items := stateHeader k.m_request_queue k.m_reply_queue k.m_last_reply_time
            k.m_title_id k.m_ppc_uid k.m_ppc_gid }
      = some ({ k' with m_request_queue := k.m_request_queue,
                        m_reply_queue := k.m_reply_queue,
                        m_last_reply_time := k.m_last_reply_time,
                        m_title_id := k.m_title_id,
                        m_ppc_uid := k.m_ppc_uid, m_ppc_gid := k.m_ppc_gid },
              w', { mode := PointerWrap.Mode.MODE_READ, items := [] }) := by
  have h := DoState_read_MIOS c P k' w' k.m_request_queue k.m_reply_queue
    k.m_last_reply_time k.m_title_id k.m_ppc_uid k.m_ppc_gid [] hmios
  rw [List.append_nil] at h
  exact h

/-! ## C26 -/

/-- C26 (as stated, refuted): the snapshot of `savedKernel`, a kernel of IOS 80 with the
Registry its constructor builds, is not the seven leading items followed at once by the
per-descriptor records: the eighth item written is the state of the Registry device
"/dev/di", where the claimed layout has the in-use flag of slot 0. -/
theorem C26_counterexample_registry_devices_serialized :
    savedKernel.m_title_id ≠ examplePlatform.MIOS ∧
    (DoState threeSlotConsts examplePlatform savedKernel bootedSys emptyWriter).map
        (fun r => r.2.2.items)
      ≠ some (claimedLayout threeSlotConsts savedKernel) ∧
    (DoState threeSlotConsts examplePlatform savedKernel bootedSys emptyWriter).map
        (fun r => r.2.2.items.get? 7)
      = some (some (Item.DeviceState "/dev/di")) ∧
    (claimedLayout threeSlotConsts savedKernel).get? 7 = some (Item.U32 0) := by
  decide

/-- C26 (amended): for a kernel whose title id is not MIOS, `DoState` in write mode returns
with the kernel and the system as they were and appends to the stream exactly
`savedLayout`: request queue, reply queue, `last_reply_time`, title id, uid, gid,
cryptographic-subsystem state, then the serialized state of every Registry device in the
order of the names, then the `IPC_MAX_FDS` per-descriptor records (in-use flag; if in use,
the device-type tag and the name of a Static device or the own state of another device).
That is the claimed layout exactly when the Registry is empty. -/
theorem C26_snapshot_layout (c : Consts) (P : Platform) (k : Kernel) (w : Sys)
    (its : List Item) (h : k.m_title_id ≠ P.MIOS) :
    DoState c P k w { mode := PointerWrap.Mode.MODE_WRITE, items := its }
      = some (k, w, { mode := PointerWrap.Mode.MODE_WRITE,
                      items := its ++ savedLayout c k }) ∧
    (savedLayout c k = claimedLayout c k ↔ k.m_device_map = []) := by
  refine ⟨DoState_write c P k w its h, ?_⟩
  unfold savedLayout claimedLayout
  rw [List.append_assoc, List.append_right_inj]
  constructor
  · intro heq
    have hl := congrArg List.length heq
    rw [List.length_append, List.length_map] at hl
    have h0 : (mapEntries k.m_device_map).length = 0 := by omega
    rw [mapEntries, List.length_insertionSort] at h0
    exact List.length_eq_zero.mp h0
  · intro hnil
    rw [hnil]
    rfl

/-- C26 (amended) at a concrete input: the snapshot of `savedKernel` on an empty stream. -/
theorem C26_snapshot_layout_witness :
    savedKernel.m_title_id ≠ examplePlatform.MIOS ∧
    DoState threeSlotConsts examplePlatform savedKernel bootedSys
        { mode := PointerWrap.Mode.MODE_WRITE, items := [] }
      = some (savedKernel, bootedSys,
          { mode := PointerWrap.Mode.MODE_WRITE,
            items := [] ++ savedLayout threeSlotConsts savedKernel }) :=
  ⟨by decide,
   (C26_snapshot_layout threeSlotConsts examplePlatform savedKernel bootedSys []
      (by decide)).1⟩

/-! ## C25 -/

/-- C25 (as stated, refuted): `savedKernel` has the acknowledgement 0x3000 pending; after its
snapshot is restored into the freshly constructed `bootedKernel`, the request and the reply
queue are those of `savedKernel` and the acknowledgement queue is empty. -/
theorem C25_counterexample_ack_queue_not_restored :
    savedKernel.m_ack_queue = [0x3000] ∧
    restoredKernel.map (fun k => k.m_request_queue) = some [0x1000] ∧
    restoredKernel.map (fun k => k.m_reply_queue) = some [0x2000] ∧
    restoredKernel.map (fun k => k.m_ack_queue) = some [] := by
  decide

/-- C25 (amended): a snapshot followed by a restore into a freshly constructed kernel of the
same version (with as many Registry devices) reproduces the request queue and the reply
queue; the acknowledgement queue is not part of the snapshot: after the restore it is the
one of the freshly constructed kernel, which is empty, whatever was pending at snapshot
time. -/
theorem C25_round_trip_queues (c : Consts) (P : Platform) (k : Kernel) (w w0 : Sys)
    (k' : Kernel) (w' : Sys)
    (hfresh : EmulationKernel P w0 k.m_title_id = Except.ok (k', w'))
    (hreg : k.m_device_map.length = k'.m_device_map.length) :
    ∃ items k2 w2,
      DoState c P k w { mode := PointerWrap.Mode.MODE_WRITE, items := [] }
        = some (k, w, { mode := PointerWrap.Mode.MODE_WRITE, items := items }) ∧
      DoState c P k' w' { mode := PointerWrap.Mode.MODE_READ, items := items }
        = some (k2, w2, { mode := PointerWrap.Mode.MODE_READ, items := [] }) ∧
      k2.m_request_queue = k.m_request_queue ∧ k2.m_reply_queue = k.m_reply_queue ∧
      k2.m_ack_queue = [] := by
  have hack : k'.m_ack_queue = [] := (EmulationKernel_queues P w0 _ k' w' hfresh).2.2.1
  by_cases hmios : k.m_title_id = P.MIOS
  · refine ⟨_,
      { k' with m_request_queue := k.m_request_queue, m_reply_queue := k.m_reply_queue,
                m_last_reply_time := k.m_last_reply_time, m_title_id := k.m_title_id,
                m_ppc_uid := k.m_ppc_uid, m_ppc_gid := k.m_ppc_gid },
      w', DoState_write_MIOS c P k w [] hmios, ?_, rfl, rfl, hack⟩
    rw [List.nil_append]
    exact DoState_round_trip_MIOS c P k k' w' hmios
  · obtain ⟨k2, w2, e1, e2, e3, _, _, _, _, e8, _⟩ :=
      DoState_round_trip c P k k' w' hmios hreg
    refine ⟨_, k2, w2, DoState_write c P k w [] hmios, ?_, e2, e3, e8.trans hack⟩
    rw [List.nil_append]
    exact e1

/-- C25 (amended) at a concrete input: `savedKernel` restored into `bootedKernel`. -/
theorem C25_round_trip_queues_witness :
    EmulationKernel examplePlatform (exampleSys readRecordMem 0) savedKernel.m_title_id
      = Except.ok (bootedKernel, bootedSys) ∧
    savedKernel.m_device_map.length = bootedKernel.m_device_map.length ∧
    ∃ items k2 w2,
      DoState threeSlotConsts examplePlatform savedKernel bootedSys
          { mode := PointerWrap.Mode.MODE_WRITE, items := [] }
        = some (savedKernel, bootedSys,
            { mode := PointerWrap.Mode.MODE_WRITE, items := items }) ∧
      DoState threeSlotConsts examplePlatform bootedKernel bootedSys
          { mode := PointerWrap.Mode.MODE_READ, items := items }
        = some (k2, w2, { mode := PointerWrap.Mode.MODE_READ, items := [] }) ∧
      k2.m_request_queue = savedKernel.m_request_queue ∧
      k2.m_reply_queue = savedKernel.m_reply_queue ∧
      k2.m_ack_queue = [] :=
  ⟨rfl, rfl,
   C25_round_trip_queues threeSlotConsts examplePlatform savedKernel bootedSys
     (exampleSys readRecordMem 0) bootedKernel bootedSys rfl rfl⟩

/-! ## C30 -/

/-- C30: `DoState` in read mode on a stream of the seven leading items, one state per
Registry device and the per-descriptor records `records 0`, ... (`none` is a record whose
in-use flag is 0) returns, and every slot whose record has the flag 0 holds afterwards the
device it held before, bound or not; a slot that holds something else afterwards is one of
the `IPC_MAX_FDS` slots whose record has the flag 1 (such a slot is assigned what
`GetDeviceByName` gives for a Static record, or a new device). -/
theorem C30_restore_keeps_unflagged_slots (c : Consts) (P : Platform) (k : Kernel) (w : Sys)
    (request_queue reply_queue : List Nat) (last_reply_time title_id uid gid : Nat)
    (names : List String) (records : Nat → Option Device)
    (hnames : names.length = k.m_device_map.length) :
    ∃ k2 w2 p2,
      DoState c P k w
          { mode := PointerWrap.Mode.MODE_READ,
            items := stateHeader request_queue reply_queue last_reply_time title_id uid gid
              ++ names.map Item.DeviceState
              ++ (List.range c.IPC_MAX_FDS).flatMap (fun i => descriptorRecord (records i)) }
        = some (k2, w2, p2) ∧
      (∀ i, records i = none → k2.m_fdmap i = k.m_fdmap i) ∧
      (∀ i, k2.m_fdmap i ≠ k.m_fdmap i →
        i < c.IPC_MAX_FDS ∧ (records i).isSome = true) := by
  by_cases hmios : title_id = P.MIOS
  · have hread := DoState_read_MIOS c P k w request_queue reply_queue last_reply_time
      title_id uid gid
      (names.map Item.DeviceState
        ++ (List.range c.IPC_MAX_FDS).flatMap (fun i => descriptorRecord (records i)))
      hmios
    rw [← List.append_assoc] at hread
    exact ⟨_, _, _, hread, fun i _ => rfl, fun i hi => absurd rfl hi⟩
  · obtain ⟨k2, w2, e1, _, e3, e4⟩ :=
      DoState.readDescriptors_records records c.IPC_MAX_FDS 0
        { k with m_request_queue := request_queue, m_reply_queue := reply_queue,
                 m_last_reply_time := last_reply_time, m_title_id := title_id,
                 m_ppc_uid := uid, m_ppc_gid := gid }
        w []
    have hread := DoState_read c P k w request_queue reply_queue last_reply_time title_id
      uid gid names
      ((List.range c.IPC_MAX_FDS).flatMap (fun i => descriptorRecord (records i)) ++ [])
      hnames hmios
    rw [← List.range_eq_range'] at e1
    rw [e1, List.append_nil] at hread
    have hkeep : ∀ i, records i = none → k2.m_fdmap i = k.m_fdmap i := by
      intro i hi
      by_cases hlt : i < c.IPC_MAX_FDS
      · exact (e4 i (Nat.zero_le _) (by omega)).1 hi
      · exact e3 i (Or.inr (by omega))
    refine ⟨k2, w2, _, hread, hkeep, ?_⟩
    intro i hne
    by_cases hlt : i < c.IPC_MAX_FDS
    · refine ⟨hlt, ?_⟩
      cases hr : records i with
      | none => exact absurd (hkeep i hr) hne
      | some d => rfl
    · exact absurd (e3 i (Or.inr (by omega))) hne

/-- C30 at a concrete input: a kernel with "/dev/fs" bound to slot 1 and a stream whose
record for slot 0 has the flag 1 and whose records for slots 1 and 2 have the flag 0: slot 1
still holds "/dev/fs". -/
theorem C30_restore_keeps_unflagged_slots_witness :
    ["/dev/es", "/dev/fs"].length = (exampleKernel slotOneBound 0).m_device_map.length ∧
    ∃ k2 w2 p2,
      DoState threeSlotConsts examplePlatform (exampleKernel slotOneBound 0)
          (exampleSys readRecordMem 0)
          { mode := PointerWrap.Mode.MODE_READ,
            items := stateHeader [] [] 0 titleIOS80 0 0
              ++ ["/dev/es", "/dev/fs"].map Item.DeviceState
              ++ (List.range threeSlotConsts.IPC_MAX_FDS).flatMap
                  (fun i => descriptorRecord (if i = 0 then some exampleFS else none)) }
        = some (k2, w2, p2) ∧
      k2.m_fdmap 1 = some exampleFS :=
  ⟨rfl,
   match C30_restore_keeps_unflagged_slots threeSlotConsts examplePlatform
      (exampleKernel slotOneBound 0) (exampleSys readRecordMem 0) [] [] 0 titleIOS80 0 0
      ["/dev/es", "/dev/fs"] (fun i => if i = 0 then some exampleFS else none) rfl with
   | ⟨k2, w2, p2, h1, h2, _⟩ => ⟨k2, w2, p2, h1, h2 1 rfl⟩⟩

/-! ## C24 -/

/-- C24: for a kernel `k` whose title id is not MIOS, whose Registry holds the names the
constructor registers for that version and whose bound Static devices are registered under
their names, `DoState` in write mode on an empty stream returns with `k` as it was, and
`DoState` in read mode on the items written, into the kernel `EmulationKernel` constructs
for the same title id, returns with the stream consumed and a kernel with the request queue,
the reply queue, `last_reply_time`, the title id, uid and gid of `k`, in which every slot
below `IPC_MAX_FDS` is bound iff it was bound in `k`; a bound slot holds a device of the
same type and name, and for a Static device it holds the device the Registry of the new
kernel has under that name. -/
theorem C24_snapshot_restore_round_trip (c : Consts) (P : Platform) (k : Kernel) (w w0 : Sys)
    (k' : Kernel) (w' : Sys)
    (hmios : k.m_title_id ≠ P.MIOS)
    (hfresh : EmulationKernel P w0 k.m_title_id = Except.ok (k', w'))
    (hreg : k.m_device_map.map Prod.fst = k'.m_device_map.map Prod.fst)
    (hbound : ∀ i, i < c.IPC_MAX_FDS → ∀ d, d ∈ k.m_fdmap i →
      d.deviceType = DeviceType.Static → (GetDeviceByName k d.name).isSome = true) :
    ∃ items k2 w2,
      DoState c P k w { mode := PointerWrap.Mode.MODE_WRITE, items := [] }
        = some (k, w, { mode := PointerWrap.Mode.MODE_WRITE, items := items }) ∧
      DoState c P k' w' { mode := PointerWrap.Mode.MODE_READ, items := items }
        = some (k2, w2, { mode := PointerWrap.Mode.MODE_READ, items := [] }) ∧
      k2.m_request_queue = k.m_request_queue ∧ k2.m_reply_queue = k.m_reply_queue ∧
      k2.m_last_reply_time = k.m_last_reply_time ∧ k2.m_title_id = k.m_title_id ∧
      k2.m_ppc_uid = k.m_ppc_uid ∧ k2.m_ppc_gid = k.m_ppc_gid ∧
      ∀ i, i < c.IPC_MAX_FDS →
        ((k2.m_fdmap i).isSome = (k.m_fdmap i).isSome) ∧
        ∀ d, k.m_fdmap i = some d →
          ∃ d2, k2.m_fdmap i = some d2 ∧ d2.deviceType = d.deviceType ∧
            d2.name = d.name ∧
            (d.deviceType = DeviceType.Static → GetDeviceByName k' d.name = some d2) := by
  have hlen : k.m_device_map.length = k'.m_device_map.length := by
    have := congrArg List.length hreg
    simpa using this
  obtain ⟨k2, w2, e1, e2, e3, e4, e5, e6, e7, _, _, _, e11⟩ :=
    DoState_round_trip c P k k' w' hmios hlen
  have hnone : ∀ i, k'.m_fdmap i = none := EmulationKernel_fdmap P w0 _ k' w' hfresh
  have hstatic : ∀ i, i < c.IPC_MAX_FDS → ∀ d, k.m_fdmap i = some d →
      d.deviceType = DeviceType.Static →
      ∃ d2, GetDeviceByName k' d.name = some d2 ∧ d2.deviceType = d.deviceType ∧
        d2.name = d.name := by
    intro i hi d hd hst
    have h1 := hbound i hi d (by rw [hd]; rfl) hst
    unfold GetDeviceByName at h1
    rw [lookup_isSome_iff_mem_keys, hreg, ← lookup_isSome_iff_mem_keys] at h1
    obtain ⟨d2, hd2⟩ := Option.isSome_iff_exists.mp h1
    obtain ⟨t1, t2⟩ := EmulationKernel_registry P w0 _ k' w' hfresh d.name d2 hd2
    exact ⟨d2, hd2, by rw [t1, hst], t2⟩
  refine ⟨_, k2, w2, DoState_write c P k w [] hmios, ?_, e2, e3, e4, e5, e6, e7, ?_⟩
  · rw [List.nil_append]
    exact e1
  · intro i hi
    obtain ⟨a1, a2, a3⟩ := e11 i hi
    have hd2 : ∀ d, k.m_fdmap i = some d →
        ∃ d2, k2.m_fdmap i = some d2 ∧ d2.deviceType = d.deviceType ∧
          d2.name = d.name ∧
          (d.deviceType = DeviceType.Static → GetDeviceByName k' d.name = some d2) := by
      intro d hd
      by_cases hst : d.deviceType = DeviceType.Static
      · obtain ⟨d2, b1, b2, b3⟩ := hstatic i hi d hd hst
        exact ⟨d2, (a2 d hd hst).trans b1, b2, b3, fun _ => b1⟩
      · obtain ⟨d2, b1, b2, b3⟩ := a3 d hd hst
        exact ⟨d2, b1, b2, b3, fun h => absurd h hst⟩
    refine ⟨?_, hd2⟩
    cases hk : k.m_fdmap i with
    | none => rw [a1 hk, hnone i]
    | some d =>
      obtain ⟨d2, b1, _⟩ := hd2 d hk
      rw [b1]
      rfl

/-- C24 at a concrete input: `savedKernel` restored into `bootedKernel`: slot 0 is free and
slot 1 holds the "/dev/fs" of the new Registry. -/
theorem C24_snapshot_restore_round_trip_witness :
    savedKernel.m_title_id ≠ examplePlatform.MIOS ∧
    EmulationKernel examplePlatform (exampleSys readRecordMem 0) savedKernel.m_title_id
      = Except.ok (bootedKernel, bootedSys) ∧
    ∃ items k2 w2,
      DoState threeSlotConsts examplePlatform savedKernel bootedSys
          { mode := PointerWrap.Mode.MODE_WRITE, items := [] }
        = some (savedKernel, bootedSys,
            { mode := PointerWrap.Mode.MODE_WRITE, items := items }) ∧
      DoState threeSlotConsts examplePlatform bootedKernel bootedSys
          { mode := PointerWrap.Mode.MODE_READ, items := items }
        = some (k2, w2, { mode := PointerWrap.Mode.MODE_READ, items := [] }) ∧
      k2.m_request_queue = [0x1000] ∧ k2.m_last_reply_time = 77 ∧
      (k2.m_fdmap 0).isSome = false ∧
      k2.m_fdmap 1 = GetDeviceByName bootedKernel "/dev/fs" :=
  ⟨by decide, rfl,
   match C24_snapshot_restore_round_trip threeSlotConsts examplePlatform savedKernel
      bootedSys (exampleSys readRecordMem 0) bootedKernel bootedSys (by decide) rfl rfl
      (by decide) with
   | ⟨items, k2, w2, h1, h2, h3, _, h5, _, _, _, h9⟩ =>
     ⟨items, k2, w2, h1, h2, h3, h5, (h9 0 (by decide)).1,
      match (h9 1 (by decide)).2 _ rfl with
      | ⟨_, g1, _, _, g4⟩ => g1.trans (g4 rfl).symm⟩⟩

end IOS.HLE
